import Mathlib

/-!
# CS47L92 codec driver: sequencing procedures

A shallow embedding of imperative procedures of
`sound/soc/codecs/cs47l92.c` (`cs47l92_put_demux`, `cs47l92_asrc_ev`,
`cs47l92_set_fll`, `cs47l92_open`, `cs47l92_probe`, `cs47l92_adsp_power_ev`,
`cs47l92_adsp2_irq`, `cs47l92_codec_probe`) and of its tables
(`cs47l92_dapm_widgets`, `cs47l92_dapm_routes`, `cs47l92_dai`).  Kernel services the driver calls (regmap, DAPM, the
madera core) are not part of the file; they are modelled as recorded events
whose results are supplied by an environment, so that every failure pattern
of the hardware accesses is covered.  `unsigned int` is `Nat` reduced modulo
`2 ^ 32`, `int` is `Int`.
-/

namespace Cs47l92

/-! ## Machine arithmetic -/

/-- Truncation of a natural number to `unsigned int`. -/
def u32 (n : Nat) : Nat := n % 2 ^ 32

/-- The C expression `~n` on `unsigned int`. -/
def u32_not (n : Nat) : Nat := (2 ^ 32 - 1) ^^^ u32 n

/-- The C expression `a - b` on `unsigned int` (wraps around). -/
def u32_sub (a b : Nat) : Nat := (u32 a + 2 ^ 32 - u32 b) % 2 ^ 32

/-- Conversion of an `int` to `unsigned int`, as done by an assignment. -/
def int_to_u32 (r : Int) : Nat := (r % (2 ^ 32 : Int)).toNat

/-! ## Constants of headers that are outside the file -/

/-- Constants that `cs47l92.c` takes from `linux/mfd/madera/registers.h`,
`linux/mfd/madera/pdata.h`, `madera.h` and `errno.h`.  Their values are not
in the driver source, so the embedding is parameterised by them. -/
structure Hdr where
  MADERA_OUTPUT_ENABLES_1 : Nat
  MADERA_OUT3L_ENA : Nat
  MADERA_OUT3R_ENA : Nat
  MADERA_EP_SEL : Nat
  MADERA_EP_SEL_SHIFT : Nat
  MADERA_MAX_ACCESSORY : Nat
  MADERA_ASRC1_RATE1_MASK : Nat
  MADERA_ASRC1_RATE1_SHIFT : Nat
  MADERA_FLL1_REFCLK : Int
  MADERA_FLL2_REFCLK : Int
  EINVAL : Int
  MADERA_MAX_OUTPUT : Nat
  EPROBE_DEFER : Int
  ENOMEM : Int
  ENODEV : Int
  SND_SOC_DAPM_PRE_PMU : Int
  MADERA_DSP_CLOCK_2 : Nat
  MADERA_AUXPDM1_CTRL_0 : Nat
  MADERA_AUXPDM1_MSTR_MASK : Nat
  MADERA_AUXPDM1_TXEDGE_MASK : Nat

/-- The values these constants have in the mainline kernel headers; used as
the concrete instance at which the theorems are exercised. -/
def mainline : Hdr where
  MADERA_OUTPUT_ENABLES_1 := 0x400
  MADERA_OUT3L_ENA := 0x20
  MADERA_OUT3R_ENA := 0x10
  MADERA_EP_SEL := 0x8000
  MADERA_EP_SEL_SHIFT := 15
  MADERA_MAX_ACCESSORY := 1
  MADERA_ASRC1_RATE1_MASK := 0xF800
  MADERA_ASRC1_RATE1_SHIFT := 11
  MADERA_FLL1_REFCLK := 1
  MADERA_FLL2_REFCLK := 2
  EINVAL := 22
  MADERA_MAX_OUTPUT := 6
  EPROBE_DEFER := 517
  ENOMEM := 12
  ENODEV := 19
  SND_SOC_DAPM_PRE_PMU := 1
  MADERA_DSP_CLOCK_2 := 0x122
  MADERA_AUXPDM1_CTRL_0 := 0x10C0
  MADERA_AUXPDM1_MSTR_MASK := 0x8
  MADERA_AUXPDM1_TXEDGE_MASK := 0x10

/-- What the driver relies on about the register constants: the OUT3 enable
bits and EP_SEL are 32-bit masks, EP_SEL is the single bit at
`MADERA_EP_SEL_SHIFT`, and it is neither of the OUT3 enable bits. -/
structure Hdr.WF (h : Hdr) : Prop where
  shift_lt : h.MADERA_EP_SEL_SHIFT < 32
  ep_sel_eq : h.MADERA_EP_SEL = 1 <<< h.MADERA_EP_SEL_SHIFT
  ena_lt : h.MADERA_OUT3L_ENA ||| h.MADERA_OUT3R_ENA < 2 ^ 32
  disjoint : h.MADERA_EP_SEL &&& (h.MADERA_OUT3L_ENA ||| h.MADERA_OUT3R_ENA) = 0

/-! ## Data model -/

/-- The fields of `struct soc_enum` that `cs47l92_put_demux` reads. -/
structure soc_enum where
  reg : Nat
  shift_l : Nat
  items : Nat
  mask : Nat

/-- The driver-visible part of `struct madera`: the register map behind
`madera->regmap`, the cached `hp_ena`, and the platform data arrays
`pdata.accdet[i].output` and `pdata.codec.out_mono[i]`. -/
structure madera where
  regmap : Nat → Nat
  hp_ena : Nat
  accdet_output : Nat → Nat
  out_mono : Nat → Bool

/-- Messages of the `dev_warn` / `dev_err` calls of the file. -/
inductive Msg where
  | read_current
  | disable_outputs
  | set_ep_sel
  | set_output_mode
  | restore_outputs
  | rate_too_high
  deriving DecidableEq, Repr

/-- Calls into the kernel made by the procedures, in the order they happen. -/
inductive Event where
  | dapm_mutex_lock
  | dapm_mutex_unlock
  | test_bits (reg mask value : Nat)
  | regmap_read (reg : Nat)
  | regmap_update_bits (reg mask val : Nat)
  | usleep_range (lo hi : Nat)
  | msleep (ms : Nat)
  | set_output_mode (output : Nat) (differential : Bool)
  | dev_warn (msg : Msg) (ret : Int)
  | dev_err (msg : Msg) (ret : Int)
  | dev_err_plain (msg : Msg)
  | mux_update_power (mux : Nat)
  | sample_rate_val_to_rate (val : Nat)
  deriving DecidableEq, Repr

/-- One recorded call together with the content of MADERA_OUTPUT_ENABLES_1
at the moment the call is made. -/
structure Obs where
  ev : Event
  enables : Nat
  deriving DecidableEq, Repr

/-- Running state of a procedure: the register map and the calls so far. -/
structure Run where
  regmap : Nat → Nat
  trace : List Obs

/-- Results of the kernel services during one call of `cs47l92_put_demux`.
Every call site is executed at most once, so one field per call site
describes every possible behaviour.  `cur_uninit` is the indeterminate
content of the local `cur`, which the function does not initialise. -/
structure Env where
  test_ret : Int
  read_ret : Int
  disable_ret : Int
  sel_ret : Int
  mode_ret : Int
  restore_ret : Int
  cur_uninit : Nat
  power : Nat → Int

/-! ## Kernel services -/

/-- Append a call to the trace. -/
def emit (h : Hdr) (s : Run) (ev : Event) : Run :=
  { s with trace := s.trace ++ [⟨ev, s.regmap h.MADERA_OUTPUT_ENABLES_1⟩] }

/-- Modelled from the spec: `regmap_read` is a kernel service outside the
file.  It returns `ret`; on `ret = 0` the register content is stored through
the pointer, otherwise the pointee `old` keeps its content. -/
def regmap_read (h : Hdr) (ret : Int) (s : Run) (reg old : Nat) : Int × Nat × Run :=
  if ret = 0 then (0, s.regmap reg, emit h s (.regmap_read reg))
  else (ret, old, emit h s (.regmap_read reg))

/-- The register content `(old & ~mask) | (val & mask)` that a successful
`regmap_update_bits` leaves behind. -/
def updated (old mask val : Nat) : Nat := (old &&& u32_not mask) ||| (val &&& mask)

/-- Modelled from the spec: `regmap_update_bits` is a kernel service outside
the file.  It returns `ret`; on `ret = 0` the bits of `mask` take the value
they have in `val` and all other bits keep theirs, otherwise the register is
left as it was. -/
def regmap_update_bits (h : Hdr) (ret : Int) (s : Run) (reg mask val : Nat) : Int × Run :=
  if ret = 0 then
    (0, { emit h s (.regmap_update_bits reg mask val) with
          regmap := Function.update s.regmap reg (updated (s.regmap reg) mask val) })
  else (ret, emit h s (.regmap_update_bits reg mask val))

/-- Modelled from the spec: `snd_soc_test_bits` is a kernel service outside
the file.  `ret` is the result of its register read; a negative result is
returned as is, otherwise the answer is whether writing `value` under `mask`
would change the register. -/
def snd_soc_test_bits (h : Hdr) (ret : Int) (s : Run) (reg mask value : Nat) : Int × Run :=
  if ret < 0 then (ret, emit h s (.test_bits reg mask value))
  else
    (if s.regmap reg ≠ ((s.regmap reg &&& u32_not mask) ||| value) then 1 else 0,
     emit h s (.test_bits reg mask value))

/-- Modelled from the spec: `madera_set_output_mode` belongs to the madera
core outside the file.  It returns `ret` and does not touch
MADERA_OUTPUT_ENABLES_1. -/
def madera_set_output_mode (h : Hdr) (ret : Int) (s : Run) (output : Nat)
    (differential : Bool) : Int × Run :=
  (ret, emit h s (.set_output_mode output differential))

/-! ## `cs47l92_put_demux` -/

/-- The entries of `cs47l92_outdemux_texts`, by position. -/
inductive OutDemuxText where
  | HPOUT3
  | HPOUT4
  deriving DecidableEq, Repr

/-- The table `cs47l92_outdemux_texts`. -/
def cs47l92_outdemux_texts : List OutDemuxText := [.HPOUT3, .HPOUT4]

/-- Doubling loop behind `roundup_pow_of_two`. -/
def roundup_loop (n : Nat) : Nat → Nat → Nat
  | 0, p => p
  | fuel + 1, p => if p < n then roundup_loop n fuel (2 * p) else p

/-- The kernel helper `roundup_pow_of_two`: the least power of two that is
not below `n`. -/
def roundup_pow_of_two (n : Nat) : Nat := roundup_loop n n 1

/-- Modelled from the spec: `SOC_ENUM_SINGLE_DECL` is a kernel header
definition outside the file.  It declares the two-entry OUT3 Demux enum on
MADERA_OUTPUT_ENABLES_1 at MADERA_EP_SEL_SHIFT, with one item per text and
the mask that covers the item indices. -/
def cs47l92_outdemux_enum (h : Hdr) : soc_enum where
  reg := h.MADERA_OUTPUT_ENABLES_1
  shift_l := h.MADERA_EP_SEL_SHIFT
  items := cs47l92_outdemux_texts.length
  mask := roundup_pow_of_two cs47l92_outdemux_texts.length - 1

/-- The loop over `pdata.accdet` (lines 77-82): true as soon as an entry with
`output == 3` is met at an index below MADERA_MAX_ACCESSORY. -/
def accdet_loop (output : Nat → Nat) (max : Nat) : Nat → Nat → Bool
  | 0, _ => false
  | fuel + 1, i =>
    if i < max then
      if output i = 3 then true else accdet_loop output max fuel (i + 1)
    else false

/-- Lines 84-95: the value of the local `cur` and the state after it is
obtained. -/
def read_cur (h : Hdr) (m : madera) (env : Env) (s : Run) : Nat × Run :=
  if accdet_loop m.accdet_output h.MADERA_MAX_ACCESSORY h.MADERA_MAX_ACCESSORY 0 then
    (m.hp_ena, s)
  else
    let r := regmap_read h env.read_ret s h.MADERA_OUTPUT_ENABLES_1 env.cur_uninit
    if r.1 ≠ 0 then (r.2.1, emit h r.2.2 (.dev_warn .read_current r.1))
    else (r.2.1, r.2.2)

/-- Lines 97-103: the outputs are disabled. -/
def disable_outputs (h : Hdr) (env : Env) (s : Run) : Run :=
  let r := regmap_update_bits h env.disable_ret s h.MADERA_OUTPUT_ENABLES_1
    (h.MADERA_OUT3L_ENA ||| h.MADERA_OUT3R_ENA) 0
  if r.1 ≠ 0 then emit h r.2 (.dev_warn .disable_outputs r.1) else r.2

/-- Lines 107-117: EP_SEL is written and, if that worked, the mono setting
of output 3.  The index `2 + mux` is computed in `unsigned int` (line 112). -/
def write_ep_sel (h : Hdr) (m : madera) (env : Env) (mux ep_sel : Nat) (s : Run) : Run :=
  let r := regmap_update_bits h env.sel_ret s h.MADERA_OUTPUT_ENABLES_1
    h.MADERA_EP_SEL ep_sel
  if r.1 ≠ 0 then emit h r.2 (.dev_err .set_ep_sel r.1)
  else
    let out_mono := m.out_mono (u32 (2 + mux))
    let r2 := madera_set_output_mode h env.mode_ret r.2 3 out_mono
    if r2.1 < 0 then emit h r2.2 (.dev_warn .set_output_mode r2.1) else r2.2

/-- Lines 119-129: the outputs are restored from `cur`, followed by the
write-sequencer delay. -/
def restore_outputs (h : Hdr) (env : Env) (cur : Nat) (s : Run) : Run :=
  let r := regmap_update_bits h env.restore_ret s h.MADERA_OUTPUT_ENABLES_1
    (h.MADERA_OUT3L_ENA ||| h.MADERA_OUT3R_ENA) cur
  if r.1 ≠ 0 then emit h r.2 (.dev_warn .restore_outputs r.1)
  else if cur &&& (h.MADERA_OUT3L_ENA ||| h.MADERA_OUT3R_ENA) ≠ 0 then
    emit h r.2 (.msleep 34)
  else emit h r.2 (.usleep_range 2000 3000)

/-- Lines 77-129: what `cs47l92_put_demux` does when the selection changes. -/
def demux_switch (h : Hdr) (m : madera) (env : Env) (mux ep_sel : Nat) (s : Run) : Run :=
  let c := read_cur h m env s
  let s1 := disable_outputs h env c.2
  let s2 := emit h s1 (.usleep_range 2000 3000)
  let s3 := write_ep_sel h m env mux ep_sel s2
  restore_outputs h env c.1 s3

/-- The control handler `cs47l92_put_demux`, called with the enum `e` of the
control, the device `m` and the requested item `item`
(`ucontrol->value.enumerated.item[0]`).  The result is the return value and
the final register map with the trace of calls. -/
def cs47l92_put_demux (h : Hdr) (e : soc_enum) (m : madera) (env : Env) (item : Nat) :
    Int × Run :=
  if item > u32_sub e.items 1 then (-h.EINVAL, ⟨m.regmap, []⟩)
  else
    let mux := item
    let ep_sel := u32 (mux <<< e.shift_l)
    let mask := u32 (e.mask <<< e.shift_l)
    let s0 := emit h ⟨m.regmap, []⟩ .dapm_mutex_lock
    let t := snd_soc_test_bits h env.test_ret s0 e.reg mask ep_sel
    let change := int_to_u32 t.1
    let s1 := if change = 0 then t.2 else demux_switch h m env mux ep_sel t.2
    let s2 := emit h s1 .dapm_mutex_unlock
    (env.power mux, emit h s2 (.mux_update_power mux))

/-! ## `cs47l92_asrc_ev` -/

/-- Results of the kernel services during one call of `cs47l92_asrc_ev`:
the two `regmap_read` results, the indeterminate initial content of the
local `val`, and `madera_sample_rate_val_to_rate` of the madera core. -/
structure AsrcEnv where
  read1_ret : Int
  read2_ret : Int
  val_uninit : Nat
  rate : Nat → Int

/-- Lines 220-228 and 234-242: the rate field of `val` is decoded; a negative
rate ends the handler with that value, a rate above 192000 is reported. -/
def asrc_check_rate (h : Hdr) (env : AsrcEnv) (val : Nat) (s : Run) : Option Int × Run :=
  let v := (val &&& h.MADERA_ASRC1_RATE1_MASK) >>> h.MADERA_ASRC1_RATE1_SHIFT
  let s1 := emit h s (.sample_rate_val_to_rate v)
  let rate := env.rate v
  if rate < 0 then (some rate, s1)
  else if rate > 192000 then (none, emit h s1 (.dev_err_plain .rate_too_high))
  else (none, s1)

/-- The widget event handler `cs47l92_asrc_ev` for a widget with register
`w_reg`.  The result is the return value and the trace of calls. -/
def cs47l92_asrc_ev (h : Hdr) (regmap : Nat → Nat) (env : AsrcEnv) (w_reg : Nat) : Int × Run :=
  let r1 := regmap_read h env.read1_ret ⟨regmap, []⟩ (u32 (w_reg + 2)) env.val_uninit
  if r1.1 ≠ 0 then (r1.1, r1.2.2)
  else
    match asrc_check_rate h env r1.2.1 r1.2.2 with
    | (some rate, s1) => (rate, s1)
    | (none, s1) =>
      let r2 := regmap_read h env.read2_ret s1 (u32 (w_reg + 3))
        ((r1.2.1 &&& h.MADERA_ASRC1_RATE1_MASK) >>> h.MADERA_ASRC1_RATE1_SHIFT)
      if r2.1 ≠ 0 then (r2.1, r2.2.2)
      else
        match asrc_check_rate h env r2.2.1 r2.2.2 with
        | (some rate, s2) => (rate, s2)
        | (none, s2) => (0, s2)

/-! ## `cs47l92_set_fll` -/

/-- A call of `madera_fllhj_set_refclk`: the index of the FLL in
`cs47l92->fll` and the arguments passed. -/
structure FllCall where
  index : Nat
  source : Int
  Fref : Nat
  Fout : Nat
  deriving DecidableEq, Repr

/-- The driver data `struct cs47l92`: the two FLLs, whose state type `F`
belongs to the madera core. -/
structure cs47l92 (F : Type) where
  fll0 : F
  fll1 : F

/-- The result of `cs47l92_set_fll`: the return value, the driver data
afterwards and the calls of `madera_fllhj_set_refclk` made. -/
structure FllResult (F : Type) where
  ret : Int
  data : cs47l92 F
  calls : List FllCall

/-- The function `cs47l92_set_fll`.  `set_refclk` is
`madera_fllhj_set_refclk` of the madera core, which updates the FLL it is
given and returns a status. -/
def cs47l92_set_fll {F : Type} (h : Hdr) (set_refclk : F → Int → Nat → Nat → Int × F)
    (d : cs47l92 F) (fll_id source : Int) (Fref Fout : Nat) : FllResult F :=
  if fll_id = h.MADERA_FLL1_REFCLK then
    let r := set_refclk d.fll0 source Fref Fout
    ⟨r.1, { d with fll0 := r.2 }, [⟨0, source, Fref, Fout⟩]⟩
  else if fll_id = h.MADERA_FLL2_REFCLK then
    let r := set_refclk d.fll1 source Fref Fout
    ⟨r.1, { d with fll1 := r.2 }, [⟨1, source, Fref, Fout⟩]⟩
  else ⟨-h.EINVAL, d, []⟩

/-! ## Auxiliary definitions for the statements -/

/-- The calls of a `cs47l92_put_demux` run, without the register snapshots. -/
def demux_calls (h : Hdr) (e : soc_enum) (m : madera) (env : Env) (item : Nat) : List Event :=
  (cs47l92_put_demux h e m env item).2.trace.map Obs.ev

/-- Content of MADERA_OUTPUT_ENABLES_1 when `cs47l92_put_demux` returns. -/
def demux_after (h : Hdr) (e : soc_enum) (m : madera) (env : Env) (item : Nat) : Nat :=
  (cs47l92_put_demux h e m env item).2.regmap h.MADERA_OUTPUT_ENABLES_1

/-- The mask `MADERA_OUT3L_ENA | MADERA_OUT3R_ENA`. -/
def out3_ena (h : Hdr) : Nat := h.MADERA_OUT3L_ENA ||| h.MADERA_OUT3R_ENA

/-- Writes to MADERA_OUTPUT_ENABLES_1. -/
def is_enables_write (h : Hdr) : Event → Bool
  | .regmap_update_bits reg _ _ => reg == h.MADERA_OUTPUT_ENABLES_1
  | _ => false

/-- Calls of `regmap_update_bits`. -/
def is_update : Event → Bool
  | .regmap_update_bits _ _ _ => true
  | _ => false

/-- Delays. -/
def is_sleep : Event → Bool
  | .usleep_range _ _ => true
  | .msleep _ => true
  | _ => false

/-- The result of the loop over `pdata.accdet` for the device. -/
def accdet_out (h : Hdr) (m : madera) : Bool :=
  accdet_loop m.accdet_output h.MADERA_MAX_ACCESSORY h.MADERA_MAX_ACCESSORY 0

/-- The value the local `cur` holds after lines 84-95. -/
def demux_cur (h : Hdr) (m : madera) (env : Env) : Nat :=
  (read_cur h m env ⟨m.regmap, []⟩).1

/-- The value of the local `change` (line 73). -/
def demux_change (h : Hdr) (e : soc_enum) (m : madera) (env : Env) (item : Nat) : Nat :=
  int_to_u32 (snd_soc_test_bits h env.test_ret ⟨m.regmap, []⟩ e.reg
    (u32 (e.mask <<< e.shift_l)) (u32 (item <<< e.shift_l))).1

/-- Calls of lines 84-95 when the register holds `v`. -/
def read_cur_obs (h : Hdr) (m : madera) (env : Env) (v : Nat) : List Obs :=
  if accdet_out h m then []
  else if env.read_ret = 0 then [⟨.regmap_read h.MADERA_OUTPUT_ENABLES_1, v⟩]
  else [⟨.regmap_read h.MADERA_OUTPUT_ENABLES_1, v⟩, ⟨.dev_warn .read_current env.read_ret, v⟩]

/-- Calls of lines 100-103 when the register holds `v`. -/
def disable_obs (h : Hdr) (env : Env) (v : Nat) : List Obs :=
  ⟨.regmap_update_bits h.MADERA_OUTPUT_ENABLES_1 (h.MADERA_OUT3L_ENA ||| h.MADERA_OUT3R_ENA) 0, v⟩ ::
    if env.disable_ret = 0 then [] else [⟨.dev_warn .disable_outputs env.disable_ret, v⟩]

/-- Register content after lines 100-103 when it was `v` before. -/
def disable_val (h : Hdr) (env : Env) (v : Nat) : Nat :=
  if env.disable_ret = 0 then updated v (h.MADERA_OUT3L_ENA ||| h.MADERA_OUT3R_ENA) 0 else v

/-- Register content after lines 107-117 when it was `v` before. -/
def sel_val (h : Hdr) (env : Env) (ep_sel v : Nat) : Nat :=
  if env.sel_ret = 0 then updated v h.MADERA_EP_SEL ep_sel else v

/-- Calls of lines 107-117 when the register holds `v`. -/
def sel_obs (h : Hdr) (m : madera) (env : Env) (mux ep_sel v : Nat) : List Obs :=
  ⟨.regmap_update_bits h.MADERA_OUTPUT_ENABLES_1 h.MADERA_EP_SEL ep_sel, v⟩ ::
    if env.sel_ret = 0 then
      ⟨.set_output_mode 3 (m.out_mono (u32 (2 + mux))), sel_val h env ep_sel v⟩ ::
        if env.mode_ret < 0 then [⟨.dev_warn .set_output_mode env.mode_ret, sel_val h env ep_sel v⟩]
        else []
    else [⟨.dev_err .set_ep_sel env.sel_ret, v⟩]

/-- Register content after lines 119-129 when it was `v` before. -/
def restore_val (h : Hdr) (env : Env) (cur v : Nat) : Nat :=
  if env.restore_ret = 0 then updated v (h.MADERA_OUT3L_ENA ||| h.MADERA_OUT3R_ENA) cur else v

/-- Calls of lines 119-129 when the register holds `v`. -/
def restore_obs (h : Hdr) (env : Env) (cur v : Nat) : List Obs :=
  [⟨.regmap_update_bits h.MADERA_OUTPUT_ENABLES_1 (h.MADERA_OUT3L_ENA ||| h.MADERA_OUT3R_ENA) cur, v⟩,
   if env.restore_ret = 0 then
     if cur &&& (h.MADERA_OUT3L_ENA ||| h.MADERA_OUT3R_ENA) ≠ 0 then
       ⟨.msleep 34, restore_val h env cur v⟩
     else ⟨.usleep_range 2000 3000, restore_val h env cur v⟩
   else ⟨.dev_warn .restore_outputs env.restore_ret, v⟩]

/-- Register content after lines 77-129 when it was `v` before. -/
def switch_val (h : Hdr) (m : madera) (env : Env) (ep_sel v : Nat) : Nat :=
  restore_val h env (demux_cur h m env) (sel_val h env ep_sel (disable_val h env v))

/-- Calls of lines 77-129 when the register holds `v` at the start. -/
def switch_obs (h : Hdr) (m : madera) (env : Env) (mux ep_sel v : Nat) : List Obs :=
  read_cur_obs h m env v ++ disable_obs h env v ++
    [⟨.usleep_range 2000 3000, disable_val h env v⟩] ++
    sel_obs h m env mux ep_sel (disable_val h env v) ++
    restore_obs h env (demux_cur h m env) (sel_val h env ep_sel (disable_val h env v))

/-- Register content when `cs47l92_put_demux` returns for a valid item. -/
def demux_val (h : Hdr) (e : soc_enum) (m : madera) (env : Env) (item : Nat) : Nat :=
  if demux_change h e m env item = 0 then m.regmap h.MADERA_OUTPUT_ENABLES_1
  else switch_val h m env (u32 (item <<< e.shift_l)) (m.regmap h.MADERA_OUTPUT_ENABLES_1)

/-- Calls of `cs47l92_put_demux` for a valid item. -/
def demux_obs (h : Hdr) (e : soc_enum) (m : madera) (env : Env) (item : Nat) : List Obs :=
  [⟨.dapm_mutex_lock, m.regmap h.MADERA_OUTPUT_ENABLES_1⟩,
   ⟨.test_bits e.reg (u32 (e.mask <<< e.shift_l)) (u32 (item <<< e.shift_l)),
     m.regmap h.MADERA_OUTPUT_ENABLES_1⟩] ++
  (if demux_change h e m env item = 0 then []
   else switch_obs h m env item (u32 (item <<< e.shift_l)) (m.regmap h.MADERA_OUTPUT_ENABLES_1)) ++
  [⟨.dapm_mutex_unlock, demux_val h e m env item⟩,
   ⟨.mux_update_power item, demux_val h e m env item⟩]

/-- Of a list of recorded calls, the writes to MADERA_OUTPUT_ENABLES_1 and the delays. -/
def key_calls (h : Hdr) (l : List Obs) : List Event :=
  (l.map Obs.ev).filter (fun ev => is_enables_write h ev || is_sleep ev)

/-- A device whose outputs OUT3L and OUT3R are enabled (EP_SEL clear), without
accessory detection on output 3. -/
def dev_plain : madera where
  regmap := fun r => if r = 0x400 then 0x30 else 0
  hp_ena := 0
  accdet_output := fun _ => 0
  out_mono := fun _ => false

/-- The same device with accessory detection on output 3 and a cached
`hp_ena` of 0. -/
def dev_accdet : madera where
  regmap := fun r => if r = 0x400 then 0x30 else 0
  hp_ena := 0
  accdet_output := fun _ => 3
  out_mono := fun _ => false

/-- An environment in which every access succeeds. -/
def env_ok : Env where
  test_ret := 0
  read_ret := 0
  disable_ret := 0
  sel_ret := 0
  mode_ret := 0
  restore_ret := 0
  cur_uninit := 0
  power := fun _ => 1

/-- An environment in which only the read of the current enables fails (with
-EIO) and the uninitialised `cur` happens to hold 0. -/
def env_read_fails : Env := { env_ok with read_ret := -5 }

/-- A device whose outputs OUT3L and OUT3R are off, without accessory
detection on output 3. -/
def dev_off : madera where
  regmap := fun _ => 0
  hp_ena := 0
  accdet_output := fun _ => 0
  out_mono := fun _ => false

/-- An environment in which only the read of the current enables fails (with
-EIO) and the uninitialised `cur` happens to hold 0xffffffff. -/
def env_read_fails_set : Env := { env_ok with read_ret := -5, cur_uninit := 0xffffffff }

/-- A device whose `pdata.codec.out_mono` is set at index 1 only. -/
def dev_mono1 : madera where
  regmap := fun r => if r = 0x400 then 0x30 else 0
  hp_ena := 0
  accdet_output := fun _ => 0
  out_mono := fun i => i == 1

/-- An enum on MADERA_OUTPUT_ENABLES_1 that declares no item. -/
def enum_no_items : soc_enum where
  reg := 0x400
  shift_l := 15
  items := 0
  mask := 1

/-- An environment in which only the write that disables the outputs fails
(with -EIO). -/
def env_disable_fails : Env := { env_ok with disable_ret := -5 }

/-- The write of the EP_SEL field and the call that sets the mono mode of
output 3. -/
def modifies_ep_sel_or_mono (h : Hdr) : Event → Bool
  | .regmap_update_bits reg mask _ => reg == h.MADERA_OUTPUT_ENABLES_1 && mask == h.MADERA_EP_SEL
  | .set_output_mode _ _ => true
  | _ => false

/-- The lock, unlock and power-update calls. -/
def is_lock_or_power : Event → Bool
  | .dapm_mutex_lock => true
  | .dapm_mutex_unlock => true
  | .mux_update_power _ => true
  | _ => false

/-- Calls of `regmap_read`. -/
def is_read : Event → Bool
  | .regmap_read _ => true
  | _ => false

/-- The calls among `l` that satisfy `p`. -/
def calls_where (p : Event → Bool) (l : List Obs) : List Event :=
  (l.map Obs.ev).filter p

/-- What follows the restore write: the enable delay, the disable delay, or on
failure only the warning. -/
def after_restore (h : Hdr) (env : Env) (cur : Nat) : Event :=
  if env.restore_ret = 0 then
    if cur &&& out3_ena h ≠ 0 then .msleep 34 else .usleep_range 2000 3000
  else .dev_warn .restore_outputs env.restore_ret

/-- The rate field of register `reg`, as lines 220-221 and 234-235 extract it. -/
def asrc_rate_field (h : Hdr) (regmap : Nat → Nat) (reg : Nat) : Nat :=
  (regmap reg &&& h.MADERA_ASRC1_RATE1_MASK) >>> h.MADERA_ASRC1_RATE1_SHIFT

/-- The report made for a decoded rate: an error message above 192000. -/
def asrc_rate_log (rate : Int) : List Event :=
  if rate > 192000 then [.dev_err_plain .rate_too_high] else []

/-- The calls of a `cs47l92_asrc_ev` run. -/
def asrc_calls (h : Hdr) (regmap : Nat → Nat) (env : AsrcEnv) (w_reg : Nat) : List Event :=
  (cs47l92_asrc_ev h regmap env w_reg).2.trace.map Obs.ev

/-- A stand-in for `madera_fllhj_set_refclk` that counts its calls. -/
def counting_refclk (f : Nat) (_source : Int) (_Fref _Fout : Nat) : Int × Nat := (0, f + 1)

/-- A register map for the rate checks: rate code 3 in `w->reg + 2` and rate
code 4 in `w->reg + 3` for a widget at 0x100. -/
def asrc_regs : Nat → Nat := fun r => if r = 0x102 then 0x1800 else 0x2000

/-- Both reads succeed; rate code 3 decodes to 200000 Hz and rate code 4 is
rejected with -22. -/
def asrc_env : AsrcEnv where
  read1_ret := 0
  read2_ret := 0
  val_uninit := 0
  rate := fun v => if v = 3 then 200000 else if v = 4 then -22 else 48000

/-- A stream of a DAI (`struct snd_soc_pcm_stream`): the fields the
statements use. -/
structure pcm_stream where
  stream_name : String
  channels_min : Nat
  channels_max : Nat
  deriving DecidableEq, Repr

/-- An entry of `cs47l92_dai` (`struct snd_soc_dai_driver`): its name and its
playback and capture streams, where present. -/
structure dai_driver where
  name : String
  playback : Option pcm_stream
  capture : Option pcm_stream
  deriving DecidableEq, Repr

/-- The table `cs47l92_dai` (lines 1768-1913). -/
def cs47l92_dai : List dai_driver :=
  [ ⟨"cs47l92-aif1", some ⟨"AIF1 Playback", 1, 8⟩, some ⟨"AIF1 Capture", 1, 8⟩⟩,
    ⟨"cs47l92-aif2", some ⟨"AIF2 Playback", 1, 8⟩, some ⟨"AIF2 Capture", 1, 8⟩⟩,
    ⟨"cs47l92-aif3", some ⟨"AIF3 Playback", 1, 4⟩, some ⟨"AIF3 Capture", 1, 4⟩⟩,
    ⟨"cs47l92-slim1", some ⟨"Slim1 Playback", 1, 4⟩, some ⟨"Slim1 Capture", 1, 4⟩⟩,
    ⟨"cs47l92-slim2", some ⟨"Slim2 Playback", 1, 2⟩, some ⟨"Slim2 Capture", 1, 2⟩⟩,
    ⟨"cs47l92-slim3", some ⟨"Slim3 Playback", 1, 2⟩, some ⟨"Slim3 Capture", 1, 2⟩⟩,
    ⟨"cs47l92-cpu-trace", none, some ⟨"Audio Trace CPU", 1, 2⟩⟩,
    ⟨"cs47l92-dsp-trace", none, some ⟨"Audio Trace DSP", 1, 2⟩⟩ ]

/-- Calls made by `cs47l92_open`. -/
inductive OpenEvent where
  | dev_err_no_stream (dai_name : String)
  | wm_adsp_compr_open (n_adsp : Nat)
  deriving DecidableEq, Repr

/-- The function `cs47l92_open` for a stream whose codec DAI is called
`dai_name`.  `compr_open n` is the result of `wm_adsp_compr_open` on
`priv->adsp[n]`.  The result is the return value and the calls made. -/
def cs47l92_open (h : Hdr) (compr_open : Nat → Int) (dai_name : String) :
    Int × List OpenEvent :=
  if dai_name = "cs47l92-dsp-trace" then
    let n_adsp := 0
    (compr_open n_adsp, [.wm_adsp_compr_open n_adsp])
  else (-h.EINVAL, [.dev_err_no_stream dai_name])

/-- The constant `CS47L92_DIG_VU`. -/
def CS47L92_DIG_VU : Nat := 0x0200

/-- The number of entries of `cs47l92_digital_vu`. -/
def cs47l92_digital_vu_size : Nat := 8

/-- Calls made by `cs47l92_probe`. -/
inductive ProbeEvent where
  | dev_dbg_irqchip_not_ready
  | devm_kzalloc
  | platform_set_drvdata
  | madera_core_init (num_inputs : Nat)
  | madera_request_irq
  | dev_err_request_irq (ret : Int)
  | madera_set_irq_wake (enable : Nat)
  | dev_warn_irq_wake (ret : Int)
  | wm_adsp2_init
  | madera_init_bus_error_irq
  | wm_adsp2_remove
  | madera_init_fll (id fll_index : Nat)
  | madera_init_dai (i : Nat)
  | latch_volume_update (vu_index mask val : Nat)
  | pm_runtime_enable
  | pm_runtime_idle
  | snd_soc_register_platform
  | dev_err_register_platform (ret : Int)
  | snd_soc_register_codec
  | dev_err_register_codec (ret : Int)
  | snd_soc_unregister_platform
  | pm_runtime_disable
  | madera_destroy_bus_error_irq
  | madera_free_irq
  | madera_core_destroy
  deriving DecidableEq, Repr

/-- What `cs47l92_probe` finds: whether the parent has its `irq_dev`, whether
the allocation succeeds, and the results of the calls that can fail. -/
structure ProbeEnv where
  irq_dev : Bool
  kzalloc_ok : Bool
  core_init_ret : Int
  request_irq_ret : Int
  irq_wake_ret : Int
  adsp2_init_ret : Int
  bus_error_ret : Int
  register_platform_ret : Int
  register_codec_ret : Int

/-- Label `error_core`, the last of the error labels of `cs47l92_probe`; each
label falls through to the ones after it. -/
def probe_error_core : List ProbeEvent := [.madera_core_destroy]

/-- Label `error_dsp_irq`. -/
def probe_error_dsp_irq : List ProbeEvent :=
  [.madera_set_irq_wake 0, .madera_free_irq] ++ probe_error_core

/-- Label `error_adsp`. -/
def probe_error_adsp : List ProbeEvent := [.wm_adsp2_remove] ++ probe_error_dsp_irq

/-- Label `error_pm_runtime`. -/
def probe_error_pm_runtime : List ProbeEvent :=
  [.pm_runtime_disable, .madera_destroy_bus_error_irq] ++ probe_error_adsp

/-- Label `error_platform`. -/
def probe_error_platform : List ProbeEvent :=
  [.snd_soc_unregister_platform] ++ probe_error_pm_runtime

/-- Lines 2158-2170: the FLLs and DAIs are initialised, the volume update
bits are latched and runtime PM is enabled. -/
def probe_setup : List ProbeEvent :=
  [.madera_init_fll 1 0, .madera_init_fll 2 1] ++
  (List.range cs47l92_dai.length).map .madera_init_dai ++
  (List.range cs47l92_digital_vu_size).map
    (fun i => .latch_volume_update i CS47L92_DIG_VU CS47L92_DIG_VU) ++
  [.pm_runtime_enable, .pm_runtime_idle]

/-- Lines 2172-2186: the platform and the codec are registered. -/
def probe_register (env : ProbeEnv) (t : List ProbeEvent) : Int × List ProbeEvent :=
  let t1 := t ++ [.snd_soc_register_platform]
  if env.register_platform_ret < 0 then
    (env.register_platform_ret,
      t1 ++ [.dev_err_register_platform env.register_platform_ret] ++ probe_error_pm_runtime)
  else
    let t2 := t1 ++ [.snd_soc_register_codec]
    if env.register_codec_ret < 0 then
      (env.register_codec_ret,
        t2 ++ [.dev_err_register_codec env.register_codec_ret, .snd_soc_unregister_platform] ++
          probe_error_platform)
    else (env.register_codec_ret, t2)

/-- Lines 2121-2156: the DSP interrupt is requested and the DSP core and its
bus error interrupt are initialised; then setup and registration follow. -/
def probe_dsp (env : ProbeEnv) (t : List ProbeEvent) : Int × List ProbeEvent :=
  let t1 := t ++ [.madera_request_irq]
  if env.request_irq_ret ≠ 0 then
    (env.request_irq_ret, t1 ++ [.dev_err_request_irq env.request_irq_ret] ++ probe_error_core)
  else
    let t2 := t1 ++ [.madera_set_irq_wake 1] ++
      (if env.irq_wake_ret ≠ 0 then [.dev_warn_irq_wake env.irq_wake_ret] else [])
    let t3 := t2 ++ [.wm_adsp2_init]
    if env.adsp2_init_ret ≠ 0 then (env.adsp2_init_ret, t3 ++ probe_error_dsp_irq)
    else
      let t4 := t3 ++ [.madera_init_bus_error_irq]
      if env.bus_error_ret ≠ 0 then
        (env.bus_error_ret, t4 ++ [.wm_adsp2_remove] ++ probe_error_adsp)
      else probe_register env (t4 ++ probe_setup)

/-- The function `cs47l92_probe`.  The result is the return value and the
calls made, in order. -/
def cs47l92_probe (h : Hdr) (env : ProbeEnv) : Int × List ProbeEvent :=
  if !env.irq_dev then (-h.EPROBE_DEFER, [.dev_dbg_irqchip_not_ready])
  else
    let t1 : List ProbeEvent := [.devm_kzalloc]
    if !env.kzalloc_ok then (-h.ENOMEM, t1)
    else
      let t2 := t1 ++ [.platform_set_drvdata, .madera_core_init 8]
      if env.core_init_ret ≠ 0 then (env.core_init_ret, t2)
      else probe_dsp env t2

/-- A probe environment without `irq_dev` in which everything else would
succeed. -/
def probe_env_no_irq : ProbeEnv := ⟨false, true, 0, 0, 0, 0, 0, 0, 0⟩

/-- The widget types behind the `SND_SOC_DAPM_*` entries of the file. -/
inductive DapmKind where
  | supply
  | regulator_supply
  | siggen
  | input
  | output
  | mux
  | demux
  | pga
  | pga_e
  | aif_in
  | aif_out
  | out_drv
  | switch
  deriving DecidableEq, Repr

/-- An entry of `cs47l92_dapm_widgets` as written in the file: a
`SND_SOC_DAPM_*` entry with its widget name, or one of the entries
`MADERA_MIXER_WIDGETS(id, name)`, `MADERA_MUX_WIDGETS(id, name)`,
`MADERA_DSP_WIDGETS(id, name)` and `WM_ADSP2(name, ..)`. -/
inductive WidgetEntry where
  | dapm (kind : DapmKind) (name : String)
  | mixer_widgets (id name_str : String)
  | mux_widgets (id name_str : String)
  | dsp_widgets (id name_str : String)
  | wm_adsp2 (wname : String)
  deriving DecidableEq, Repr

/-- The table `cs47l92_dapm_widgets` (lines 753-1281), entry by entry. -/
def cs47l92_dapm_widgets : List WidgetEntry :=
  [ WidgetEntry.dapm DapmKind.supply "SYSCLK",
    WidgetEntry.dapm DapmKind.supply "ASYNCCLK",
    WidgetEntry.dapm DapmKind.supply "OPCLK",
    WidgetEntry.dapm DapmKind.supply "ASYNCOPCLK",
    WidgetEntry.dapm DapmKind.supply "DSPCLK",
    WidgetEntry.dapm DapmKind.regulator_supply "CPVDD1",
    WidgetEntry.dapm DapmKind.regulator_supply "CPVDD2",
    WidgetEntry.dapm DapmKind.regulator_supply "MICVDD",
    WidgetEntry.dapm DapmKind.supply "MICBIAS1",
    WidgetEntry.dapm DapmKind.supply "MICBIAS2",
    WidgetEntry.dapm DapmKind.supply "MICBIAS1A",
    WidgetEntry.dapm DapmKind.supply "MICBIAS1B",
    WidgetEntry.dapm DapmKind.supply "MICBIAS1C",
    WidgetEntry.dapm DapmKind.supply "MICBIAS1D",
    WidgetEntry.dapm DapmKind.supply "MICBIAS2A",
    WidgetEntry.dapm DapmKind.supply "MICBIAS2B",
    WidgetEntry.dapm DapmKind.supply "FXCLK",
    WidgetEntry.dapm DapmKind.supply "ASRC1CLK",
    WidgetEntry.dapm DapmKind.supply "ISRC1CLK",
    WidgetEntry.dapm DapmKind.supply "ISRC2CLK",
    WidgetEntry.dapm DapmKind.supply "OUTCLK",
    WidgetEntry.dapm DapmKind.supply "SPDCLK",
    WidgetEntry.dapm DapmKind.supply "DSP1CLK",
    WidgetEntry.dapm DapmKind.supply "AIF1TXCLK",
    WidgetEntry.dapm DapmKind.supply "AIF2TXCLK",
    WidgetEntry.dapm DapmKind.supply "AIF3TXCLK",
    WidgetEntry.dapm DapmKind.supply "SLIMBUSCLK",
    WidgetEntry.dapm DapmKind.supply "PWMCLK",
    WidgetEntry.dapm DapmKind.supply "DFCCLK",
    WidgetEntry.dapm DapmKind.siggen "TONE",
    WidgetEntry.dapm DapmKind.siggen "NOISE",
    WidgetEntry.dapm DapmKind.input "IN1AL",
    WidgetEntry.dapm DapmKind.input "IN1BL",
    WidgetEntry.dapm DapmKind.input "IN1AR",
    WidgetEntry.dapm DapmKind.input "IN1BR",
    WidgetEntry.dapm DapmKind.input "IN2AL",
    WidgetEntry.dapm DapmKind.input "IN2BL",
    WidgetEntry.dapm DapmKind.input "IN2AR",
    WidgetEntry.dapm DapmKind.input "IN2BR",
    WidgetEntry.dapm DapmKind.input "IN3L",
    WidgetEntry.dapm DapmKind.input "IN3R",
    WidgetEntry.dapm DapmKind.input "IN4L",
    WidgetEntry.dapm DapmKind.input "IN4R",
    WidgetEntry.dapm DapmKind.demux "OUT3 Demux",
    WidgetEntry.dapm DapmKind.output "DRC1 Signal Activity",
    WidgetEntry.dapm DapmKind.output "DRC2 Signal Activity",
    WidgetEntry.dapm DapmKind.mux "IN1L Mux",
    WidgetEntry.dapm DapmKind.mux "IN1R Mux",
    WidgetEntry.dapm DapmKind.mux "IN2L Mux",
    WidgetEntry.dapm DapmKind.mux "IN2R Mux",
    WidgetEntry.dapm DapmKind.pga "PWM1 Driver",
    WidgetEntry.dapm DapmKind.pga "PWM2 Driver",
    WidgetEntry.dapm DapmKind.aif_out "AIF1TX1",
    WidgetEntry.dapm DapmKind.aif_out "AIF1TX2",
    WidgetEntry.dapm DapmKind.aif_out "AIF1TX3",
    WidgetEntry.dapm DapmKind.aif_out "AIF1TX4",
    WidgetEntry.dapm DapmKind.aif_out "AIF1TX5",
    WidgetEntry.dapm DapmKind.aif_out "AIF1TX6",
    WidgetEntry.dapm DapmKind.aif_out "AIF1TX7",
    WidgetEntry.dapm DapmKind.aif_out "AIF1TX8",
    WidgetEntry.dapm DapmKind.aif_out "AIF2TX1",
    WidgetEntry.dapm DapmKind.aif_out "AIF2TX2",
    WidgetEntry.dapm DapmKind.aif_out "AIF2TX3",
    WidgetEntry.dapm DapmKind.aif_out "AIF2TX4",
    WidgetEntry.dapm DapmKind.aif_out "AIF2TX5",
    WidgetEntry.dapm DapmKind.aif_out "AIF2TX6",
    WidgetEntry.dapm DapmKind.aif_out "AIF2TX7",
    WidgetEntry.dapm DapmKind.aif_out "AIF2TX8",
    WidgetEntry.dapm DapmKind.aif_out "SLIMTX1",
    WidgetEntry.dapm DapmKind.aif_out "SLIMTX2",
    WidgetEntry.dapm DapmKind.aif_out "SLIMTX3",
    WidgetEntry.dapm DapmKind.aif_out "SLIMTX4",
    WidgetEntry.dapm DapmKind.aif_out "SLIMTX5",
    WidgetEntry.dapm DapmKind.aif_out "SLIMTX6",
    WidgetEntry.dapm DapmKind.aif_out "SLIMTX7",
    WidgetEntry.dapm DapmKind.aif_out "SLIMTX8",
    WidgetEntry.dapm DapmKind.aif_out "AIF3TX1",
    WidgetEntry.dapm DapmKind.aif_out "AIF3TX2",
    WidgetEntry.dapm DapmKind.aif_out "AIF3TX3",
    WidgetEntry.dapm DapmKind.aif_out "AIF3TX4",
    WidgetEntry.dapm DapmKind.pga_e "OUT1L",
    WidgetEntry.dapm DapmKind.pga_e "OUT1R",
    WidgetEntry.dapm DapmKind.pga_e "OUT2L",
    WidgetEntry.dapm DapmKind.pga_e "OUT2R",
    WidgetEntry.dapm DapmKind.pga_e "OUT3L",
    WidgetEntry.dapm DapmKind.pga_e "OUT3R",
    WidgetEntry.dapm DapmKind.pga_e "OUT5L",
    WidgetEntry.dapm DapmKind.pga_e "OUT5R",
    WidgetEntry.dapm DapmKind.pga "SPD1TX1",
    WidgetEntry.dapm DapmKind.pga "SPD1TX2",
    WidgetEntry.dapm DapmKind.out_drv "SPD1",
    WidgetEntry.dapm DapmKind.switch "AUXPDM1 Output",
    WidgetEntry.dapm DapmKind.pga "Noise Generator",
    WidgetEntry.dapm DapmKind.pga "Tone Generator 1",
    WidgetEntry.dapm DapmKind.pga "Tone Generator 2",
    WidgetEntry.dapm DapmKind.siggen "HAPTICS",
    WidgetEntry.dapm DapmKind.mux "AEC1 Loopback",
    WidgetEntry.dapm DapmKind.pga_e "IN1L PGA",
    WidgetEntry.dapm DapmKind.pga_e "IN1R PGA",
    WidgetEntry.dapm DapmKind.pga_e "IN2L PGA",
    WidgetEntry.dapm DapmKind.pga_e "IN2R PGA",
    WidgetEntry.dapm DapmKind.pga_e "IN3L PGA",
    WidgetEntry.dapm DapmKind.pga_e "IN3R PGA",
    WidgetEntry.dapm DapmKind.pga_e "IN4L PGA",
    WidgetEntry.dapm DapmKind.pga_e "IN4R PGA",
    WidgetEntry.dapm DapmKind.mux "AUXPDM1 Input",
    WidgetEntry.dapm DapmKind.aif_in "AIF1RX1",
    WidgetEntry.dapm DapmKind.aif_in "AIF1RX2",
    WidgetEntry.dapm DapmKind.aif_in "AIF1RX3",
    WidgetEntry.dapm DapmKind.aif_in "AIF1RX4",
    WidgetEntry.dapm DapmKind.aif_in "AIF1RX5",
    WidgetEntry.dapm DapmKind.aif_in "AIF1RX6",
    WidgetEntry.dapm DapmKind.aif_in "AIF1RX7",
    WidgetEntry.dapm DapmKind.aif_in "AIF1RX8",
    WidgetEntry.dapm DapmKind.aif_in "AIF2RX1",
    WidgetEntry.dapm DapmKind.aif_in "AIF2RX2",
    WidgetEntry.dapm DapmKind.aif_in "AIF2RX3",
    WidgetEntry.dapm DapmKind.aif_in "AIF2RX4",
    WidgetEntry.dapm DapmKind.aif_in "AIF2RX5",
    WidgetEntry.dapm DapmKind.aif_in "AIF2RX6",
    WidgetEntry.dapm DapmKind.aif_in "AIF2RX7",
    WidgetEntry.dapm DapmKind.aif_in "AIF2RX8",
    WidgetEntry.dapm DapmKind.aif_in "AIF3RX1",
    WidgetEntry.dapm DapmKind.aif_in "AIF3RX2",
    WidgetEntry.dapm DapmKind.aif_in "AIF3RX3",
    WidgetEntry.dapm DapmKind.aif_in "AIF3RX4",
    WidgetEntry.dapm DapmKind.aif_in "SLIMRX1",
    WidgetEntry.dapm DapmKind.aif_in "SLIMRX2",
    WidgetEntry.dapm DapmKind.aif_in "SLIMRX3",
    WidgetEntry.dapm DapmKind.aif_in "SLIMRX4",
    WidgetEntry.dapm DapmKind.aif_in "SLIMRX5",
    WidgetEntry.dapm DapmKind.aif_in "SLIMRX6",
    WidgetEntry.dapm DapmKind.aif_in "SLIMRX7",
    WidgetEntry.dapm DapmKind.aif_in "SLIMRX8",
    WidgetEntry.dapm DapmKind.pga "EQ1",
    WidgetEntry.dapm DapmKind.pga "EQ2",
    WidgetEntry.dapm DapmKind.pga "EQ3",
    WidgetEntry.dapm DapmKind.pga "EQ4",
    WidgetEntry.dapm DapmKind.pga "DRC1L",
    WidgetEntry.dapm DapmKind.pga "DRC1R",
    WidgetEntry.dapm DapmKind.pga "DRC2L",
    WidgetEntry.dapm DapmKind.pga "DRC2R",
    WidgetEntry.dapm DapmKind.pga "LHPF1",
    WidgetEntry.dapm DapmKind.pga "LHPF2",
    WidgetEntry.dapm DapmKind.pga "LHPF3",
    WidgetEntry.dapm DapmKind.pga "LHPF4",
    WidgetEntry.dapm DapmKind.pga_e "ASRC1IN1L",
    WidgetEntry.dapm DapmKind.pga_e "ASRC1IN1R",
    WidgetEntry.dapm DapmKind.pga_e "ASRC1IN2L",
    WidgetEntry.dapm DapmKind.pga_e "ASRC1IN2R",
    WidgetEntry.dapm DapmKind.pga "ISRC1DEC1",
    WidgetEntry.dapm DapmKind.pga "ISRC1DEC2",
    WidgetEntry.dapm DapmKind.pga "ISRC1INT1",
    WidgetEntry.dapm DapmKind.pga "ISRC1INT2",
    WidgetEntry.dapm DapmKind.pga "ISRC2DEC1",
    WidgetEntry.dapm DapmKind.pga "ISRC2DEC2",
    WidgetEntry.dapm DapmKind.pga "ISRC2INT1",
    WidgetEntry.dapm DapmKind.pga "ISRC2INT2",
    WidgetEntry.wm_adsp2 "DSP1",
    WidgetEntry.dapm DapmKind.pga "DFC1",
    WidgetEntry.dapm DapmKind.pga "DFC2",
    WidgetEntry.dapm DapmKind.pga "DFC3",
    WidgetEntry.dapm DapmKind.pga "DFC4",
    WidgetEntry.dapm DapmKind.pga "DFC5",
    WidgetEntry.dapm DapmKind.pga "DFC6",
    WidgetEntry.dapm DapmKind.pga "DFC7",
    WidgetEntry.dapm DapmKind.pga "DFC8",
    WidgetEntry.mixer_widgets "EQ1" "EQ1",
    WidgetEntry.mixer_widgets "EQ2" "EQ2",
    WidgetEntry.mixer_widgets "EQ3" "EQ3",
    WidgetEntry.mixer_widgets "EQ4" "EQ4",
    WidgetEntry.mixer_widgets "DRC1L" "DRC1L",
    WidgetEntry.mixer_widgets "DRC1R" "DRC1R",
    WidgetEntry.mixer_widgets "DRC2L" "DRC2L",
    WidgetEntry.mixer_widgets "DRC2R" "DRC2R",
    WidgetEntry.dapm DapmKind.switch "DRC1 Activity Output",
    WidgetEntry.dapm DapmKind.switch "DRC2 Activity Output",
    WidgetEntry.mixer_widgets "LHPF1" "LHPF1",
    WidgetEntry.mixer_widgets "LHPF2" "LHPF2",
    WidgetEntry.mixer_widgets "LHPF3" "LHPF3",
    WidgetEntry.mixer_widgets "LHPF4" "LHPF4",
    WidgetEntry.mixer_widgets "PWM1" "PWM1",
    WidgetEntry.mixer_widgets "PWM2" "PWM2",
    WidgetEntry.mixer_widgets "OUT1L" "HPOUT1L",
    WidgetEntry.mixer_widgets "OUT1R" "HPOUT1R",
    WidgetEntry.mixer_widgets "OUT2L" "HPOUT2L",
    WidgetEntry.mixer_widgets "OUT2R" "HPOUT2R",
    WidgetEntry.mixer_widgets "OUT3L" "HPOUT3L",
    WidgetEntry.mixer_widgets "OUT3R" "HPOUT3R",
    WidgetEntry.mixer_widgets "SPKDAT1L" "SPKDAT1L",
    WidgetEntry.mixer_widgets "SPKDAT1R" "SPKDAT1R",
    WidgetEntry.mixer_widgets "AIF1TX1" "AIF1TX1",
    WidgetEntry.mixer_widgets "AIF1TX2" "AIF1TX2",
    WidgetEntry.mixer_widgets "AIF1TX3" "AIF1TX3",
    WidgetEntry.mixer_widgets "AIF1TX4" "AIF1TX4",
    WidgetEntry.mixer_widgets "AIF1TX5" "AIF1TX5",
    WidgetEntry.mixer_widgets "AIF1TX6" "AIF1TX6",
    WidgetEntry.mixer_widgets "AIF1TX7" "AIF1TX7",
    WidgetEntry.mixer_widgets "AIF1TX8" "AIF1TX8",
    WidgetEntry.mixer_widgets "AIF2TX1" "AIF2TX1",
    WidgetEntry.mixer_widgets "AIF2TX2" "AIF2TX2",
    WidgetEntry.mixer_widgets "AIF2TX3" "AIF2TX3",
    WidgetEntry.mixer_widgets "AIF2TX4" "AIF2TX4",
    WidgetEntry.mixer_widgets "AIF2TX5" "AIF2TX5",
    WidgetEntry.mixer_widgets "AIF2TX6" "AIF2TX6",
    WidgetEntry.mixer_widgets "AIF2TX7" "AIF2TX7",
    WidgetEntry.mixer_widgets "AIF2TX8" "AIF2TX8",
    WidgetEntry.mixer_widgets "AIF3TX1" "AIF3TX1",
    WidgetEntry.mixer_widgets "AIF3TX2" "AIF3TX2",
    WidgetEntry.mixer_widgets "AIF3TX3" "AIF3TX3",
    WidgetEntry.mixer_widgets "AIF3TX4" "AIF3TX4",
    WidgetEntry.mixer_widgets "SLIMTX1" "SLIMTX1",
    WidgetEntry.mixer_widgets "SLIMTX2" "SLIMTX2",
    WidgetEntry.mixer_widgets "SLIMTX3" "SLIMTX3",
    WidgetEntry.mixer_widgets "SLIMTX4" "SLIMTX4",
    WidgetEntry.mixer_widgets "SLIMTX5" "SLIMTX5",
    WidgetEntry.mixer_widgets "SLIMTX6" "SLIMTX6",
    WidgetEntry.mixer_widgets "SLIMTX7" "SLIMTX7",
    WidgetEntry.mixer_widgets "SLIMTX8" "SLIMTX8",
    WidgetEntry.mux_widgets "SPD1TX1" "SPDIFTX1",
    WidgetEntry.mux_widgets "SPD1TX2" "SPDIFTX2",
    WidgetEntry.mux_widgets "ASRC1IN1L" "ASRC1IN1L",
    WidgetEntry.mux_widgets "ASRC1IN1R" "ASRC1IN1R",
    WidgetEntry.mux_widgets "ASRC1IN2L" "ASRC1IN2L",
    WidgetEntry.mux_widgets "ASRC1IN2R" "ASRC1IN2R",
    WidgetEntry.dsp_widgets "DSP1" "DSP1",
    WidgetEntry.mux_widgets "ISRC1DEC1" "ISRC1DEC1",
    WidgetEntry.mux_widgets "ISRC1DEC2" "ISRC1DEC2",
    WidgetEntry.mux_widgets "ISRC1INT1" "ISRC1INT1",
    WidgetEntry.mux_widgets "ISRC1INT2" "ISRC1INT2",
    WidgetEntry.mux_widgets "ISRC2DEC1" "ISRC2DEC1",
    WidgetEntry.mux_widgets "ISRC2DEC2" "ISRC2DEC2",
    WidgetEntry.mux_widgets "ISRC2INT1" "ISRC2INT1",
    WidgetEntry.mux_widgets "ISRC2INT2" "ISRC2INT2",
    WidgetEntry.mux_widgets "DFC1" "DFC1",
    WidgetEntry.mux_widgets "DFC2" "DFC2",
    WidgetEntry.mux_widgets "DFC3" "DFC3",
    WidgetEntry.mux_widgets "DFC4" "DFC4",
    WidgetEntry.mux_widgets "DFC5" "DFC5",
    WidgetEntry.mux_widgets "DFC6" "DFC6",
    WidgetEntry.mux_widgets "DFC7" "DFC7",
    WidgetEntry.mux_widgets "DFC8" "DFC8",
    WidgetEntry.dapm DapmKind.output "HPOUT1L",
    WidgetEntry.dapm DapmKind.output "HPOUT1R",
    WidgetEntry.dapm DapmKind.output "HPOUT2L",
    WidgetEntry.dapm DapmKind.output "HPOUT2R",
    WidgetEntry.dapm DapmKind.output "HPOUT3L",
    WidgetEntry.dapm DapmKind.output "HPOUT3R",
    WidgetEntry.dapm DapmKind.output "HPOUT4L",
    WidgetEntry.dapm DapmKind.output "HPOUT4R",
    WidgetEntry.dapm DapmKind.output "SPKDAT1L",
    WidgetEntry.dapm DapmKind.output "SPKDAT1R",
    WidgetEntry.dapm DapmKind.output "SPDIF1",
    WidgetEntry.dapm DapmKind.output "AUXPDM1",
    WidgetEntry.dapm DapmKind.output "MICSUPP" ]

/-- An entry of `cs47l92_dapm_routes` as written in the file: a literal route
`{ sink, control, source }`, or one of the entries
`MADERA_MIXER_ROUTES(widget, name)`, `MADERA_MUX_ROUTES(widget, name)` and
`MADERA_DSP_ROUTES(name)`. -/
inductive RouteEntry where
  | route (sink : String) (control : Option String) (source : String)
  | mixer_routes (widget name : String)
  | mux_routes (widget name : String)
  | dsp_routes (name : String)
  deriving DecidableEq, Repr

/-- The table `cs47l92_dapm_routes` (lines 1365-1749), entry by entry. -/
def cs47l92_dapm_routes : List RouteEntry :=
  [ RouteEntry.route "EQ1" none "FXCLK",
    RouteEntry.route "EQ2" none "FXCLK",
    RouteEntry.route "EQ3" none "FXCLK",
    RouteEntry.route "EQ4" none "FXCLK",
    RouteEntry.route "DRC1L" none "FXCLK",
    RouteEntry.route "DRC1R" none "FXCLK",
    RouteEntry.route "DRC2L" none "FXCLK",
    RouteEntry.route "DRC2R" none "FXCLK",
    RouteEntry.route "LHPF1" none "FXCLK",
    RouteEntry.route "LHPF2" none "FXCLK",
    RouteEntry.route "LHPF3" none "FXCLK",
    RouteEntry.route "LHPF4" none "FXCLK",
    RouteEntry.route "PWM1 Mixer" none "PWMCLK",
    RouteEntry.route "PWM2 Mixer" none "PWMCLK",
    RouteEntry.route "OUT1L" none "OUTCLK",
    RouteEntry.route "OUT1R" none "OUTCLK",
    RouteEntry.route "OUT2L" none "OUTCLK",
    RouteEntry.route "OUT2R" none "OUTCLK",
    RouteEntry.route "OUT3L" none "OUTCLK",
    RouteEntry.route "OUT3R" none "OUTCLK",
    RouteEntry.route "OUT5L" none "OUTCLK",
    RouteEntry.route "OUT5R" none "OUTCLK",
    RouteEntry.route "AIF1TX1" none "AIF1TXCLK",
    RouteEntry.route "AIF1TX2" none "AIF1TXCLK",
    RouteEntry.route "AIF1TX3" none "AIF1TXCLK",
    RouteEntry.route "AIF1TX4" none "AIF1TXCLK",
    RouteEntry.route "AIF1TX5" none "AIF1TXCLK",
    RouteEntry.route "AIF1TX6" none "AIF1TXCLK",
    RouteEntry.route "AIF1TX7" none "AIF1TXCLK",
    RouteEntry.route "AIF1TX8" none "AIF1TXCLK",
    RouteEntry.route "AIF2TX1" none "AIF2TXCLK",
    RouteEntry.route "AIF2TX2" none "AIF2TXCLK",
    RouteEntry.route "AIF2TX3" none "AIF2TXCLK",
    RouteEntry.route "AIF2TX4" none "AIF2TXCLK",
    RouteEntry.route "AIF2TX5" none "AIF2TXCLK",
    RouteEntry.route "AIF2TX6" none "AIF2TXCLK",
    RouteEntry.route "AIF2TX7" none "AIF2TXCLK",
    RouteEntry.route "AIF2TX8" none "AIF2TXCLK",
    RouteEntry.route "AIF3TX1" none "AIF3TXCLK",
    RouteEntry.route "AIF3TX2" none "AIF3TXCLK",
    RouteEntry.route "AIF3TX3" none "AIF3TXCLK",
    RouteEntry.route "AIF3TX4" none "AIF3TXCLK",
    RouteEntry.route "SLIMTX1" none "SLIMBUSCLK",
    RouteEntry.route "SLIMTX2" none "SLIMBUSCLK",
    RouteEntry.route "SLIMTX3" none "SLIMBUSCLK",
    RouteEntry.route "SLIMTX4" none "SLIMBUSCLK",
    RouteEntry.route "SLIMTX5" none "SLIMBUSCLK",
    RouteEntry.route "SLIMTX6" none "SLIMBUSCLK",
    RouteEntry.route "SLIMTX7" none "SLIMBUSCLK",
    RouteEntry.route "SLIMTX8" none "SLIMBUSCLK",
    RouteEntry.route "SPD1TX1" none "SPDCLK",
    RouteEntry.route "SPD1TX2" none "SPDCLK",
    RouteEntry.route "DSP1" none "DSP1CLK",
    RouteEntry.route "ISRC1DEC1" none "ISRC1CLK",
    RouteEntry.route "ISRC1DEC2" none "ISRC1CLK",
    RouteEntry.route "ISRC1INT1" none "ISRC1CLK",
    RouteEntry.route "ISRC1INT2" none "ISRC1CLK",
    RouteEntry.route "ISRC2DEC1" none "ISRC2CLK",
    RouteEntry.route "ISRC2DEC2" none "ISRC2CLK",
    RouteEntry.route "ISRC2INT1" none "ISRC2CLK",
    RouteEntry.route "ISRC2INT2" none "ISRC2CLK",
    RouteEntry.route "ASRC1IN1L" none "ASRC1CLK",
    RouteEntry.route "ASRC1IN1R" none "ASRC1CLK",
    RouteEntry.route "ASRC1IN2L" none "ASRC1CLK",
    RouteEntry.route "ASRC1IN2R" none "ASRC1CLK",
    RouteEntry.route "DFC1" none "DFCCLK",
    RouteEntry.route "DFC2" none "DFCCLK",
    RouteEntry.route "DFC3" none "DFCCLK",
    RouteEntry.route "DFC4" none "DFCCLK",
    RouteEntry.route "DFC5" none "DFCCLK",
    RouteEntry.route "DFC6" none "DFCCLK",
    RouteEntry.route "DFC7" none "DFCCLK",
    RouteEntry.route "DFC8" none "DFCCLK",
    RouteEntry.route "OUT1L" none "CPVDD1",
    RouteEntry.route "OUT1L" none "CPVDD2",
    RouteEntry.route "OUT1R" none "CPVDD1",
    RouteEntry.route "OUT1R" none "CPVDD2",
    RouteEntry.route "OUT2L" none "CPVDD1",
    RouteEntry.route "OUT2L" none "CPVDD2",
    RouteEntry.route "OUT2R" none "CPVDD1",
    RouteEntry.route "OUT2R" none "CPVDD2",
    RouteEntry.route "OUT3L" none "CPVDD1",
    RouteEntry.route "OUT3L" none "CPVDD2",
    RouteEntry.route "OUT3R" none "CPVDD1",
    RouteEntry.route "OUT3R" none "CPVDD2",
    RouteEntry.route "OUT1L" none "SYSCLK",
    RouteEntry.route "OUT1R" none "SYSCLK",
    RouteEntry.route "OUT2L" none "SYSCLK",
    RouteEntry.route "OUT2R" none "SYSCLK",
    RouteEntry.route "OUT3L" none "SYSCLK",
    RouteEntry.route "OUT3R" none "SYSCLK",
    RouteEntry.route "OUT5L" none "SYSCLK",
    RouteEntry.route "OUT5R" none "SYSCLK",
    RouteEntry.route "SPD1" none "SYSCLK",
    RouteEntry.route "SPD1" none "SPD1TX1",
    RouteEntry.route "SPD1" none "SPD1TX2",
    RouteEntry.route "IN1AL" none "SYSCLK",
    RouteEntry.route "IN1BL" none "SYSCLK",
    RouteEntry.route "IN1AR" none "SYSCLK",
    RouteEntry.route "IN1BR" none "SYSCLK",
    RouteEntry.route "IN2AL" none "SYSCLK",
    RouteEntry.route "IN2BL" none "SYSCLK",
    RouteEntry.route "IN2AR" none "SYSCLK",
    RouteEntry.route "IN2BR" none "SYSCLK",
    RouteEntry.route "IN3L" none "SYSCLK",
    RouteEntry.route "IN3R" none "SYSCLK",
    RouteEntry.route "IN4L" none "SYSCLK",
    RouteEntry.route "IN4R" none "SYSCLK",
    RouteEntry.route "ASRC1IN1L" none "SYSCLK",
    RouteEntry.route "ASRC1IN1R" none "SYSCLK",
    RouteEntry.route "ASRC1IN2L" none "SYSCLK",
    RouteEntry.route "ASRC1IN2R" none "SYSCLK",
    RouteEntry.route "ASRC1IN1L" none "ASYNCCLK",
    RouteEntry.route "ASRC1IN1R" none "ASYNCCLK",
    RouteEntry.route "ASRC1IN2L" none "ASYNCCLK",
    RouteEntry.route "ASRC1IN2R" none "ASYNCCLK",
    RouteEntry.route "MICBIAS1" none "MICVDD",
    RouteEntry.route "MICBIAS2" none "MICVDD",
    RouteEntry.route "MICBIAS1A" none "MICBIAS1",
    RouteEntry.route "MICBIAS1B" none "MICBIAS1",
    RouteEntry.route "MICBIAS1C" none "MICBIAS1",
    RouteEntry.route "MICBIAS1D" none "MICBIAS1",
    RouteEntry.route "MICBIAS2A" none "MICBIAS2",
    RouteEntry.route "MICBIAS2B" none "MICBIAS2",
    RouteEntry.route "Noise Generator" none "SYSCLK",
    RouteEntry.route "Tone Generator 1" none "SYSCLK",
    RouteEntry.route "Tone Generator 2" none "SYSCLK",
    RouteEntry.route "Noise Generator" none "NOISE",
    RouteEntry.route "Tone Generator 1" none "TONE",
    RouteEntry.route "Tone Generator 2" none "TONE",
    RouteEntry.route "AIF1 Capture" none "AIF1TX1",
    RouteEntry.route "AIF1 Capture" none "AIF1TX2",
    RouteEntry.route "AIF1 Capture" none "AIF1TX3",
    RouteEntry.route "AIF1 Capture" none "AIF1TX4",
    RouteEntry.route "AIF1 Capture" none "AIF1TX5",
    RouteEntry.route "AIF1 Capture" none "AIF1TX6",
    RouteEntry.route "AIF1 Capture" none "AIF1TX7",
    RouteEntry.route "AIF1 Capture" none "AIF1TX8",
    RouteEntry.route "AIF1RX1" none "AIF1 Playback",
    RouteEntry.route "AIF1RX2" none "AIF1 Playback",
    RouteEntry.route "AIF1RX3" none "AIF1 Playback",
    RouteEntry.route "AIF1RX4" none "AIF1 Playback",
    RouteEntry.route "AIF1RX5" none "AIF1 Playback",
    RouteEntry.route "AIF1RX6" none "AIF1 Playback",
    RouteEntry.route "AIF1RX7" none "AIF1 Playback",
    RouteEntry.route "AIF1RX8" none "AIF1 Playback",
    RouteEntry.route "AIF2 Capture" none "AIF2TX1",
    RouteEntry.route "AIF2 Capture" none "AIF2TX2",
    RouteEntry.route "AIF2 Capture" none "AIF2TX3",
    RouteEntry.route "AIF2 Capture" none "AIF2TX4",
    RouteEntry.route "AIF2 Capture" none "AIF2TX5",
    RouteEntry.route "AIF2 Capture" none "AIF2TX6",
    RouteEntry.route "AIF2 Capture" none "AIF2TX7",
    RouteEntry.route "AIF2 Capture" none "AIF2TX8",
    RouteEntry.route "AIF2RX1" none "AIF2 Playback",
    RouteEntry.route "AIF2RX2" none "AIF2 Playback",
    RouteEntry.route "AIF2RX3" none "AIF2 Playback",
    RouteEntry.route "AIF2RX4" none "AIF2 Playback",
    RouteEntry.route "AIF2RX5" none "AIF2 Playback",
    RouteEntry.route "AIF2RX6" none "AIF2 Playback",
    RouteEntry.route "AIF2RX7" none "AIF2 Playback",
    RouteEntry.route "AIF2RX8" none "AIF2 Playback",
    RouteEntry.route "AIF3 Capture" none "AIF3TX1",
    RouteEntry.route "AIF3 Capture" none "AIF3TX2",
    RouteEntry.route "AIF3 Capture" none "AIF3TX3",
    RouteEntry.route "AIF3 Capture" none "AIF3TX4",
    RouteEntry.route "AIF3RX1" none "AIF3 Playback",
    RouteEntry.route "AIF3RX2" none "AIF3 Playback",
    RouteEntry.route "AIF3RX3" none "AIF3 Playback",
    RouteEntry.route "AIF3RX4" none "AIF3 Playback",
    RouteEntry.route "Slim1 Capture" none "SLIMTX1",
    RouteEntry.route "Slim1 Capture" none "SLIMTX2",
    RouteEntry.route "Slim1 Capture" none "SLIMTX3",
    RouteEntry.route "Slim1 Capture" none "SLIMTX4",
    RouteEntry.route "SLIMRX1" none "Slim1 Playback",
    RouteEntry.route "SLIMRX2" none "Slim1 Playback",
    RouteEntry.route "SLIMRX3" none "Slim1 Playback",
    RouteEntry.route "SLIMRX4" none "Slim1 Playback",
    RouteEntry.route "Slim2 Capture" none "SLIMTX5",
    RouteEntry.route "Slim2 Capture" none "SLIMTX6",
    RouteEntry.route "SLIMRX5" none "Slim2 Playback",
    RouteEntry.route "SLIMRX6" none "Slim2 Playback",
    RouteEntry.route "Slim3 Capture" none "SLIMTX7",
    RouteEntry.route "Slim3 Capture" none "SLIMTX8",
    RouteEntry.route "SLIMRX7" none "Slim3 Playback",
    RouteEntry.route "SLIMRX8" none "Slim3 Playback",
    RouteEntry.route "AIF1 Playback" none "SYSCLK",
    RouteEntry.route "AIF2 Playback" none "SYSCLK",
    RouteEntry.route "AIF3 Playback" none "SYSCLK",
    RouteEntry.route "Slim1 Playback" none "SYSCLK",
    RouteEntry.route "Slim2 Playback" none "SYSCLK",
    RouteEntry.route "Slim3 Playback" none "SYSCLK",
    RouteEntry.route "AIF1 Capture" none "SYSCLK",
    RouteEntry.route "AIF2 Capture" none "SYSCLK",
    RouteEntry.route "AIF3 Capture" none "SYSCLK",
    RouteEntry.route "Slim1 Capture" none "SYSCLK",
    RouteEntry.route "Slim2 Capture" none "SYSCLK",
    RouteEntry.route "Slim3 Capture" none "SYSCLK",
    RouteEntry.route "Audio Trace DSP" none "DSP1",
    RouteEntry.route "IN1L Mux" (some "A") "IN1AL",
    RouteEntry.route "IN1L Mux" (some "B") "IN1BL",
    RouteEntry.route "IN1R Mux" (some "A") "IN1AR",
    RouteEntry.route "IN1R Mux" (some "B") "IN1BR",
    RouteEntry.route "IN2L Mux" (some "A") "IN2AL",
    RouteEntry.route "IN2L Mux" (some "B") "IN2BL",
    RouteEntry.route "IN2R Mux" (some "A") "IN2AR",
    RouteEntry.route "IN2R Mux" (some "B") "IN2BR",
    RouteEntry.route "IN1L PGA" none "IN1L Mux",
    RouteEntry.route "IN1R PGA" none "IN1R Mux",
    RouteEntry.route "IN2L PGA" none "IN2L Mux",
    RouteEntry.route "IN2R PGA" none "IN2R Mux",
    RouteEntry.route "IN3L PGA" none "IN3L",
    RouteEntry.route "IN3R PGA" none "IN3R",
    RouteEntry.route "IN4L PGA" none "IN4L",
    RouteEntry.route "IN4R PGA" none "IN4R",
    RouteEntry.mixer_routes "OUT1L" "HPOUT1L",
    RouteEntry.mixer_routes "OUT1R" "HPOUT1R",
    RouteEntry.mixer_routes "OUT2L" "HPOUT2L",
    RouteEntry.mixer_routes "OUT2R" "HPOUT2R",
    RouteEntry.mixer_routes "OUT3L" "HPOUT3L",
    RouteEntry.mixer_routes "OUT3R" "HPOUT3R",
    RouteEntry.mixer_routes "OUT5L" "SPKDAT1L",
    RouteEntry.mixer_routes "OUT5R" "SPKDAT1R",
    RouteEntry.mixer_routes "PWM1 Driver" "PWM1",
    RouteEntry.mixer_routes "PWM2 Driver" "PWM2",
    RouteEntry.mixer_routes "AIF1TX1" "AIF1TX1",
    RouteEntry.mixer_routes "AIF1TX2" "AIF1TX2",
    RouteEntry.mixer_routes "AIF1TX3" "AIF1TX3",
    RouteEntry.mixer_routes "AIF1TX4" "AIF1TX4",
    RouteEntry.mixer_routes "AIF1TX5" "AIF1TX5",
    RouteEntry.mixer_routes "AIF1TX6" "AIF1TX6",
    RouteEntry.mixer_routes "AIF1TX7" "AIF1TX7",
    RouteEntry.mixer_routes "AIF1TX8" "AIF1TX8",
    RouteEntry.mixer_routes "AIF2TX1" "AIF2TX1",
    RouteEntry.mixer_routes "AIF2TX2" "AIF2TX2",
    RouteEntry.mixer_routes "AIF2TX3" "AIF2TX3",
    RouteEntry.mixer_routes "AIF2TX4" "AIF2TX4",
    RouteEntry.mixer_routes "AIF2TX5" "AIF2TX5",
    RouteEntry.mixer_routes "AIF2TX6" "AIF2TX6",
    RouteEntry.mixer_routes "AIF2TX7" "AIF2TX7",
    RouteEntry.mixer_routes "AIF2TX8" "AIF2TX8",
    RouteEntry.mixer_routes "AIF3TX1" "AIF3TX1",
    RouteEntry.mixer_routes "AIF3TX2" "AIF3TX2",
    RouteEntry.mixer_routes "AIF3TX3" "AIF3TX3",
    RouteEntry.mixer_routes "AIF3TX4" "AIF3TX4",
    RouteEntry.mixer_routes "SLIMTX1" "SLIMTX1",
    RouteEntry.mixer_routes "SLIMTX2" "SLIMTX2",
    RouteEntry.mixer_routes "SLIMTX3" "SLIMTX3",
    RouteEntry.mixer_routes "SLIMTX4" "SLIMTX4",
    RouteEntry.mixer_routes "SLIMTX5" "SLIMTX5",
    RouteEntry.mixer_routes "SLIMTX6" "SLIMTX6",
    RouteEntry.mixer_routes "SLIMTX7" "SLIMTX7",
    RouteEntry.mixer_routes "SLIMTX8" "SLIMTX8",
    RouteEntry.mux_routes "SPD1TX1" "SPDIFTX1",
    RouteEntry.mux_routes "SPD1TX2" "SPDIFTX2",
    RouteEntry.mixer_routes "EQ1" "EQ1",
    RouteEntry.mixer_routes "EQ2" "EQ2",
    RouteEntry.mixer_routes "EQ3" "EQ3",
    RouteEntry.mixer_routes "EQ4" "EQ4",
    RouteEntry.mixer_routes "DRC1L" "DRC1L",
    RouteEntry.mixer_routes "DRC1R" "DRC1R",
    RouteEntry.mixer_routes "DRC2L" "DRC2L",
    RouteEntry.mixer_routes "DRC2R" "DRC2R",
    RouteEntry.mixer_routes "LHPF1" "LHPF1",
    RouteEntry.mixer_routes "LHPF2" "LHPF2",
    RouteEntry.mixer_routes "LHPF3" "LHPF3",
    RouteEntry.mixer_routes "LHPF4" "LHPF4",
    RouteEntry.mux_routes "ASRC1IN1L" "ASRC1IN1L",
    RouteEntry.mux_routes "ASRC1IN1R" "ASRC1IN1R",
    RouteEntry.mux_routes "ASRC1IN2L" "ASRC1IN2L",
    RouteEntry.mux_routes "ASRC1IN2R" "ASRC1IN2R",
    RouteEntry.dsp_routes "DSP1",
    RouteEntry.mux_routes "ISRC1INT1" "ISRC1INT1",
    RouteEntry.mux_routes "ISRC1INT2" "ISRC1INT2",
    RouteEntry.mux_routes "ISRC1DEC1" "ISRC1DEC1",
    RouteEntry.mux_routes "ISRC1DEC2" "ISRC1DEC2",
    RouteEntry.mux_routes "ISRC2INT1" "ISRC2INT1",
    RouteEntry.mux_routes "ISRC2INT2" "ISRC2INT2",
    RouteEntry.mux_routes "ISRC2DEC1" "ISRC2DEC1",
    RouteEntry.mux_routes "ISRC2DEC2" "ISRC2DEC2",
    RouteEntry.route "AEC1 Loopback" (some "HPOUT1L") "OUT1L",
    RouteEntry.route "AEC1 Loopback" (some "HPOUT1R") "OUT1R",
    RouteEntry.route "HPOUT1L" none "OUT1L",
    RouteEntry.route "HPOUT1R" none "OUT1R",
    RouteEntry.route "AEC1 Loopback" (some "HPOUT2L") "OUT2L",
    RouteEntry.route "AEC1 Loopback" (some "HPOUT2R") "OUT2R",
    RouteEntry.route "HPOUT2L" none "OUT2L",
    RouteEntry.route "HPOUT2R" none "OUT2R",
    RouteEntry.route "AEC1 Loopback" (some "HPOUT3L") "OUT3L",
    RouteEntry.route "AEC1 Loopback" (some "HPOUT3R") "OUT3R",
    RouteEntry.route "OUT3 Demux" none "OUT3L",
    RouteEntry.route "OUT3 Demux" none "OUT3R",
    RouteEntry.route "HPOUT3L" (some "HPOUT3") "OUT3 Demux",
    RouteEntry.route "HPOUT3R" (some "HPOUT3") "OUT3 Demux",
    RouteEntry.route "HPOUT4L" (some "HPOUT4") "OUT3 Demux",
    RouteEntry.route "HPOUT4R" (some "HPOUT4") "OUT3 Demux",
    RouteEntry.route "AEC1 Loopback" (some "SPKDAT1L") "OUT5L",
    RouteEntry.route "AEC1 Loopback" (some "SPKDAT1R") "OUT5R",
    RouteEntry.route "SPKDAT1L" none "OUT5L",
    RouteEntry.route "SPKDAT1R" none "OUT5R",
    RouteEntry.route "SPDIF1" none "SPD1",
    RouteEntry.route "AUXPDM1 Input" (some "IN1L") "IN1L PGA",
    RouteEntry.route "AUXPDM1 Input" (some "IN1R") "IN1R PGA",
    RouteEntry.route "AUXPDM1 Input" (some "IN2L") "IN2L PGA",
    RouteEntry.route "AUXPDM1 Input" (some "IN2R") "IN2R PGA",
    RouteEntry.route "AUXPDM1 Output" (some "Switch") "AUXPDM1 Input",
    RouteEntry.route "AUXPDM1" none "AUXPDM1 Output",
    RouteEntry.route "MICSUPP" none "SYSCLK",
    RouteEntry.route "DRC1 Signal Activity" none "DRC1 Activity Output",
    RouteEntry.route "DRC2 Signal Activity" none "DRC2 Activity Output",
    RouteEntry.route "DRC1 Activity Output" (some "Switch") "DRC1L",
    RouteEntry.route "DRC1 Activity Output" (some "Switch") "DRC1R",
    RouteEntry.route "DRC2 Activity Output" (some "Switch") "DRC2L",
    RouteEntry.route "DRC2 Activity Output" (some "Switch") "DRC2R",
    RouteEntry.mux_routes "DFC1" "DFC1",
    RouteEntry.mux_routes "DFC2" "DFC2",
    RouteEntry.mux_routes "DFC3" "DFC3",
    RouteEntry.mux_routes "DFC4" "DFC4",
    RouteEntry.mux_routes "DFC5" "DFC5",
    RouteEntry.mux_routes "DFC6" "DFC6",
    RouteEntry.mux_routes "DFC7" "DFC7",
    RouteEntry.mux_routes "DFC8" "DFC8" ]

/-- Modelled from the spec: the macros `MADERA_MIXER_WIDGETS`,
`MADERA_MUX_WIDGETS`, `MADERA_DSP_WIDGETS` and `WM_ADSP2` are header
definitions outside the file.  Each declares widgets whose names are its
string argument followed by fixed suffixes (for `MADERA_MIXER_WIDGETS` one of
them is " Mixer"); the suffix lists are the parameter. -/
structure WidgetMacros where
  mixer : List String
  mux : List String
  dsp : List String
  adsp2 : List String

/-- The widget names an entry of `cs47l92_dapm_widgets` declares. -/
def entry_names (x : WidgetMacros) : WidgetEntry → List String
  | WidgetEntry.dapm _ n => [n]
  | WidgetEntry.mixer_widgets _ s => x.mixer.map (fun sfx => s ++ sfx)
  | WidgetEntry.mux_widgets _ s => x.mux.map (fun sfx => s ++ sfx)
  | WidgetEntry.dsp_widgets _ s => x.dsp.map (fun sfx => s ++ sfx)
  | WidgetEntry.wm_adsp2 w => x.adsp2.map (fun sfx => w ++ sfx)

/-- The names of all widgets declared in `cs47l92_dapm_widgets`. -/
def widget_names (x : WidgetMacros) : List String :=
  cs47l92_dapm_widgets.flatMap (entry_names x)

/-- The names written in the `SND_SOC_DAPM_*` entries of
`cs47l92_dapm_widgets`. -/
def literal_widget_names : List String :=
  cs47l92_dapm_widgets.filterMap
    (fun e => match e with
      | WidgetEntry.dapm _ n => some n
      | _ => none)

/-- The stream names of the DAIs in `cs47l92_dai`. -/
def dai_stream_names : List String :=
  cs47l92_dai.flatMap (fun d => (d.playback.toList ++ d.capture.toList).map pcm_stream.stream_name)

/-- A route endpoint that is a `SND_SOC_DAPM_*` widget, a DAI stream, or one
of the three names declared through `MADERA_MIXER_WIDGETS` and `WM_ADSP2`
entries that literal routes use. -/
def endpoint_known (n : String) : Bool :=
  decide (n ∈ literal_widget_names) || decide (n ∈ dai_stream_names) ||
    n == "PWM1 Mixer" || n == "PWM2 Mixer" || n == "DSP1"

/-- Both endpoints of a literal route are known; other entries pass. -/
def route_known : RouteEntry → Bool
  | RouteEntry.route sink _ source => endpoint_known sink && endpoint_known source
  | _ => true

/-- The suffixes of the widget macros that this development relies on: the
mixer widget of `MADERA_MIXER_WIDGETS` and the core widget of `WM_ADSP2`. -/
def known_widget_macros : WidgetMacros where
  mixer := [" Mixer"]
  mux := []
  dsp := []
  adsp2 := [""]

/-- The table `cs47l92_dmic_refs` (lines 1959-1964). -/
def cs47l92_dmic_refs : List String := ["MICVDD", "MICBIAS1", "MICBIAS2", "MICBIAS3"]

/-- The table `cs47l92_dmic_inputs` (lines 1966-1975). -/
def cs47l92_dmic_inputs : List String :=
  ["IN1L Mux", "IN1R Mux", "IN2L Mux", "IN2R Mux", "IN3L", "IN3R", "IN4L", "IN4R"]

/-- Whether an entry can declare a widget called `t`: a `SND_SOC_DAPM_*` entry
must carry that name, a macro entry must have a string argument that `t`
starts with. -/
def may_declare (t : String) : WidgetEntry → Bool
  | WidgetEntry.dapm _ n => n == t
  | WidgetEntry.mixer_widgets _ s => s.data.isPrefixOf t.data
  | WidgetEntry.mux_widgets _ s => s.data.isPrefixOf t.data
  | WidgetEntry.dsp_widgets _ s => s.data.isPrefixOf t.data
  | WidgetEntry.wm_adsp2 w => w.data.isPrefixOf t.data

/-- An environment in which every step of `cs47l92_probe` succeeds. -/
def probe_env_ok : ProbeEnv := ⟨true, true, 0, 0, 0, 0, 0, 0, 0⟩

/-- A route of the DAPM graph (`struct snd_soc_dapm_route`). -/
structure snd_soc_dapm_route where
  sink : String
  control : Option String
  source : String
  deriving DecidableEq, Repr

/-- The routes an entry of `cs47l92_dapm_routes` stands for.  Modelled from
the spec: the macros `MADERA_MIXER_ROUTES`, `MADERA_MUX_ROUTES` and
`MADERA_DSP_ROUTES` are header definitions outside the file, so the routes
they expand to are given by the parameter `x`. -/
def entry_routes (x : RouteEntry → List snd_soc_dapm_route) :
    RouteEntry → List snd_soc_dapm_route
  | RouteEntry.route sink control source => [⟨sink, control, source⟩]
  | e => x e

/-- All routes of `cs47l92_dapm_routes`. -/
def all_routes (x : RouteEntry → List snd_soc_dapm_route) : List snd_soc_dapm_route :=
  cs47l92_dapm_routes.flatMap (entry_routes x)

/-- The routes written out literally in `cs47l92_dapm_routes`. -/
def literal_routes : List snd_soc_dapm_route := all_routes (fun _ => [])

/-- Whether `cs47l92_dapm_widgets` has a `SND_SOC_DAPM_*` entry of kind `k`
named `n`. -/
def is_widget (k : DapmKind) (n : String) : Bool :=
  decide (WidgetEntry.dapm k n ∈ cs47l92_dapm_widgets)

/-- A route from a TX widget (`SND_SOC_DAPM_AIF_OUT`) into the stream. -/
def is_tx_route (stream : String) (r : snd_soc_dapm_route) : Bool :=
  r.sink == stream && is_widget DapmKind.aif_out r.source

/-- A route from the stream into an RX widget (`SND_SOC_DAPM_AIF_IN`). -/
def is_rx_route (stream : String) (r : snd_soc_dapm_route) : Bool :=
  r.source == stream && is_widget DapmKind.aif_in r.sink

/-- A route between the widget `w` and some DAI stream, in either direction. -/
def is_stream_link (w : String) (r : snd_soc_dapm_route) : Bool :=
  (r.source == w && decide (r.sink ∈ dai_stream_names)) ||
    (r.sink == w && decide (r.source ∈ dai_stream_names))

/-- The names of the six audio-interface DAIs. -/
def aif_dai_names : List String :=
  ["cs47l92-aif1", "cs47l92-aif2", "cs47l92-aif3", "cs47l92-slim1", "cs47l92-slim2",
   "cs47l92-slim3"]

/-- The channel counts of a DAI agree with the literal routes. -/
def dai_channels_literal (d : dai_driver) : Bool :=
  match d.playback, d.capture with
  | some p, some c =>
    decide ((literal_routes.filter (is_tx_route c.stream_name)).length = c.channels_max) &&
      decide ((literal_routes.filter (is_rx_route p.stream_name)).length = p.channels_max)
  | _, _ => false

/-- A TX or RX widget entry has at most one literal route to a DAI stream. -/
def widget_links_literal : WidgetEntry → Bool
  | WidgetEntry.dapm DapmKind.aif_out n =>
    decide ((literal_routes.filter (is_stream_link n)).length ≤ 1)
  | WidgetEntry.dapm DapmKind.aif_in n =>
    decide ((literal_routes.filter (is_stream_link n)).length ≤ 1)
  | _ => true

/-- A sample expansion of the route macros: the route from the mixer, or from
the mux input, into the widget the macro is written for. -/
def sample_route_macros : RouteEntry → List snd_soc_dapm_route
  | RouteEntry.mixer_routes widget name => [⟨widget, none, name ++ " Mixer"⟩]
  | RouteEntry.mux_routes widget name => [⟨widget, none, name ++ " Input 1"⟩]
  | _ => []

/-- Calls of `madera_set_output_mode`. -/
def is_set_mode : Event → Bool
  | .set_output_mode _ _ => true
  | _ => false

/-- The calls of lines 107-117 after the EP_SEL write: the mono mode call (and
its warning) when the write succeeded, the error message when it failed. -/
def after_sel (m : madera) (env : Env) (mux : Nat) : List Event :=
  if env.sel_ret = 0 then
    .set_output_mode 3 (m.out_mono (u32 (2 + mux))) ::
      (if env.mode_ret < 0 then [.dev_warn .set_output_mode env.mode_ret] else [])
  else [.dev_err .set_ep_sel env.sel_ret]

/-- An environment in which only the EP_SEL write fails (with -EIO). -/
def env_sel_fails : Env := { env_ok with sel_ret := -5 }

/-- An environment in which only the register read of `snd_soc_test_bits`
fails (with -EIO). -/
def env_test_fails : Env := { env_ok with test_ret := -5 }

/-- The device as a call of `cs47l92_put_demux` leaves it: the register map is
the one the call ends with. -/
def demux_next (m : madera) (r : Int × Run) : madera := { m with regmap := r.2.regmap }

/-- Calls made by `cs47l92_adsp_power_ev`. -/
inductive AdspEvent where
  | regmap_read (reg : Nat)
  | dev_err_read (ret : Int)
  | madera_set_adsp_clk (shift : Nat) (freq : Nat)
  | wm_adsp2_early_event (event : Int) (freq : Nat)
  deriving DecidableEq, Repr

/-- Results of the kernel services during one call of
`cs47l92_adsp_power_ev`: the result of the `regmap_read` and the register
content it delivers, the indeterminate initial content of the local `freq`,
and the results of `madera_set_adsp_clk` and `wm_adsp2_early_event`. -/
structure AdspEnv where
  read_ret : Int
  dsp_clock_2 : Nat
  freq_uninit : Nat
  set_clk_ret : Int
  early_event_ret : Int

/-- The widget event handler `cs47l92_adsp_power_ev` for a widget with shift
`w_shift` and the DAPM event `event`.  The result is the return value and the
calls made. -/
def cs47l92_adsp_power_ev (h : Hdr) (env : AdspEnv) (w_shift : Nat) (event : Int) :
    Int × List AdspEvent :=
  let ret := env.read_ret
  let freq := if ret = 0 then env.dsp_clock_2 else env.freq_uninit
  let t1 : List AdspEvent := [.regmap_read h.MADERA_DSP_CLOCK_2]
  if ret ≠ 0 then (ret, t1 ++ [.dev_err_read ret])
  else if event = h.SND_SOC_DAPM_PRE_PMU then
    let t2 := t1 ++ [.madera_set_adsp_clk w_shift freq]
    if env.set_clk_ret ≠ 0 then (env.set_clk_ret, t2)
    else (env.early_event_ret, t2 ++ [.wm_adsp2_early_event event freq])
  else (env.early_event_ret, t1 ++ [.wm_adsp2_early_event event freq])

/-- The values of `irqreturn_t` that `cs47l92_adsp2_irq` returns. -/
inductive irqreturn where
  | IRQ_NONE
  | IRQ_HANDLED
  deriving DecidableEq, Repr

/-- Calls made by `cs47l92_adsp2_irq`. -/
inductive IrqEvent where
  | wm_adsp_compr_handle_irq (n_adsp : Nat)
  | dev_err_spurious
  deriving DecidableEq, Repr

/-- The interrupt handler `cs47l92_adsp2_irq`; `handle_ret` is the result of
`wm_adsp_compr_handle_irq` on `adsp[0]`. -/
def cs47l92_adsp2_irq (h : Hdr) (handle_ret : Int) : irqreturn × List IrqEvent :=
  let ret := handle_ret
  if ret = -h.ENODEV then
    (irqreturn.IRQ_NONE, [.wm_adsp_compr_handle_irq 0, .dev_err_spurious])
  else (irqreturn.IRQ_HANDLED, [.wm_adsp_compr_handle_irq 0])

/-- An environment for `cs47l92_adsp_power_ev` in which the clock register
reads 0x4000 and setting the DSP clock fails with -22. -/
def adsp_env_clk_fails : AdspEnv := ⟨0, 0x4000, 0, -22, 0⟩

/-- The constant `CS47L92_MONO_OUTPUTS`. -/
def CS47L92_MONO_OUTPUTS : Nat := 3

/-- The constant `CS47L92_NUM_ADSP`. -/
def CS47L92_NUM_ADSP : Nat := 1

/-- Calls made by `cs47l92_codec_probe`. -/
inductive CodecProbeEvent where
  | madera_init_inputs (n_dmic_inputs n_dmic_refs : Nat)
  | regmap_update_bits (reg mask val : Nat)
  | madera_init_outputs (n_mono : Nat)
  | madera_init_aif
  | snd_soc_dapm_disable_pin (pin : String)
  | snd_soc_add_codec_controls (num : Nat)
  | wm_adsp2_codec_probe (n_adsp : Nat)
  deriving DecidableEq, Repr

/-- What `cs47l92_codec_probe` finds: the two platform data flags, the content
of MADERA_AUXPDM1_CTRL_0, and the results of the calls it makes (the result of
the register update is not looked at by the function). -/
structure CodecProbeEnv where
  auxpdm_slave_mode : Bool
  auxpdm_falling_edge : Bool
  auxpdm1_ctrl_0 : Nat
  init_inputs_ret : Int
  update_ret : Int
  init_outputs_ret : Int
  init_aif_ret : Int
  add_controls_ret : Int
  adsp2_codec_probe_ret : Int

/-- Lines 1995-2000: the value written to the AUXPDM1 control bits. -/
def auxpdm_val (h : Hdr) (env : CodecProbeEnv) : Nat :=
  let val := if !env.auxpdm_slave_mode then h.MADERA_AUXPDM1_MSTR_MASK else 0
  if env.auxpdm_falling_edge then val ||| h.MADERA_AUXPDM1_TXEDGE_MASK else val

/-- The result of `cs47l92_codec_probe`: the return value, the content of
MADERA_AUXPDM1_CTRL_0 afterwards, and the calls made. -/
structure CodecProbeResult where
  ret : Int
  auxpdm1_ctrl_0 : Nat
  calls : List CodecProbeEvent

/-- The function `cs47l92_codec_probe`.  The register update follows the model
of `regmap_update_bits`: on success the bits of the mask take the value given,
on failure the register is left as it was. -/
def cs47l92_codec_probe (h : Hdr) (env : CodecProbeEnv) : CodecProbeResult :=
  let t1 : List CodecProbeEvent :=
    [.madera_init_inputs cs47l92_dmic_inputs.length cs47l92_dmic_refs.length]
  if env.init_inputs_ret ≠ 0 then ⟨env.init_inputs_ret, env.auxpdm1_ctrl_0, t1⟩
  else
    let val := auxpdm_val h env
    let mask := h.MADERA_AUXPDM1_TXEDGE_MASK ||| h.MADERA_AUXPDM1_MSTR_MASK
    let t2 := t1 ++ [.regmap_update_bits h.MADERA_AUXPDM1_CTRL_0 mask val]
    let reg := if env.update_ret = 0 then updated env.auxpdm1_ctrl_0 mask val
      else env.auxpdm1_ctrl_0
    let t3 := t2 ++ [.madera_init_outputs CS47L92_MONO_OUTPUTS]
    if env.init_outputs_ret ≠ 0 then ⟨env.init_outputs_ret, reg, t3⟩
    else
      let t4 := t3 ++ [.madera_init_aif]
      if env.init_aif_ret ≠ 0 then ⟨env.init_aif_ret, reg, t4⟩
      else
        let t5 := t4 ++ [.snd_soc_dapm_disable_pin "HAPTICS",
          .snd_soc_add_codec_controls CS47L92_NUM_ADSP]
        if env.add_controls_ret ≠ 0 then ⟨env.add_controls_ret, reg, t5⟩
        else ⟨env.adsp2_codec_probe_ret, reg, t5 ++ [.wm_adsp2_codec_probe 0]⟩

/-- A codec probe environment in which every call succeeds, with the two
platform data flags and the register content as given. -/
def codec_env (slave falling : Bool) (reg : Nat) : CodecProbeEnv :=
  ⟨slave, falling, reg, 0, 0, 0, 0, 0, 0⟩

/-- The calls of `cs47l92_probe` up to and including a successful
`madera_core_init`. -/
def probe_head : List ProbeEvent :=
  [.devm_kzalloc, .platform_set_drvdata, .madera_core_init 8]

/-- The calls that request the DSP interrupt and set its wake state, with the
warning when setting the wake state fails. -/
def probe_irq (env : ProbeEnv) : List ProbeEvent :=
  [.madera_request_irq, .madera_set_irq_wake 1] ++
    (if env.irq_wake_ret ≠ 0 then [.dev_warn_irq_wake env.irq_wake_ret] else [])

/-- An environment in which only `madera_init_bus_error_irq` fails (with -22). -/
def probe_env_bus_error_fails : ProbeEnv := { probe_env_ok with bus_error_ret := -22 }

/-- An environment in which only `snd_soc_register_codec` fails (with -22). -/
def probe_env_codec_fails : ProbeEnv := { probe_env_ok with register_codec_ret := -22 }

/-- The table `cs47l92_aec_loopback_texts`. -/
def cs47l92_aec_loopback_texts : List String :=
  ["HPOUT1L", "HPOUT1R", "HPOUT2L", "HPOUT2R", "HPOUT3L", "HPOUT3R", "SPKDAT1L", "SPKDAT1R"]

/-- The table `cs47l92_aec_loopback_values`. -/
def cs47l92_aec_loopback_values : List Nat := [0, 1, 2, 3, 4, 5, 8, 9]

/-- The field mask given to `SOC_VALUE_ENUM_SINGLE` for `cs47l92_aec_loopback`. -/
def cs47l92_aec_loopback_mask : Nat := 0xf

/-- The arguments of a `SOC_SINGLE(name, reg, shift, max, invert)` control. -/
structure soc_single where
  name : String
  reg : Nat
  shift : Nat
  max : Nat
  invert : Nat
  deriving DecidableEq, Repr

/-- The macro `CS47L92_NG_SRC(name, base)` (lines 247-255): eight switch
controls on register `base`, one per output. -/
def CS47L92_NG_SRC (name : String) (base : Nat) : List soc_single :=
  [ ⟨name ++ " NG HPOUT1L Switch", base, 0, 1, 0⟩,
    ⟨name ++ " NG HPOUT1R Switch", base, 1, 1, 0⟩,
    ⟨name ++ " NG HPOUT2L Switch", base, 2, 1, 0⟩,
    ⟨name ++ " NG HPOUT2R Switch", base, 3, 1, 0⟩,
    ⟨name ++ " NG HPOUT3L Switch", base, 4, 1, 0⟩,
    ⟨name ++ " NG HPOUT3R Switch", base, 5, 1, 0⟩,
    ⟨name ++ " NG SPKDAT1L Switch", base, 8, 1, 0⟩,
    ⟨name ++ " NG SPKDAT1R Switch", base, 9, 1, 0⟩ ]

/-- The string of an entry of `cs47l92_outdemux_texts` (lines 48-51). -/
def OutDemuxText.text : OutDemuxText → String
  | OutDemuxText.HPOUT3 => "HPOUT3"
  | OutDemuxText.HPOUT4 => "HPOUT4"

/-- The table `cs47l92_auxpdm_in_texts` (lines 157-162). -/
def cs47l92_auxpdm_in_texts : List String := ["IN1L", "IN1R", "IN2L", "IN2R"]

/-- A route whose source is the widget `w`. -/
def is_from (w : String) (r : snd_soc_dapm_route) : Bool := r.source == w

/-- A route whose sink is the widget `w`. -/
def is_into (w : String) (r : snd_soc_dapm_route) : Bool := r.sink == w

/-- A route into the widget `w` whose control label is `t`. -/
def is_into_labelled (w t : String) (r : snd_soc_dapm_route) : Bool :=
  r.sink == w && r.control == some t

/-- Whether `cs47l92_dapm_routes` has the literal entry `{ sink, NULL, supply }`. -/
def has_supply_route (sink supply : String) : Bool :=
  decide (RouteEntry.route sink none supply ∈ cs47l92_dapm_routes)

/-! ## Stage lemmas -/

@[simp] theorem emit_regmap (h : Hdr) (s : Run) (ev : Event) :
    (emit h s ev).regmap = s.regmap := rfl

@[simp] theorem emit_trace (h : Hdr) (s : Run) (ev : Event) :
    (emit h s ev).trace = s.trace ++ [⟨ev, s.regmap h.MADERA_OUTPUT_ENABLES_1⟩] := rfl

theorem regmap_update_bits_fst (h : Hdr) (ret : Int) (s : Run) (reg mask val : Nat) :
    (regmap_update_bits h ret s reg mask val).1 = ret := by
  unfold regmap_update_bits; split_ifs with hr <;> simp [hr]

theorem regmap_update_bits_trace (h : Hdr) (ret : Int) (s : Run) (reg mask val : Nat) :
    (regmap_update_bits h ret s reg mask val).2.trace =
      s.trace ++ [⟨.regmap_update_bits reg mask val, s.regmap h.MADERA_OUTPUT_ENABLES_1⟩] := by
  unfold regmap_update_bits; split_ifs <;> simp

theorem regmap_update_bits_regmap (h : Hdr) (ret : Int) (s : Run) (reg mask val : Nat) :
    (regmap_update_bits h ret s reg mask val).2.regmap reg =
      if ret = 0 then updated (s.regmap reg) mask val else s.regmap reg := by
  unfold regmap_update_bits; split_ifs <;> simp

theorem snd_soc_test_bits_regmap (h : Hdr) (ret : Int) (s : Run) (reg mask value : Nat) :
    (snd_soc_test_bits h ret s reg mask value).2.regmap = s.regmap := by
  unfold snd_soc_test_bits; split_ifs <;> simp

theorem snd_soc_test_bits_trace (h : Hdr) (ret : Int) (s : Run) (reg mask value : Nat) :
    (snd_soc_test_bits h ret s reg mask value).2.trace =
      s.trace ++ [⟨.test_bits reg mask value, s.regmap h.MADERA_OUTPUT_ENABLES_1⟩] := by
  unfold snd_soc_test_bits; split_ifs <;> simp

theorem snd_soc_test_bits_fst (h : Hdr) (ret : Int) (s s2 : Run) (reg mask value : Nat)
    (hs : s.regmap = s2.regmap) :
    (snd_soc_test_bits h ret s reg mask value).1 = (snd_soc_test_bits h ret s2 reg mask value).1 := by
  unfold snd_soc_test_bits; split_ifs <;> simp_all

theorem read_cur_fst (h : Hdr) (m : madera) (env : Env) (s : Run) (hs : s.regmap = m.regmap) :
    (read_cur h m env s).1 = demux_cur h m env := by
  unfold demux_cur read_cur regmap_read
  split_ifs <;> simp_all

theorem demux_cur_eq (h : Hdr) (m : madera) (env : Env) :
    demux_cur h m env =
      if accdet_out h m then m.hp_ena
      else if env.read_ret = 0 then m.regmap h.MADERA_OUTPUT_ENABLES_1 else env.cur_uninit := by
  unfold demux_cur read_cur accdet_out regmap_read
  split_ifs <;> simp_all

theorem read_cur_regmap (h : Hdr) (m : madera) (env : Env) (s : Run) :
    (read_cur h m env s).2.regmap = s.regmap := by
  unfold read_cur regmap_read
  split_ifs <;> simp_all

theorem read_cur_trace (h : Hdr) (m : madera) (env : Env) (s : Run) :
    (read_cur h m env s).2.trace =
      s.trace ++ read_cur_obs h m env (s.regmap h.MADERA_OUTPUT_ENABLES_1) := by
  unfold read_cur read_cur_obs accdet_out regmap_read
  split_ifs <;> simp_all

theorem disable_outputs_regmap (h : Hdr) (env : Env) (s : Run) :
    (disable_outputs h env s).regmap h.MADERA_OUTPUT_ENABLES_1 =
      disable_val h env (s.regmap h.MADERA_OUTPUT_ENABLES_1) := by
  unfold disable_outputs disable_val
  simp only [regmap_update_bits_fst]
  split_ifs <;> simp_all [regmap_update_bits_regmap]

theorem disable_outputs_trace (h : Hdr) (env : Env) (s : Run) :
    (disable_outputs h env s).trace =
      s.trace ++ disable_obs h env (s.regmap h.MADERA_OUTPUT_ENABLES_1) := by
  unfold disable_outputs disable_obs
  simp only [regmap_update_bits_fst]
  split_ifs <;> simp_all [regmap_update_bits_trace, regmap_update_bits]

theorem write_ep_sel_regmap (h : Hdr) (m : madera) (env : Env) (mux ep_sel : Nat) (s : Run) :
    (write_ep_sel h m env mux ep_sel s).regmap h.MADERA_OUTPUT_ENABLES_1 =
      sel_val h env ep_sel (s.regmap h.MADERA_OUTPUT_ENABLES_1) := by
  unfold write_ep_sel sel_val madera_set_output_mode
  simp only [regmap_update_bits_fst]
  split_ifs <;> simp_all [regmap_update_bits_regmap]

theorem write_ep_sel_trace (h : Hdr) (m : madera) (env : Env) (mux ep_sel : Nat) (s : Run) :
    (write_ep_sel h m env mux ep_sel s).trace =
      s.trace ++ sel_obs h m env mux ep_sel (s.regmap h.MADERA_OUTPUT_ENABLES_1) := by
  unfold write_ep_sel sel_obs sel_val madera_set_output_mode
  simp only [regmap_update_bits_fst]
  split_ifs <;> simp_all [regmap_update_bits_trace, regmap_update_bits_regmap]

theorem restore_outputs_regmap (h : Hdr) (env : Env) (cur : Nat) (s : Run) :
    (restore_outputs h env cur s).regmap h.MADERA_OUTPUT_ENABLES_1 =
      restore_val h env cur (s.regmap h.MADERA_OUTPUT_ENABLES_1) := by
  unfold restore_outputs restore_val
  simp only [regmap_update_bits_fst]
  split_ifs <;> simp_all [regmap_update_bits_regmap]

theorem restore_outputs_trace (h : Hdr) (env : Env) (cur : Nat) (s : Run) :
    (restore_outputs h env cur s).trace =
      s.trace ++ restore_obs h env cur (s.regmap h.MADERA_OUTPUT_ENABLES_1) := by
  unfold restore_outputs restore_obs restore_val
  simp only [regmap_update_bits_fst]
  split_ifs <;> simp_all [regmap_update_bits_trace, regmap_update_bits_regmap]

theorem demux_switch_regmap (h : Hdr) (m : madera) (env : Env) (mux ep_sel : Nat) (s : Run)
    (hs : s.regmap = m.regmap) :
    (demux_switch h m env mux ep_sel s).regmap h.MADERA_OUTPUT_ENABLES_1 =
      switch_val h m env ep_sel (m.regmap h.MADERA_OUTPUT_ENABLES_1) := by
  unfold demux_switch switch_val
  simp only [restore_outputs_regmap, write_ep_sel_regmap, emit_regmap, disable_outputs_regmap,
    read_cur_regmap, read_cur_fst h m env s hs, hs]

theorem demux_switch_trace (h : Hdr) (m : madera) (env : Env) (mux ep_sel : Nat) (s : Run)
    (hs : s.regmap = m.regmap) :
    (demux_switch h m env mux ep_sel s).trace =
      s.trace ++ switch_obs h m env mux ep_sel (m.regmap h.MADERA_OUTPUT_ENABLES_1) := by
  unfold demux_switch switch_obs
  simp only [restore_outputs_trace, write_ep_sel_regmap, write_ep_sel_trace, emit_regmap,
    emit_trace, disable_outputs_regmap, disable_outputs_trace, read_cur_regmap, read_cur_trace,
    read_cur_fst h m env s hs, hs, List.append_assoc]

theorem cs47l92_put_demux_invalid (h : Hdr) (e : soc_enum) (m : madera) (env : Env) (item : Nat)
    (hinv : item > u32_sub e.items 1) :
    cs47l92_put_demux h e m env item = (-h.EINVAL, ⟨m.regmap, []⟩) := by
  unfold cs47l92_put_demux
  rw [if_pos hinv]

theorem cs47l92_put_demux_ret (h : Hdr) (e : soc_enum) (m : madera) (env : Env) (item : Nat)
    (hvalid : item ≤ u32_sub e.items 1) :
    (cs47l92_put_demux h e m env item).1 = env.power item := by
  unfold cs47l92_put_demux
  rw [if_neg (Nat.not_lt.mpr hvalid)]

theorem cs47l92_put_demux_regmap (h : Hdr) (e : soc_enum) (m : madera) (env : Env) (item : Nat)
    (hvalid : item ≤ u32_sub e.items 1) :
    (cs47l92_put_demux h e m env item).2.regmap h.MADERA_OUTPUT_ENABLES_1 =
      demux_val h e m env item := by
  unfold cs47l92_put_demux demux_val demux_change
  rw [if_neg (Nat.not_lt.mpr hvalid)]
  simp only [emit_regmap]
  rw [snd_soc_test_bits_fst h env.test_ret (emit h ⟨m.regmap, []⟩ .dapm_mutex_lock)
    ⟨m.regmap, []⟩ _ _ _ rfl]
  split_ifs with hc
  · rw [snd_soc_test_bits_regmap]; rfl
  · rw [demux_switch_regmap]
    rw [snd_soc_test_bits_regmap]; rfl

theorem cs47l92_put_demux_trace (h : Hdr) (e : soc_enum) (m : madera) (env : Env) (item : Nat)
    (hvalid : item ≤ u32_sub e.items 1) :
    (cs47l92_put_demux h e m env item).2.trace = demux_obs h e m env item := by
  have hr := cs47l92_put_demux_regmap h e m env item hvalid
  unfold cs47l92_put_demux at hr ⊢
  unfold demux_obs
  rw [if_neg (Nat.not_lt.mpr hvalid)] at hr ⊢
  simp only [emit_regmap, emit_trace] at hr ⊢
  rw [hr]
  unfold demux_change
  rw [snd_soc_test_bits_fst h env.test_ret (emit h ⟨m.regmap, []⟩ .dapm_mutex_lock)
    ⟨m.regmap, []⟩ _ _ _ rfl]
  split_ifs with hc
  · simp [snd_soc_test_bits_trace]
  · rw [demux_switch_trace _ _ _ _ _ _ (by rw [snd_soc_test_bits_regmap]; rfl)]
    simp [snd_soc_test_bits_trace]

theorem demux_calls_valid (h : Hdr) (e : soc_enum) (m : madera) (env : Env) (item : Nat)
    (hvalid : item ≤ u32_sub e.items 1) :
    demux_calls h e m env item = (demux_obs h e m env item).map Obs.ev := by
  unfold demux_calls
  rw [cs47l92_put_demux_trace h e m env item hvalid]

theorem key_calls_append (h : Hdr) (a b : List Obs) :
    key_calls h (a ++ b) = key_calls h a ++ key_calls h b := by
  simp [key_calls]

theorem key_calls_read (h : Hdr) (m : madera) (env : Env) (v : Nat) :
    key_calls h (read_cur_obs h m env v) = [] := by
  unfold read_cur_obs key_calls
  split_ifs <;> simp [is_enables_write, is_sleep]

theorem key_calls_disable (h : Hdr) (env : Env) (v : Nat) :
    key_calls h (disable_obs h env v) =
      [.regmap_update_bits h.MADERA_OUTPUT_ENABLES_1 (out3_ena h) 0] := by
  unfold disable_obs key_calls out3_ena
  split_ifs <;> simp [is_enables_write, is_sleep]

theorem key_calls_sel (h : Hdr) (m : madera) (env : Env) (mux ep_sel v : Nat) :
    key_calls h (sel_obs h m env mux ep_sel v) =
      [.regmap_update_bits h.MADERA_OUTPUT_ENABLES_1 h.MADERA_EP_SEL ep_sel] := by
  unfold sel_obs key_calls
  split_ifs <;> simp [is_enables_write, is_sleep]

theorem key_calls_restore (h : Hdr) (env : Env) (cur v : Nat) :
    ∃ tail, key_calls h (restore_obs h env cur v) =
        .regmap_update_bits h.MADERA_OUTPUT_ENABLES_1 (out3_ena h) cur :: tail ∧
      ∀ ev ∈ tail, is_enables_write h ev = false := by
  unfold restore_obs key_calls out3_ena
  split_ifs
  · exact ⟨[.msleep 34], by simp [is_enables_write, is_sleep]⟩
  · exact ⟨[.usleep_range 2000 3000], by simp [is_enables_write, is_sleep]⟩
  · exact ⟨[], by simp [is_enables_write, is_sleep]⟩

theorem accdet_loop_iff (output : Nat → Nat) (max fuel i : Nat) :
    accdet_loop output max fuel i = true ↔ ∃ j, i ≤ j ∧ j < i + fuel ∧ j < max ∧ output j = 3 := by
  induction fuel generalizing i with
  | zero => simp [accdet_loop]; intro j hj; omega
  | succ n ih =>
    unfold accdet_loop
    by_cases him : i < max
    · by_cases ho : output i = 3
      · simp only [him, ho, if_true]
        simp only [true_iff]
        exact ⟨i, le_refl i, by omega, him, ho⟩
      · simp only [him, ho, if_true, if_false, ih]
        constructor
        · rintro ⟨j, h1, h2, h3, h4⟩
          exact ⟨j, by omega, by omega, h3, h4⟩
        · rintro ⟨j, h1, h2, h3, h4⟩
          have hne : j ≠ i := fun hji => ho (hji ▸ h4)
          exact ⟨j, by omega, by omega, h3, h4⟩
    · simp only [him, if_false]
      constructor
      · intro hf; cases hf
      · rintro ⟨j, h1, h2, h3, h4⟩
        omega

theorem accdet_out_iff (h : Hdr) (m : madera) :
    accdet_out h m = true ↔ ∃ i, i < h.MADERA_MAX_ACCESSORY ∧ m.accdet_output i = 3 := by
  unfold accdet_out
  rw [accdet_loop_iff]
  constructor
  · rintro ⟨j, _, _, h3, h4⟩; exact ⟨j, h3, h4⟩
  · rintro ⟨j, h3, h4⟩; exact ⟨j, Nat.zero_le j, by omega, h3, h4⟩

theorem key_calls_switch (h : Hdr) (e : soc_enum) (m : madera) (env : Env) (item : Nat)
    (hvalid : item ≤ u32_sub e.items 1) (hchg : demux_change h e m env item ≠ 0) :
    ∃ tail, (demux_calls h e m env item).filter
        (fun ev => is_enables_write h ev || is_sleep ev) =
      [ .regmap_update_bits h.MADERA_OUTPUT_ENABLES_1 (out3_ena h) 0,
        .usleep_range 2000 3000,
        .regmap_update_bits h.MADERA_OUTPUT_ENABLES_1 h.MADERA_EP_SEL (u32 (item <<< e.shift_l)),
        .regmap_update_bits h.MADERA_OUTPUT_ENABLES_1 (out3_ena h) (demux_cur h m env) ] ++ tail ∧
      ∀ ev ∈ tail, is_enables_write h ev = false := by
  obtain ⟨tail, ht, htail⟩ := key_calls_restore h env (demux_cur h m env)
    (sel_val h env (u32 (item <<< e.shift_l))
      (disable_val h env (m.regmap h.MADERA_OUTPUT_ENABLES_1)))
  refine ⟨tail, ?_, htail⟩
  rw [demux_calls_valid h e m env item hvalid]
  change key_calls h (demux_obs h e m env item) = _
  unfold demux_obs
  rw [if_neg hchg]
  unfold switch_obs
  simp only [key_calls_append, key_calls_read, key_calls_disable, key_calls_sel, ht]
  simp [key_calls, is_enables_write, is_sleep]

/-- C1.  For a valid item that changes the selection, the writes to
MADERA_OUTPUT_ENABLES_1 and the delays of `cs47l92_put_demux` start with:
OUT3L_ENA and OUT3R_ENA cleared, `usleep_range(2000, 3000)`, EP_SEL written
with the requested selection, OUT3L_ENA/OUT3R_ENA written with the local `cur`;
whatever follows is no further write to that register.  `cur` is
`madera->hp_ena` when an accessory-detect entry has `output == 3` and the
register content from before the call when none has and the read succeeds.
But when the read fails nothing was saved and `cur` is indeterminate: on a
device with both outputs off and an indeterminate value of 0xffffffff the
fourth access writes that value and both outputs end up enabled. -/
theorem put_demux_access_order :
    (∀ (h : Hdr) (e : soc_enum) (m : madera) (env : Env) (item : Nat),
      item ≤ u32_sub e.items 1 → demux_change h e m env item ≠ 0 →
      ∃ cur tail,
        (demux_calls h e m env item).filter
            (fun ev => is_enables_write h ev || is_sleep ev) =
          [ .regmap_update_bits h.MADERA_OUTPUT_ENABLES_1 (out3_ena h) 0,
            .usleep_range 2000 3000,
            .regmap_update_bits h.MADERA_OUTPUT_ENABLES_1 h.MADERA_EP_SEL
              (u32 (item <<< e.shift_l)),
            .regmap_update_bits h.MADERA_OUTPUT_ENABLES_1 (out3_ena h) cur ] ++ tail ∧
        (∀ ev ∈ tail, is_enables_write h ev = false) ∧
        ((∃ i, i < h.MADERA_MAX_ACCESSORY ∧ m.accdet_output i = 3) → cur = m.hp_ena) ∧
        ((∀ i, i < h.MADERA_MAX_ACCESSORY → m.accdet_output i ≠ 3) → env.read_ret = 0 →
          cur = m.regmap h.MADERA_OUTPUT_ENABLES_1) ∧
        ((∀ i, i < h.MADERA_MAX_ACCESSORY → m.accdet_output i ≠ 3) → env.read_ret ≠ 0 →
          cur = env.cur_uninit)) ∧
    (1 ≤ u32_sub (cs47l92_outdemux_enum mainline).items 1 ∧
      demux_change mainline (cs47l92_outdemux_enum mainline) dev_off env_read_fails_set 1 ≠ 0 ∧
      (∀ i, i < mainline.MADERA_MAX_ACCESSORY → dev_off.accdet_output i ≠ 3) ∧
      env_read_fails_set.read_ret ≠ 0 ∧
      (demux_calls mainline (cs47l92_outdemux_enum mainline) dev_off env_read_fails_set 1).filter
          (fun ev => is_enables_write mainline ev || is_sleep ev) =
        [ .regmap_update_bits 0x400 0x30 0,
          .usleep_range 2000 3000,
          .regmap_update_bits 0x400 0x8000 0x8000,
          .regmap_update_bits 0x400 0x30 0xffffffff,
          .msleep 34 ] ∧
      dev_off.regmap mainline.MADERA_OUTPUT_ENABLES_1 &&& out3_ena mainline = 0 ∧
      demux_after mainline (cs47l92_outdemux_enum mainline) dev_off env_read_fails_set 1
        &&& out3_ena mainline = 0x30) := by
  refine ⟨?_, by decide⟩
  intro h e m env item hvalid hchg
  obtain ⟨tail, hkey, htail⟩ := key_calls_switch h e m env item hvalid hchg
  refine ⟨demux_cur h m env, tail, hkey, htail, ?_, ?_, ?_⟩
  · intro hsome
    rw [demux_cur_eq, if_pos ((accdet_out_iff h m).mpr hsome)]
  · intro hno hread
    have hacc : ¬ accdet_out h m = true := by
      rw [accdet_out_iff]
      rintro ⟨i, hi, h3⟩
      exact hno i hi h3
    rw [demux_cur_eq, if_neg hacc, if_pos hread]
  · intro hno hread
    have hacc : ¬ accdet_out h m = true := by
      rw [accdet_out_iff]
      rintro ⟨i, hi, h3⟩
      exact hno i hi h3
    rw [demux_cur_eq, if_neg hacc, if_neg hread]

theorem updated_testBit (v mask val k : Nat) :
    (updated v mask val).testBit k =
      if mask.testBit k then val.testBit k else (v.testBit k && decide (k < 32)) := by
  unfold updated u32_not u32
  simp only [Nat.testBit_or, Nat.testBit_and, Nat.testBit_xor, Nat.testBit_two_pow_sub_one,
    Nat.testBit_mod_two_pow]
  by_cases hk : k < 32 <;> cases hm : mask.testBit k <;> simp [hk]

theorem updated_and_mask (v mask val : Nat) : updated v mask val &&& mask = val &&& mask := by
  apply Nat.eq_of_testBit_eq
  intro k
  simp only [Nat.testBit_and, updated_testBit]
  cases hm : mask.testBit k <;> simp

theorem testBit_lt_of_lt {b k : Nat} (hb : b < 2 ^ 32) (hk : b.testBit k = true) : k < 32 := by
  by_contra hge
  have hle : 2 ^ 32 ≤ 2 ^ k := Nat.pow_le_pow_right (by decide) (Nat.le_of_not_lt hge)
  have := Nat.testBit_lt_two_pow (lt_of_lt_of_le hb hle)
  simp [this] at hk

theorem and_eq_zero_testBit {a b k : Nat} (hab : a &&& b = 0) (hb : b.testBit k = true) :
    a.testBit k = false := by
  have := congrArg (fun n => n.testBit k) hab
  simp only [Nat.testBit_and, Nat.zero_testBit, hb, Bool.and_true] at this
  exact this

theorem updated_and_disjoint (v a val b : Nat) (hab : a &&& b = 0) (hb : b < 2 ^ 32) :
    updated v a val &&& b = v &&& b := by
  apply Nat.eq_of_testBit_eq
  intro k
  simp only [Nat.testBit_and, updated_testBit]
  cases hbk : b.testBit k
  · simp
  · have hk := testBit_lt_of_lt hb hbk
    simp [and_eq_zero_testBit hab hbk, hk]

/-- C2 as stated fails in two ways.  With accessory detection on output 3
the outputs are restored from the cached `hp_ena` (here 0), not from the
register (here both bits set); and when the read of the current enables
fails, the uninitialised `cur` (here 0) is written back. -/
theorem put_demux_restore_counterexample :
    (1 ≤ u32_sub (cs47l92_outdemux_enum mainline).items 1 ∧
      demux_change mainline (cs47l92_outdemux_enum mainline) dev_accdet env_ok 1 ≠ 0 ∧
      (env_ok.disable_ret = 0 ∧ env_ok.sel_ret = 0 ∧ env_ok.restore_ret = 0) ∧
      demux_after mainline (cs47l92_outdemux_enum mainline) dev_accdet env_ok 1
          &&& out3_ena mainline ≠
        dev_accdet.regmap mainline.MADERA_OUTPUT_ENABLES_1 &&& out3_ena mainline) ∧
    (demux_change mainline (cs47l92_outdemux_enum mainline) dev_plain env_read_fails 1 ≠ 0 ∧
      (env_read_fails.disable_ret = 0 ∧ env_read_fails.sel_ret = 0 ∧
        env_read_fails.restore_ret = 0) ∧
      demux_after mainline (cs47l92_outdemux_enum mainline) dev_plain env_read_fails 1
          &&& out3_ena mainline ≠
        dev_plain.regmap mainline.MADERA_OUTPUT_ENABLES_1 &&& out3_ena mainline) := by
  decide

/-- C2, amended.  For a valid item that changes the selection and whose
restore write succeeds: if no accessory-detect entry has `output == 3` and the
read of the current enables succeeded, OUT3L_ENA and OUT3R_ENA are afterwards
what they were in the register before the call; if some accessory-detect
entry has `output == 3` they are the corresponding bits of `madera->hp_ena`. -/
theorem put_demux_restores_outputs (h : Hdr) (e : soc_enum) (m : madera) (env : Env)
    (item : Nat) (hvalid : item ≤ u32_sub e.items 1)
    (hchg : demux_change h e m env item ≠ 0) (hres : env.restore_ret = 0) :
    ((∀ i, i < h.MADERA_MAX_ACCESSORY → m.accdet_output i ≠ 3) → env.read_ret = 0 →
      demux_after h e m env item &&& out3_ena h =
        m.regmap h.MADERA_OUTPUT_ENABLES_1 &&& out3_ena h) ∧
    ((∃ i, i < h.MADERA_MAX_ACCESSORY ∧ m.accdet_output i = 3) →
      demux_after h e m env item &&& out3_ena h = m.hp_ena &&& out3_ena h) := by
  have hafter : demux_after h e m env item &&& out3_ena h = demux_cur h m env &&& out3_ena h := by
    unfold demux_after
    rw [cs47l92_put_demux_regmap h e m env item hvalid]
    unfold demux_val
    rw [if_neg hchg]
    unfold switch_val restore_val
    rw [if_pos hres]
    exact updated_and_mask _ _ _
  rw [hafter, demux_cur_eq]
  constructor
  · intro hno hread
    have hacc : ¬ accdet_out h m = true := by
      rw [accdet_out_iff]
      rintro ⟨i, hi, h3⟩
      exact hno i hi h3
    rw [if_neg hacc, if_pos hread]
  · intro hsome
    rw [if_pos ((accdet_out_iff h m).mpr hsome)]

theorem put_demux_restores_outputs_witness :
    ((1 ≤ u32_sub (cs47l92_outdemux_enum mainline).items 1 ∧
        demux_change mainline (cs47l92_outdemux_enum mainline) dev_plain env_ok 1 ≠ 0 ∧
        env_ok.restore_ret = 0 ∧
        (∀ i, i < mainline.MADERA_MAX_ACCESSORY → dev_plain.accdet_output i ≠ 3) ∧
        env_ok.read_ret = 0) ∧
      demux_after mainline (cs47l92_outdemux_enum mainline) dev_plain env_ok 1
          &&& out3_ena mainline =
        dev_plain.regmap mainline.MADERA_OUTPUT_ENABLES_1 &&& out3_ena mainline) ∧
    ((demux_change mainline (cs47l92_outdemux_enum mainline) dev_accdet env_ok 1 ≠ 0 ∧
        ∃ i, i < mainline.MADERA_MAX_ACCESSORY ∧ dev_accdet.accdet_output i = 3) ∧
      demux_after mainline (cs47l92_outdemux_enum mainline) dev_accdet env_ok 1
          &&& out3_ena mainline = dev_accdet.hp_ena &&& out3_ena mainline) :=
  ⟨⟨⟨by decide, by decide, by decide, by decide, by decide⟩,
    (put_demux_restores_outputs mainline (cs47l92_outdemux_enum mainline) dev_plain env_ok 1
      (by decide) (by decide) (by decide)).1 (by decide) (by decide)⟩,
   ⟨⟨by decide, 0, by decide, by decide⟩,
    (put_demux_restores_outputs mainline (cs47l92_outdemux_enum mainline) dev_accdet env_ok 1
      (by decide) (by decide) (by decide)).2 ⟨0, by decide, by decide⟩⟩⟩

theorem ena_ne_ep_sel (h : Hdr) (hwf : h.WF) : out3_ena h ≠ h.MADERA_EP_SEL := by
  intro heq
  have hd := hwf.disjoint
  have he := hwf.ep_sel_eq
  unfold out3_ena at heq
  rw [heq, Nat.and_self, he, Nat.one_shiftLeft] at hd
  exact absurd hd (by positivity)

theorem guard_read (h : Hdr) (m : madera) (env : Env) (v : Nat) :
    ∀ o ∈ read_cur_obs h m env v, modifies_ep_sel_or_mono h o.ev = false := by
  unfold read_cur_obs
  split_ifs <;> simp [modifies_ep_sel_or_mono]

theorem guard_disable (h : Hdr) (hwf : h.WF) (env : Env) (v : Nat) :
    ∀ o ∈ disable_obs h env v, modifies_ep_sel_or_mono h o.ev = false := by
  have hne := ena_ne_ep_sel h hwf
  unfold out3_ena at hne
  unfold disable_obs
  split_ifs <;> simp [modifies_ep_sel_or_mono, hne]

theorem guard_sel (h : Hdr) (hwf : h.WF) (m : madera) (env : Env) (mux ep_sel v : Nat)
    (hv : v &&& out3_ena h = 0) :
    ∀ o ∈ sel_obs h m env mux ep_sel v, o.enables &&& out3_ena h = 0 := by
  unfold out3_ena at hv ⊢
  have hs : sel_val h env ep_sel v &&& (h.MADERA_OUT3L_ENA ||| h.MADERA_OUT3R_ENA) = 0 := by
    unfold sel_val
    split_ifs
    · rw [updated_and_disjoint _ _ _ _ hwf.disjoint hwf.ena_lt]; exact hv
    · exact hv
  unfold sel_obs
  split_ifs <;> simp [hv, hs]

theorem guard_restore (h : Hdr) (hwf : h.WF) (env : Env) (cur v : Nat) :
    ∀ o ∈ restore_obs h env cur v, modifies_ep_sel_or_mono h o.ev = false := by
  have hne := ena_ne_ep_sel h hwf
  unfold out3_ena at hne
  unfold restore_obs
  split_ifs <;> simp [modifies_ep_sel_or_mono, hne]

theorem guard_when_disabled (h : Hdr) (hwf : h.WF) (e : soc_enum) (m : madera) (env : Env)
    (item : Nat) (hdis : env.disable_ret = 0) :
    ∀ o ∈ (cs47l92_put_demux h e m env item).2.trace,
      modifies_ep_sel_or_mono h o.ev = true → o.enables &&& out3_ena h = 0 := by
  by_cases hvalid : item ≤ u32_sub e.items 1
  · rw [cs47l92_put_demux_trace h e m env item hvalid]
    have hv1 : disable_val h env (m.regmap h.MADERA_OUTPUT_ENABLES_1) &&& out3_ena h = 0 := by
      unfold disable_val
      rw [if_pos hdis]
      unfold out3_ena
      rw [updated_and_mask]
      simp
    intro o ho hmod
    unfold demux_obs at ho
    simp only [List.mem_append, List.mem_cons, List.mem_singleton, List.not_mem_nil,
      or_false] at ho
    rcases ho with ((rfl | rfl) | hsw) | rfl | rfl
    · simp [modifies_ep_sel_or_mono] at hmod
    · simp [modifies_ep_sel_or_mono] at hmod
    · split_ifs at hsw with hc
      · simp at hsw
      · unfold switch_obs at hsw
        simp only [List.mem_append, List.mem_singleton] at hsw
        rcases hsw with (((hr | hd) | rfl) | hsel) | hre
        · rw [guard_read h m env _ o hr] at hmod; cases hmod
        · rw [guard_disable h hwf env _ o hd] at hmod; cases hmod
        · simp [modifies_ep_sel_or_mono] at hmod
        · exact guard_sel h hwf m env _ _ _ hv1 o hsel
        · rw [guard_restore h hwf env _ _ o hre] at hmod; cases hmod
    · simp [modifies_ep_sel_or_mono] at hmod
    · simp [modifies_ep_sel_or_mono] at hmod
  · rw [cs47l92_put_demux_invalid h e m env item (Nat.lt_of_not_le hvalid)]
    simp

theorem mainline_wf : mainline.WF :=
  ⟨by decide, by decide, by decide, by decide⟩

/-- C3.  In every execution of `cs47l92_put_demux` in which the write that
clears OUT3L_ENA and OUT3R_ENA succeeds, both bits are 0 in
MADERA_OUTPUT_ENABLES_1 at the moment EP_SEL is written and at the moment
`madera_set_output_mode` is called.  But when that write fails the handler only
warns and goes on: on a device with both outputs enabled, EP_SEL is written
and `madera_set_output_mode` is called while OUT3L_ENA and OUT3R_ENA are still
set in the register. -/
theorem put_demux_guard :
    (∀ (h : Hdr), h.WF → ∀ (e : soc_enum) (m : madera) (env : Env) (item : Nat),
      env.disable_ret = 0 →
      ∀ o ∈ (cs47l92_put_demux h e m env item).2.trace,
        modifies_ep_sel_or_mono h o.ev = true → o.enables &&& out3_ena h = 0) ∧
    (env_disable_fails.disable_ret ≠ 0 ∧
      (⟨.regmap_update_bits 0x400 0x8000 0x8000, 0x30⟩ : Obs) ∈
        (cs47l92_put_demux mainline (cs47l92_outdemux_enum mainline) dev_plain
          env_disable_fails 1).2.trace ∧
      (⟨.set_output_mode 3 false, 0x8030⟩ : Obs) ∈
        (cs47l92_put_demux mainline (cs47l92_outdemux_enum mainline) dev_plain
          env_disable_fails 1).2.trace ∧
      modifies_ep_sel_or_mono mainline (.regmap_update_bits 0x400 0x8000 0x8000) = true ∧
      modifies_ep_sel_or_mono mainline (.set_output_mode 3 false) = true ∧
      0x30 &&& out3_ena mainline = 0x30 ∧ 0x8030 &&& out3_ena mainline = 0x30) :=
  ⟨fun h hwf e m env item hdis => guard_when_disabled h hwf e m env item hdis, by decide⟩

theorem outdemux_enum_sub (h : Hdr) : u32_sub (cs47l92_outdemux_enum h).items 1 = 1 := by
  show u32_sub 2 1 = 1
  decide

theorem outdemux_enum_mask (h : Hdr) (hwf : h.WF) :
    u32 ((cs47l92_outdemux_enum h).mask <<< (cs47l92_outdemux_enum h).shift_l) =
      h.MADERA_EP_SEL := by
  have hm : (cs47l92_outdemux_enum h).mask = 1 := by
    show roundup_pow_of_two 2 - 1 = 1
    decide
  have hs : (cs47l92_outdemux_enum h).shift_l = h.MADERA_EP_SEL_SHIFT := rfl
  rw [hm, hs, hwf.ep_sel_eq, Nat.one_shiftLeft]
  unfold u32
  exact Nat.mod_eq_of_lt (Nat.pow_lt_pow_right (by decide) hwf.shift_lt)

theorem ep_sel_lt (h : Hdr) (hwf : h.WF) : h.MADERA_EP_SEL < 2 ^ 32 := by
  rw [hwf.ep_sel_eq, Nat.one_shiftLeft]
  exact Nat.pow_lt_pow_right (by decide) hwf.shift_lt

theorem outdemux_ep_sel (h : Hdr) (hwf : h.WF) (item : Nat) (hitem : item ≤ 1) :
    u32 (item <<< (cs47l92_outdemux_enum h).shift_l) = item <<< h.MADERA_EP_SEL_SHIFT ∧
    (item <<< h.MADERA_EP_SEL_SHIFT) &&& h.MADERA_EP_SEL = item <<< h.MADERA_EP_SEL_SHIFT := by
  have hs : (cs47l92_outdemux_enum h).shift_l = h.MADERA_EP_SEL_SHIFT := rfl
  have hlt := ep_sel_lt h hwf
  rw [hs]
  rcases Nat.le_one_iff_eq_zero_or_eq_one.mp hitem with rfl | rfl
  · simp [u32]
  · rw [← hwf.ep_sel_eq]
    exact ⟨Nat.mod_eq_of_lt hlt, Nat.and_self _⟩

theorem test_bits_nochange (h : Hdr) (ret : Int) (s : Run) (reg mask value : Nat)
    (hret : 0 ≤ ret) (hc : int_to_u32 (snd_soc_test_bits h ret s reg mask value).1 = 0) :
    s.regmap reg = (s.regmap reg &&& u32_not mask) ||| value := by
  unfold snd_soc_test_bits at hc
  rw [if_neg (not_lt.mpr hret)] at hc
  by_contra hne
  simp only [ne_eq, hne, not_false_eq_true, if_true] at hc
  revert hc
  decide

theorem testBit_and_lt (v k : Nat) (hv : v < 2 ^ 32) :
    (v.testBit k && decide (k < 32)) = v.testBit k := by
  cases hb : v.testBit k
  · simp
  · simp [testBit_lt_of_lt hv hb]

theorem switch_val_testBit (h : Hdr) (m : madera) (env : Env) (ep_sel v k : Nat)
    (hv : v < 2 ^ 32) (hk : (h.MADERA_EP_SEL ||| out3_ena h).testBit k = false) :
    (switch_val h m env ep_sel v).testBit k = v.testBit k := by
  simp only [Nat.testBit_or, Bool.or_eq_false_iff] at hk
  unfold out3_ena at hk
  simp only [Nat.testBit_or, Bool.or_eq_false_iff] at hk
  obtain ⟨hk1, hk2, hk3⟩ := hk
  have hb := testBit_and_lt v k hv
  unfold switch_val restore_val sel_val disable_val
  split_ifs <;>
    simp [updated_testBit, Nat.testBit_or, hk1, hk2, hk3, hb, Bool.and_assoc]

/-- C4.  For the OUT3 Demux enum and an item index of 0 or 1, when the register
read of `snd_soc_test_bits` and the EP_SEL write succeed, the EP_SEL field of
MADERA_OUTPUT_ENABLES_1 afterwards is the index shifted to MADERA_EP_SEL_SHIFT,
and every bit outside EP_SEL, OUT3L_ENA and OUT3R_ENA has the value it had
before the call. -/
theorem put_demux_sets_ep_sel (h : Hdr) (hwf : h.WF) (m : madera) (env : Env) (item : Nat)
    (hitem : item ≤ 1) (htest : 0 ≤ env.test_ret) (hsel : env.sel_ret = 0)
    (hreg : m.regmap h.MADERA_OUTPUT_ENABLES_1 < 2 ^ 32) :
    demux_after h (cs47l92_outdemux_enum h) m env item &&& h.MADERA_EP_SEL =
      item <<< h.MADERA_EP_SEL_SHIFT ∧
    ∀ k, (h.MADERA_EP_SEL ||| out3_ena h).testBit k = false →
      (demux_after h (cs47l92_outdemux_enum h) m env item).testBit k =
        (m.regmap h.MADERA_OUTPUT_ENABLES_1).testBit k := by
  have hvalid : item ≤ u32_sub (cs47l92_outdemux_enum h).items 1 := by
    rw [outdemux_enum_sub]; exact hitem
  obtain ⟨hep1, hep2⟩ := outdemux_ep_sel h hwf item hitem
  have hdisj : out3_ena h &&& h.MADERA_EP_SEL = 0 := by
    rw [Nat.land_comm]; exact hwf.disjoint
  unfold demux_after
  rw [cs47l92_put_demux_regmap h _ m env item hvalid]
  unfold demux_val
  split_ifs with hc
  · refine ⟨?_, fun k _ => rfl⟩
    unfold demux_change at hc
    have hno := test_bits_nochange h env.test_ret _ _ _ _ htest hc
    rw [outdemux_enum_mask h hwf, hep1] at hno
    have hreg2 : (cs47l92_outdemux_enum h).reg = h.MADERA_OUTPUT_ENABLES_1 := rfl
    rw [hreg2] at hno
    simp only at hno
    have hup : updated (m.regmap h.MADERA_OUTPUT_ENABLES_1) h.MADERA_EP_SEL
        (item <<< h.MADERA_EP_SEL_SHIFT) = m.regmap h.MADERA_OUTPUT_ENABLES_1 := by
      unfold updated
      rw [hep2]
      exact hno.symm
    rw [← hup, updated_and_mask, hep2]
  · refine ⟨?_, fun k hk => switch_val_testBit h m env _ _ k hreg hk⟩
    unfold switch_val restore_val sel_val
    rw [if_pos hsel, hep1]
    split_ifs
    · unfold out3_ena at hdisj
      rw [updated_and_disjoint _ _ _ _ hdisj (ep_sel_lt h hwf), updated_and_mask, hep2]
    · rw [updated_and_mask, hep2]

theorem put_demux_sets_ep_sel_witness :
    (mainline.WF ∧ 1 ≤ 1 ∧ 0 ≤ env_ok.test_ret ∧ env_ok.sel_ret = 0 ∧
      dev_plain.regmap mainline.MADERA_OUTPUT_ENABLES_1 < 2 ^ 32) ∧
    (demux_after mainline (cs47l92_outdemux_enum mainline) dev_plain env_ok 1
        &&& mainline.MADERA_EP_SEL = 1 <<< mainline.MADERA_EP_SEL_SHIFT ∧
      ∀ k, (mainline.MADERA_EP_SEL ||| out3_ena mainline).testBit k = false →
        (demux_after mainline (cs47l92_outdemux_enum mainline) dev_plain env_ok 1).testBit k =
          (dev_plain.regmap mainline.MADERA_OUTPUT_ENABLES_1).testBit k) :=
  ⟨⟨mainline_wf, by decide, by decide, by decide, by decide⟩,
   put_demux_sets_ep_sel mainline mainline_wf dev_plain env_ok 1
     (by decide) (by decide) (by decide) (by decide)⟩

/-- C5.  `cs47l92_put_demux` returns -EINVAL exactly when the item index is
greater than `items - 1`, which for the two-entry OUT3 Demux enum means an
index other than 0 and 1; in that case nothing is called (no lock, register
access, delay or `snd_soc_dapm_mux_update_power`) and the registers are as
before.  `snd_soc_dapm_mux_update_power`, whose result is returned for a valid
index, is taken not to return -EINVAL itself (it reports 0 or 1). -/
theorem put_demux_einval (h : Hdr) (e : soc_enum) (m : madera) (env : Env) (item : Nat)
    (hpow : ∀ k, env.power k ≠ -h.EINVAL) :
    ((cs47l92_put_demux h e m env item).1 = -h.EINVAL ↔ item > u32_sub e.items 1) ∧
    ((cs47l92_put_demux h (cs47l92_outdemux_enum h) m env item).1 = -h.EINVAL ↔
      item ≠ 0 ∧ item ≠ 1) ∧
    (item > u32_sub e.items 1 →
      (cs47l92_put_demux h e m env item).2.trace = [] ∧
      (cs47l92_put_demux h e m env item).2.regmap = m.regmap) := by
  have key : ∀ e2 : soc_enum,
      (cs47l92_put_demux h e2 m env item).1 = -h.EINVAL ↔ item > u32_sub e2.items 1 := by
    intro e2
    by_cases hinv : item > u32_sub e2.items 1
    · simp [cs47l92_put_demux_invalid h e2 m env item hinv, hinv]
    · rw [cs47l92_put_demux_ret h e2 m env item (Nat.le_of_not_lt hinv)]
      simp [hinv, hpow item]
  refine ⟨key e, ?_, ?_⟩
  · rw [key, outdemux_enum_sub]
    omega
  · intro hinv
    rw [cs47l92_put_demux_invalid h e m env item hinv]
    exact ⟨rfl, rfl⟩

theorem put_demux_einval_witness :
    (∀ k, env_ok.power k ≠ -mainline.EINVAL) ∧
    (((cs47l92_put_demux mainline (cs47l92_outdemux_enum mainline) dev_plain env_ok 2).1 =
        -mainline.EINVAL ↔ 2 > u32_sub (cs47l92_outdemux_enum mainline).items 1) ∧
     ((cs47l92_put_demux mainline (cs47l92_outdemux_enum mainline) dev_plain env_ok 2).1 =
        -mainline.EINVAL ↔ 2 ≠ 0 ∧ 2 ≠ 1) ∧
     (2 > u32_sub (cs47l92_outdemux_enum mainline).items 1 →
      (cs47l92_put_demux mainline (cs47l92_outdemux_enum mainline) dev_plain env_ok 2).2.trace
        = [] ∧
      (cs47l92_put_demux mainline (cs47l92_outdemux_enum mainline) dev_plain env_ok 2).2.regmap
        = dev_plain.regmap)) :=
  ⟨fun _ => by show (1 : Int) ≠ -22; decide,
   put_demux_einval mainline (cs47l92_outdemux_enum mainline) dev_plain env_ok 2
     (fun _ => by show (1 : Int) ≠ -22; decide)⟩

theorem lock_free_read (h : Hdr) (m : madera) (env : Env) (v : Nat) :
    ∀ o ∈ read_cur_obs h m env v, is_lock_or_power o.ev = false := by
  unfold read_cur_obs
  split_ifs <;> simp [is_lock_or_power]

theorem lock_free_disable (h : Hdr) (env : Env) (v : Nat) :
    ∀ o ∈ disable_obs h env v, is_lock_or_power o.ev = false := by
  unfold disable_obs
  split_ifs <;> simp [is_lock_or_power]

theorem lock_free_sel (h : Hdr) (m : madera) (env : Env) (mux ep_sel v : Nat) :
    ∀ o ∈ sel_obs h m env mux ep_sel v, is_lock_or_power o.ev = false := by
  unfold sel_obs
  split_ifs <;> simp [is_lock_or_power]

theorem lock_free_restore (h : Hdr) (env : Env) (cur v : Nat) :
    ∀ o ∈ restore_obs h env cur v, is_lock_or_power o.ev = false := by
  unfold restore_obs
  split_ifs <;> simp [is_lock_or_power]

theorem lock_free_switch (h : Hdr) (m : madera) (env : Env) (mux ep_sel v : Nat) :
    ∀ o ∈ switch_obs h m env mux ep_sel v, is_lock_or_power o.ev = false := by
  intro o ho
  unfold switch_obs at ho
  simp only [List.mem_append, List.mem_singleton] at ho
  rcases ho with (((hr | hd) | rfl) | hsel) | hre
  · exact lock_free_read h m env _ o hr
  · exact lock_free_disable h env _ o hd
  · rfl
  · exact lock_free_sel h m env _ _ _ o hsel
  · exact lock_free_restore h env _ _ o hre

/-- C6.  For a valid item the calls of `cs47l92_put_demux` are: the DAPM mutex
lock, then calls among which there is no lock, unlock or power update (all
register reads and writes and all delays are here), then the unlock, then
`snd_soc_dapm_mux_update_power`.  The lock and the unlock each occur once. -/
theorem put_demux_locking (h : Hdr) (e : soc_enum) (m : madera) (env : Env) (item : Nat)
    (hvalid : item ≤ u32_sub e.items 1) :
    ∃ mid, demux_calls h e m env item =
        .dapm_mutex_lock :: (mid ++ [.dapm_mutex_unlock, .mux_update_power item]) ∧
      (∀ ev ∈ mid, is_lock_or_power ev = false) ∧
      (demux_calls h e m env item).count .dapm_mutex_lock = 1 ∧
      (demux_calls h e m env item).count .dapm_mutex_unlock = 1 := by
  rw [demux_calls_valid h e m env item hvalid]
  have hmid : ∀ ev ∈ (Event.test_bits e.reg (u32 (e.mask <<< e.shift_l)) (u32 (item <<< e.shift_l)) ::
      (if demux_change h e m env item = 0 then []
       else switch_obs h m env item (u32 (item <<< e.shift_l))
        (m.regmap h.MADERA_OUTPUT_ENABLES_1)).map Obs.ev), is_lock_or_power ev = false := by
    intro ev hev
    rcases List.mem_cons.mp hev with rfl | hev
    · rfl
    · obtain ⟨o, ho, rfl⟩ := List.mem_map.mp hev
      split_ifs at ho with hc
      · simp at ho
      · exact lock_free_switch h m env _ _ _ o ho
  have hlock : ∀ mid : List Event, (∀ ev ∈ mid, is_lock_or_power ev = false) →
      mid.count .dapm_mutex_lock = 0 ∧ mid.count .dapm_mutex_unlock = 0 := by
    intro mid hm
    constructor
    · apply List.count_eq_zero_of_not_mem
      intro hin
      have := hm _ hin
      simp [is_lock_or_power] at this
    · apply List.count_eq_zero_of_not_mem
      intro hin
      have := hm _ hin
      simp [is_lock_or_power] at this
  have heq : (demux_obs h e m env item).map Obs.ev =
      .dapm_mutex_lock :: ((Event.test_bits e.reg (u32 (e.mask <<< e.shift_l))
        (u32 (item <<< e.shift_l)) ::
      (if demux_change h e m env item = 0 then []
       else switch_obs h m env item (u32 (item <<< e.shift_l))
        (m.regmap h.MADERA_OUTPUT_ENABLES_1)).map Obs.ev) ++
        [.dapm_mutex_unlock, .mux_update_power item]) := by
    unfold demux_obs
    simp
  obtain ⟨h1, h2⟩ := hlock _ hmid
  refine ⟨_, heq, hmid, ?_, ?_⟩
  · rw [heq, List.count_cons, List.count_append, h1]
    simp [List.count_cons]
  · rw [heq, List.count_cons, List.count_append, h2]
    simp [List.count_cons]

theorem put_demux_locking_witness :
    1 ≤ u32_sub (cs47l92_outdemux_enum mainline).items 1 ∧
    ∃ mid, demux_calls mainline (cs47l92_outdemux_enum mainline) dev_plain env_ok 1 =
        .dapm_mutex_lock :: (mid ++ [.dapm_mutex_unlock, .mux_update_power 1]) ∧
      (∀ ev ∈ mid, is_lock_or_power ev = false) ∧
      (demux_calls mainline (cs47l92_outdemux_enum mainline) dev_plain env_ok 1).count
        .dapm_mutex_lock = 1 ∧
      (demux_calls mainline (cs47l92_outdemux_enum mainline) dev_plain env_ok 1).count
        .dapm_mutex_unlock = 1 :=
  ⟨by decide,
   put_demux_locking mainline (cs47l92_outdemux_enum mainline) dev_plain env_ok 1 (by decide)⟩

theorem calls_where_append (p : Event → Bool) (a b : List Obs) :
    calls_where p (a ++ b) = calls_where p a ++ calls_where p b := by
  simp [calls_where]

theorem updates_read (h : Hdr) (m : madera) (env : Env) (v : Nat) :
    calls_where is_update (read_cur_obs h m env v) = [] := by
  unfold read_cur_obs calls_where
  split_ifs <;> simp [is_update]

theorem updates_disable (h : Hdr) (env : Env) (v : Nat) :
    (calls_where is_update (disable_obs h env v)).length = 1 := by
  unfold disable_obs calls_where
  split_ifs <;> simp [is_update]

theorem updates_sel (h : Hdr) (m : madera) (env : Env) (mux ep_sel v : Nat) :
    (calls_where is_update (sel_obs h m env mux ep_sel v)).length = 1 := by
  unfold sel_obs calls_where
  split_ifs <;> simp [is_update]

theorem updates_restore (h : Hdr) (env : Env) (cur v : Nat) :
    (calls_where is_update (restore_obs h env cur v)).length = 1 := by
  unfold restore_obs calls_where
  split_ifs <;> simp [is_update]

theorem reads_read (h : Hdr) (m : madera) (env : Env) (v : Nat) :
    (calls_where is_read (read_cur_obs h m env v)).length ≤ 1 := by
  unfold read_cur_obs calls_where
  split_ifs <;> simp [is_read]

theorem reads_disable (h : Hdr) (env : Env) (v : Nat) :
    calls_where is_read (disable_obs h env v) = [] := by
  unfold disable_obs calls_where
  split_ifs <;> simp [is_read]

theorem reads_sel (h : Hdr) (m : madera) (env : Env) (mux ep_sel v : Nat) :
    calls_where is_read (sel_obs h m env mux ep_sel v) = [] := by
  unfold sel_obs calls_where
  split_ifs <;> simp [is_read]

theorem reads_restore (h : Hdr) (env : Env) (cur v : Nat) :
    calls_where is_read (restore_obs h env cur v) = [] := by
  unfold restore_obs calls_where
  split_ifs <;> simp [is_read]

theorem logged_disable (h : Hdr) (env : Env) (v : Nat) (hf : env.disable_ret ≠ 0) :
    Event.dev_warn .disable_outputs env.disable_ret ∈ (disable_obs h env v).map Obs.ev := by
  unfold disable_obs
  simp [hf]

theorem logged_sel (h : Hdr) (m : madera) (env : Env) (mux ep_sel v : Nat)
    (hf : env.sel_ret ≠ 0) :
    Event.dev_err .set_ep_sel env.sel_ret ∈ (sel_obs h m env mux ep_sel v).map Obs.ev := by
  unfold sel_obs
  simp [hf]

theorem logged_read (h : Hdr) (m : madera) (env : Env) (v : Nat)
    (hacc : accdet_out h m = false) (hf : env.read_ret ≠ 0) :
    Event.dev_warn .read_current env.read_ret ∈ (read_cur_obs h m env v).map Obs.ev := by
  unfold read_cur_obs
  simp [hacc, hf]

theorem logged_mode (h : Hdr) (m : madera) (env : Env) (mux ep_sel v : Nat)
    (hs : env.sel_ret = 0) (hf : env.mode_ret < 0) :
    Event.dev_warn .set_output_mode env.mode_ret ∈ (sel_obs h m env mux ep_sel v).map Obs.ev := by
  unfold sel_obs
  simp [hs, hf]

theorem logged_restore (h : Hdr) (env : Env) (cur v : Nat) (hf : env.restore_ret ≠ 0) :
    Event.dev_warn .restore_outputs env.restore_ret ∈ (restore_obs h env cur v).map Obs.ev := by
  unfold restore_obs
  simp [hf]

/-- C7.  For a valid item `cs47l92_put_demux` returns what
`snd_soc_dapm_mux_update_power` returns for that item, whatever the results of
the register accesses are.  A failing `regmap_read`, `regmap_update_bits` or
`madera_set_output_mode` is reported by `dev_warn` or `dev_err` with its error
code and nothing is repeated: the handler makes three
`regmap_update_bits` calls when the selection changes and none otherwise, and
at most one `regmap_read`. -/
theorem put_demux_return (h : Hdr) (e : soc_enum) (m : madera) (env : Env) (item : Nat)
    (hvalid : item ≤ u32_sub e.items 1) :
    (cs47l92_put_demux h e m env item).1 = env.power item ∧
    ((demux_calls h e m env item).filter is_update).length =
      (if demux_change h e m env item = 0 then 0 else 3) ∧
    ((demux_calls h e m env item).filter is_read).length ≤ 1 ∧
    (demux_change h e m env item ≠ 0 →
      (accdet_out h m = false → env.read_ret ≠ 0 →
        .dev_warn .read_current env.read_ret ∈ demux_calls h e m env item) ∧
      (env.disable_ret ≠ 0 →
        .dev_warn .disable_outputs env.disable_ret ∈ demux_calls h e m env item) ∧
      (env.sel_ret ≠ 0 → .dev_err .set_ep_sel env.sel_ret ∈ demux_calls h e m env item) ∧
      (env.sel_ret = 0 → env.mode_ret < 0 →
        .dev_warn .set_output_mode env.mode_ret ∈ demux_calls h e m env item) ∧
      (env.restore_ret ≠ 0 →
        .dev_warn .restore_outputs env.restore_ret ∈ demux_calls h e m env item)) := by
  refine ⟨cs47l92_put_demux_ret h e m env item hvalid, ?_, ?_, ?_⟩
  · rw [demux_calls_valid h e m env item hvalid]
    change (calls_where is_update (demux_obs h e m env item)).length = _
    unfold demux_obs
    split_ifs with hc
    · simp [calls_where, is_update]
    · unfold switch_obs
      simp only [calls_where_append, List.length_append, updates_read, updates_disable,
        updates_sel, updates_restore]
      simp [calls_where, is_update]
  · rw [demux_calls_valid h e m env item hvalid]
    change (calls_where is_read (demux_obs h e m env item)).length ≤ 1
    unfold demux_obs
    split_ifs with hc
    · simp [calls_where, is_read]
    · unfold switch_obs
      have := reads_read h m env (m.regmap h.MADERA_OUTPUT_ENABLES_1)
      simp only [calls_where_append, List.length_append, reads_disable, reads_sel,
        reads_restore]
      simp [calls_where, is_read] at this ⊢
      exact this
  · intro hc
    rw [demux_calls_valid h e m env item hvalid]
    unfold demux_obs
    rw [if_neg hc]
    unfold switch_obs
    simp only [List.map_append, List.mem_append]
    refine ⟨fun ha hf => ?_, fun hf => ?_, fun hf => ?_, fun hs hf => ?_, fun hf => ?_⟩
    · exact Or.inl (Or.inr (Or.inl (Or.inl (Or.inl (Or.inl (logged_read h m env _ ha hf))))))
    · exact Or.inl (Or.inr (Or.inl (Or.inl (Or.inl (Or.inr (logged_disable h env _ hf))))))
    · exact Or.inl (Or.inr (Or.inl (Or.inr (logged_sel h m env _ _ _ hf))))
    · exact Or.inl (Or.inr (Or.inl (Or.inr (logged_mode h m env _ _ _ hs hf))))
    · exact Or.inl (Or.inr (Or.inr (logged_restore h env _ _ hf)))

theorem put_demux_return_witness :
    1 ≤ u32_sub (cs47l92_outdemux_enum mainline).items 1 ∧
    ((cs47l92_put_demux mainline (cs47l92_outdemux_enum mainline) dev_plain
        env_disable_fails 1).1 = env_disable_fails.power 1 ∧
    ((demux_calls mainline (cs47l92_outdemux_enum mainline) dev_plain
        env_disable_fails 1).filter is_update).length =
      (if demux_change mainline (cs47l92_outdemux_enum mainline) dev_plain
        env_disable_fails 1 = 0 then 0 else 3) ∧
    ((demux_calls mainline (cs47l92_outdemux_enum mainline) dev_plain
        env_disable_fails 1).filter is_read).length ≤ 1 ∧
    (demux_change mainline (cs47l92_outdemux_enum mainline) dev_plain env_disable_fails 1 ≠ 0 →
      (accdet_out mainline dev_plain = false → env_disable_fails.read_ret ≠ 0 →
        .dev_warn .read_current env_disable_fails.read_ret ∈
          demux_calls mainline (cs47l92_outdemux_enum mainline) dev_plain env_disable_fails 1) ∧
      (env_disable_fails.disable_ret ≠ 0 →
        .dev_warn .disable_outputs env_disable_fails.disable_ret ∈
          demux_calls mainline (cs47l92_outdemux_enum mainline) dev_plain env_disable_fails 1) ∧
      (env_disable_fails.sel_ret ≠ 0 → .dev_err .set_ep_sel env_disable_fails.sel_ret ∈
          demux_calls mainline (cs47l92_outdemux_enum mainline) dev_plain env_disable_fails 1) ∧
      (env_disable_fails.sel_ret = 0 → env_disable_fails.mode_ret < 0 →
        .dev_warn .set_output_mode env_disable_fails.mode_ret ∈
          demux_calls mainline (cs47l92_outdemux_enum mainline) dev_plain env_disable_fails 1) ∧
      (env_disable_fails.restore_ret ≠ 0 →
        .dev_warn .restore_outputs env_disable_fails.restore_ret ∈
          demux_calls mainline (cs47l92_outdemux_enum mainline) dev_plain
            env_disable_fails 1))) :=
  ⟨by decide,
   put_demux_return mainline (cs47l92_outdemux_enum mainline) dev_plain env_disable_fails 1
     (by decide)⟩

theorem sleeps_read (h : Hdr) (m : madera) (env : Env) (v : Nat) :
    calls_where is_sleep (read_cur_obs h m env v) = [] := by
  unfold read_cur_obs calls_where
  split_ifs <;> simp [is_sleep]

theorem sleeps_disable (h : Hdr) (env : Env) (v : Nat) :
    calls_where is_sleep (disable_obs h env v) = [] := by
  unfold disable_obs calls_where
  split_ifs <;> simp [is_sleep]

theorem sleeps_sel (h : Hdr) (m : madera) (env : Env) (mux ep_sel v : Nat) :
    calls_where is_sleep (sel_obs h m env mux ep_sel v) = [] := by
  unfold sel_obs calls_where
  split_ifs <;> simp [is_sleep]

theorem restore_obs_calls (h : Hdr) (env : Env) (cur v : Nat) :
    (restore_obs h env cur v).map Obs.ev =
      [.regmap_update_bits h.MADERA_OUTPUT_ENABLES_1 (out3_ena h) cur,
       after_restore h env cur] := by
  unfold restore_obs after_restore out3_ena
  split_ifs <;> simp

theorem sleeps_restore (h : Hdr) (env : Env) (cur v : Nat) :
    calls_where is_sleep (restore_obs h env cur v) =
      if env.restore_ret = 0 then [after_restore h env cur] else [] := by
  unfold calls_where
  rw [restore_obs_calls]
  unfold after_restore
  split_ifs <;> simp [is_sleep]

/-- C8.  For a valid item that changes the selection, the call that follows
the restore write is `msleep(34)` if the write succeeded and `cur` has
OUT3L_ENA or OUT3R_ENA set, `usleep_range(2000, 3000)` if it succeeded and
neither is set, and the warning (no delay) if it failed; the unlock comes
next.  For every valid item the delays of the handler are none when the
selection does not change and otherwise `usleep_range(2000, 3000)` followed,
if the restore write succeeded, by that one delay: they are fixed constants
chosen by `cur` and by success of the write, not by the selection. -/
theorem put_demux_delays (h : Hdr) (e : soc_enum) (m : madera) (env : Env) (item : Nat)
    (hvalid : item ≤ u32_sub e.items 1) :
    (demux_change h e m env item ≠ 0 →
      ∃ before, demux_calls h e m env item = before ++
        [.regmap_update_bits h.MADERA_OUTPUT_ENABLES_1 (out3_ena h) (demux_cur h m env),
         after_restore h env (demux_cur h m env),
         .dapm_mutex_unlock, .mux_update_power item]) ∧
    (env.restore_ret = 0 →
      (demux_cur h m env &&& out3_ena h ≠ 0 →
        after_restore h env (demux_cur h m env) = .msleep 34) ∧
      (demux_cur h m env &&& out3_ena h = 0 →
        after_restore h env (demux_cur h m env) = .usleep_range 2000 3000)) ∧
    (env.restore_ret ≠ 0 → is_sleep (after_restore h env (demux_cur h m env)) = false) ∧
    (demux_calls h e m env item).filter is_sleep =
      (if demux_change h e m env item = 0 then []
       else .usleep_range 2000 3000 ::
        (if env.restore_ret = 0 then [after_restore h env (demux_cur h m env)] else [])) ∧
    ∀ ev ∈ demux_calls h e m env item, is_sleep ev = true →
      ev = .msleep 34 ∨ ev = .usleep_range 2000 3000 := by
  have hsl : (demux_calls h e m env item).filter is_sleep =
      (if demux_change h e m env item = 0 then []
       else .usleep_range 2000 3000 ::
        (if env.restore_ret = 0 then [after_restore h env (demux_cur h m env)] else [])) := by
    rw [demux_calls_valid h e m env item hvalid]
    change calls_where is_sleep (demux_obs h e m env item) = _
    unfold demux_obs
    split_ifs with hc hr
    · simp [calls_where, is_sleep]
    · unfold switch_obs
      simp only [calls_where_append, sleeps_read, sleeps_disable, sleeps_sel, sleeps_restore,
        if_pos hr]
      simp [calls_where, is_sleep]
    · unfold switch_obs
      simp only [calls_where_append, sleeps_read, sleeps_disable, sleeps_sel, sleeps_restore,
        if_neg hr]
      simp [calls_where, is_sleep]
  refine ⟨?_, ?_, ?_, hsl, ?_⟩
  · intro hc
    rw [demux_calls_valid h e m env item hvalid]
    unfold demux_obs
    rw [if_neg hc]
    unfold switch_obs
    simp only [List.map_append, restore_obs_calls]
    refine ⟨[.dapm_mutex_lock,
        .test_bits e.reg (u32 (e.mask <<< e.shift_l)) (u32 (item <<< e.shift_l))] ++
      (read_cur_obs h m env (m.regmap h.MADERA_OUTPUT_ENABLES_1)).map Obs.ev ++
      (disable_obs h env (m.regmap h.MADERA_OUTPUT_ENABLES_1)).map Obs.ev ++
      [.usleep_range 2000 3000] ++
      (sel_obs h m env item (u32 (item <<< e.shift_l))
        (disable_val h env (m.regmap h.MADERA_OUTPUT_ENABLES_1))).map Obs.ev, ?_⟩
    simp
  · intro hr
    unfold after_restore
    rw [if_pos hr]
    exact ⟨fun hne => by rw [if_pos hne], fun heq => by rw [if_neg (not_not.mpr heq)]⟩
  · intro hr
    unfold after_restore
    rw [if_neg hr]
    rfl
  · intro ev hev hs
    have hmem : ev ∈ (demux_calls h e m env item).filter is_sleep :=
      List.mem_filter.mpr ⟨hev, hs⟩
    rw [hsl] at hmem
    unfold after_restore at hmem
    split_ifs at hmem <;> simp at hmem <;> (try rcases hmem with rfl | rfl) <;> simp_all

theorem put_demux_delays_witness :
    1 ≤ u32_sub (cs47l92_outdemux_enum mainline).items 1 ∧
    ((demux_change mainline (cs47l92_outdemux_enum mainline) dev_plain env_ok 1 ≠ 0 →
      ∃ before, demux_calls mainline (cs47l92_outdemux_enum mainline) dev_plain env_ok 1 =
        before ++
        [.regmap_update_bits mainline.MADERA_OUTPUT_ENABLES_1 (out3_ena mainline)
          (demux_cur mainline dev_plain env_ok),
         after_restore mainline env_ok (demux_cur mainline dev_plain env_ok),
         .dapm_mutex_unlock, .mux_update_power 1]) ∧
    (env_ok.restore_ret = 0 →
      (demux_cur mainline dev_plain env_ok &&& out3_ena mainline ≠ 0 →
        after_restore mainline env_ok (demux_cur mainline dev_plain env_ok) = .msleep 34) ∧
      (demux_cur mainline dev_plain env_ok &&& out3_ena mainline = 0 →
        after_restore mainline env_ok (demux_cur mainline dev_plain env_ok) =
          .usleep_range 2000 3000)) ∧
    (env_ok.restore_ret ≠ 0 →
      is_sleep (after_restore mainline env_ok (demux_cur mainline dev_plain env_ok)) = false) ∧
    (demux_calls mainline (cs47l92_outdemux_enum mainline) dev_plain env_ok 1).filter is_sleep =
      (if demux_change mainline (cs47l92_outdemux_enum mainline) dev_plain env_ok 1 = 0 then []
       else .usleep_range 2000 3000 ::
        (if env_ok.restore_ret = 0 then
          [after_restore mainline env_ok (demux_cur mainline dev_plain env_ok)] else [])) ∧
    ∀ ev ∈ demux_calls mainline (cs47l92_outdemux_enum mainline) dev_plain env_ok 1,
      is_sleep ev = true → ev = .msleep 34 ∨ ev = .usleep_range 2000 3000) :=
  ⟨by decide,
   put_demux_delays mainline (cs47l92_outdemux_enum mainline) dev_plain env_ok 1 (by decide)⟩

/-- C9.  `cs47l92_asrc_ev` returns 0 exactly when both register reads succeed
and both decoded rates are non-negative.  Otherwise it returns the result of
the first failing step (read of `w->reg + 2`, first rate, read of
`w->reg + 3`, second rate) and makes no call after that step.  A rate above
192000 only adds an error message. -/
theorem asrc_ev_result (h : Hdr) (regmap : Nat → Nat) (env : AsrcEnv) (w_reg : Nat) :
    ((cs47l92_asrc_ev h regmap env w_reg).1 = 0 ↔
      env.read1_ret = 0 ∧ 0 ≤ env.rate (asrc_rate_field h regmap (u32 (w_reg + 2))) ∧
      env.read2_ret = 0 ∧ 0 ≤ env.rate (asrc_rate_field h regmap (u32 (w_reg + 3)))) ∧
    (env.read1_ret ≠ 0 →
      (cs47l92_asrc_ev h regmap env w_reg).1 = env.read1_ret ∧
      asrc_calls h regmap env w_reg = [.regmap_read (u32 (w_reg + 2))]) ∧
    (env.read1_ret = 0 → env.rate (asrc_rate_field h regmap (u32 (w_reg + 2))) < 0 →
      (cs47l92_asrc_ev h regmap env w_reg).1 =
        env.rate (asrc_rate_field h regmap (u32 (w_reg + 2))) ∧
      asrc_calls h regmap env w_reg =
        [.regmap_read (u32 (w_reg + 2)),
         .sample_rate_val_to_rate (asrc_rate_field h regmap (u32 (w_reg + 2)))]) ∧
    (env.read1_ret = 0 → 0 ≤ env.rate (asrc_rate_field h regmap (u32 (w_reg + 2))) →
      env.read2_ret ≠ 0 →
      (cs47l92_asrc_ev h regmap env w_reg).1 = env.read2_ret ∧
      asrc_calls h regmap env w_reg =
        [.regmap_read (u32 (w_reg + 2)),
         .sample_rate_val_to_rate (asrc_rate_field h regmap (u32 (w_reg + 2)))] ++
        asrc_rate_log (env.rate (asrc_rate_field h regmap (u32 (w_reg + 2)))) ++
        [.regmap_read (u32 (w_reg + 3))]) ∧
    (env.read1_ret = 0 → 0 ≤ env.rate (asrc_rate_field h regmap (u32 (w_reg + 2))) →
      env.read2_ret = 0 → env.rate (asrc_rate_field h regmap (u32 (w_reg + 3))) < 0 →
      (cs47l92_asrc_ev h regmap env w_reg).1 =
        env.rate (asrc_rate_field h regmap (u32 (w_reg + 3))) ∧
      asrc_calls h regmap env w_reg =
        [.regmap_read (u32 (w_reg + 2)),
         .sample_rate_val_to_rate (asrc_rate_field h regmap (u32 (w_reg + 2)))] ++
        asrc_rate_log (env.rate (asrc_rate_field h regmap (u32 (w_reg + 2)))) ++
        [.regmap_read (u32 (w_reg + 3)),
         .sample_rate_val_to_rate (asrc_rate_field h regmap (u32 (w_reg + 3)))]) ∧
    (env.read1_ret = 0 → 0 ≤ env.rate (asrc_rate_field h regmap (u32 (w_reg + 2))) →
      env.read2_ret = 0 → 0 ≤ env.rate (asrc_rate_field h regmap (u32 (w_reg + 3))) →
      (cs47l92_asrc_ev h regmap env w_reg).1 = 0 ∧
      asrc_calls h regmap env w_reg =
        [.regmap_read (u32 (w_reg + 2)),
         .sample_rate_val_to_rate (asrc_rate_field h regmap (u32 (w_reg + 2)))] ++
        asrc_rate_log (env.rate (asrc_rate_field h regmap (u32 (w_reg + 2)))) ++
        [.regmap_read (u32 (w_reg + 3)),
         .sample_rate_val_to_rate (asrc_rate_field h regmap (u32 (w_reg + 3)))] ++
        asrc_rate_log (env.rate (asrc_rate_field h regmap (u32 (w_reg + 3))))) := by
  unfold asrc_calls
  generalize hv1 : asrc_rate_field h regmap (u32 (w_reg + 2)) = v1
  generalize hv2 : asrc_rate_field h regmap (u32 (w_reg + 3)) = v2
  unfold asrc_rate_field at hv1 hv2
  by_cases h1 : env.read1_ret = 0
  · by_cases h2 : env.rate v1 < 0
    · have h2ne : env.rate v1 ≠ 0 := by omega
      have h2n : ¬ 0 ≤ env.rate v1 := by omega
      simp [cs47l92_asrc_ev, asrc_check_rate, regmap_read, h1, hv1, h2, h2ne, h2n]
    · have h2p : 0 ≤ env.rate v1 := by omega
      by_cases h3 : env.read2_ret = 0
      · by_cases h4 : env.rate v2 < 0
        · have h4ne : env.rate v2 ≠ 0 := by omega
          have h4n : ¬ 0 ≤ env.rate v2 := by omega
          by_cases h5 : env.rate v1 > 192000 <;>
            simp [cs47l92_asrc_ev, asrc_check_rate, regmap_read, asrc_rate_log, h1, hv1, hv2, h2,
              h2p, h3, h4, h4ne, h4n, h5]
        · have h4p : 0 ≤ env.rate v2 := by omega
          by_cases h5 : env.rate v1 > 192000 <;> by_cases h6 : env.rate v2 > 192000 <;>
            simp [cs47l92_asrc_ev, asrc_check_rate, regmap_read, asrc_rate_log, h1, hv1, hv2, h2,
              h2p, h3, h4, h4p, h5, h6]
      · by_cases h5 : env.rate v1 > 192000 <;>
          simp [cs47l92_asrc_ev, asrc_check_rate, regmap_read, asrc_rate_log, h1, hv1, hv2, h2,
            h2p, h3, h5]
  · simp [cs47l92_asrc_ev, regmap_read, h1]

theorem asrc_ev_result_witness :
    (asrc_env.read1_ret = 0 ∧ 0 ≤ asrc_env.rate (asrc_rate_field mainline asrc_regs (u32 (0x100 + 2))) ∧
      asrc_env.read2_ret = 0 ∧
      asrc_env.rate (asrc_rate_field mainline asrc_regs (u32 (0x100 + 3))) < 0) ∧
    ((cs47l92_asrc_ev mainline asrc_regs asrc_env 0x100).1 =
        asrc_env.rate (asrc_rate_field mainline asrc_regs (u32 (0x100 + 3))) ∧
      asrc_calls mainline asrc_regs asrc_env 0x100 =
        [.regmap_read (u32 (0x100 + 2)),
         .sample_rate_val_to_rate (asrc_rate_field mainline asrc_regs (u32 (0x100 + 2)))] ++
        asrc_rate_log (asrc_env.rate (asrc_rate_field mainline asrc_regs (u32 (0x100 + 2)))) ++
        [.regmap_read (u32 (0x100 + 3)),
         .sample_rate_val_to_rate (asrc_rate_field mainline asrc_regs (u32 (0x100 + 3)))]) :=
  ⟨⟨by decide, by decide, by decide, by decide⟩,
   (asrc_ev_result mainline asrc_regs asrc_env 0x100).2.2.2.2.1
     (by decide) (by decide) (by decide) (by decide)⟩

/-- C10.  For every `fll_id` other than MADERA_FLL1_REFCLK and
MADERA_FLL2_REFCLK, `cs47l92_set_fll` returns -EINVAL, does not call
`madera_fllhj_set_refclk`, and leaves both FLLs as they were. -/
theorem set_fll_einval {F : Type} (h : Hdr) (set_refclk : F → Int → Nat → Nat → Int × F)
    (d : cs47l92 F) (fll_id source : Int) (Fref Fout : Nat)
    (h1 : fll_id ≠ h.MADERA_FLL1_REFCLK) (h2 : fll_id ≠ h.MADERA_FLL2_REFCLK) :
    (cs47l92_set_fll h set_refclk d fll_id source Fref Fout).ret = -h.EINVAL ∧
    (cs47l92_set_fll h set_refclk d fll_id source Fref Fout).calls = [] ∧
    (cs47l92_set_fll h set_refclk d fll_id source Fref Fout).data.fll0 = d.fll0 ∧
    (cs47l92_set_fll h set_refclk d fll_id source Fref Fout).data.fll1 = d.fll1 := by
  unfold cs47l92_set_fll
  rw [if_neg h1, if_neg h2]
  exact ⟨rfl, rfl, rfl, rfl⟩

theorem set_fll_einval_witness :
    ((3 : Int) ≠ mainline.MADERA_FLL1_REFCLK ∧ (3 : Int) ≠ mainline.MADERA_FLL2_REFCLK) ∧
    ((cs47l92_set_fll mainline counting_refclk ⟨0, 0⟩ 3 1 32768 49152000).ret =
        -mainline.EINVAL ∧
      (cs47l92_set_fll mainline counting_refclk ⟨0, 0⟩ 3 1 32768 49152000).calls = [] ∧
      (cs47l92_set_fll mainline counting_refclk ⟨0, 0⟩ 3 1 32768 49152000).data.fll0 = 0 ∧
      (cs47l92_set_fll mainline counting_refclk ⟨0, 0⟩ 3 1 32768 49152000).data.fll1 = 0) :=
  ⟨⟨by decide, by decide⟩,
   set_fll_einval mainline counting_refclk ⟨0, 0⟩ 3 1 32768 49152000 (by decide) (by decide)⟩

/-- C11.  For `fll_id = MADERA_FLL1_REFCLK`, `cs47l92_set_fll` makes one call
of `madera_fllhj_set_refclk`, on `fll[0]`, with `source`, `Fref` and `Fout` as
given, returns its result and leaves `fll[1]` as it was; for
`fll_id = MADERA_FLL2_REFCLK` (a different case label) the same holds with
`fll[1]` configured and `fll[0]` left as it was. -/
theorem set_fll_dispatch {F : Type} (h : Hdr) (set_refclk : F → Int → Nat → Nat → Int × F)
    (d : cs47l92 F) (source : Int) (Fref Fout : Nat)
    (hne : h.MADERA_FLL1_REFCLK ≠ h.MADERA_FLL2_REFCLK) :
    ((cs47l92_set_fll h set_refclk d h.MADERA_FLL1_REFCLK source Fref Fout).ret =
        (set_refclk d.fll0 source Fref Fout).1 ∧
      (cs47l92_set_fll h set_refclk d h.MADERA_FLL1_REFCLK source Fref Fout).calls =
        [⟨0, source, Fref, Fout⟩] ∧
      (cs47l92_set_fll h set_refclk d h.MADERA_FLL1_REFCLK source Fref Fout).data.fll0 =
        (set_refclk d.fll0 source Fref Fout).2 ∧
      (cs47l92_set_fll h set_refclk d h.MADERA_FLL1_REFCLK source Fref Fout).data.fll1 =
        d.fll1) ∧
    ((cs47l92_set_fll h set_refclk d h.MADERA_FLL2_REFCLK source Fref Fout).ret =
        (set_refclk d.fll1 source Fref Fout).1 ∧
      (cs47l92_set_fll h set_refclk d h.MADERA_FLL2_REFCLK source Fref Fout).calls =
        [⟨1, source, Fref, Fout⟩] ∧
      (cs47l92_set_fll h set_refclk d h.MADERA_FLL2_REFCLK source Fref Fout).data.fll1 =
        (set_refclk d.fll1 source Fref Fout).2 ∧
      (cs47l92_set_fll h set_refclk d h.MADERA_FLL2_REFCLK source Fref Fout).data.fll0 =
        d.fll0) := by
  unfold cs47l92_set_fll
  rw [if_pos rfl, if_neg (Ne.symm hne), if_pos rfl]
  exact ⟨⟨rfl, rfl, rfl, rfl⟩, ⟨rfl, rfl, rfl, rfl⟩⟩

theorem set_fll_dispatch_witness :
    mainline.MADERA_FLL1_REFCLK ≠ mainline.MADERA_FLL2_REFCLK ∧
    ((cs47l92_set_fll mainline counting_refclk ⟨0, 5⟩ mainline.MADERA_FLL1_REFCLK 1 32768
          49152000).ret = (counting_refclk 0 1 32768 49152000).1 ∧
      (cs47l92_set_fll mainline counting_refclk ⟨0, 5⟩ mainline.MADERA_FLL1_REFCLK 1 32768
          49152000).calls = [⟨0, 1, 32768, 49152000⟩] ∧
      (cs47l92_set_fll mainline counting_refclk ⟨0, 5⟩ mainline.MADERA_FLL1_REFCLK 1 32768
          49152000).data.fll0 = (counting_refclk 0 1 32768 49152000).2 ∧
      (cs47l92_set_fll mainline counting_refclk ⟨0, 5⟩ mainline.MADERA_FLL1_REFCLK 1 32768
          49152000).data.fll1 = 5) ∧
    ((cs47l92_set_fll mainline counting_refclk ⟨0, 5⟩ mainline.MADERA_FLL2_REFCLK 1 32768
          49152000).ret = (counting_refclk 5 1 32768 49152000).1 ∧
      (cs47l92_set_fll mainline counting_refclk ⟨0, 5⟩ mainline.MADERA_FLL2_REFCLK 1 32768
          49152000).calls = [⟨1, 1, 32768, 49152000⟩] ∧
      (cs47l92_set_fll mainline counting_refclk ⟨0, 5⟩ mainline.MADERA_FLL2_REFCLK 1 32768
          49152000).data.fll1 = (counting_refclk 5 1 32768 49152000).2 ∧
      (cs47l92_set_fll mainline counting_refclk ⟨0, 5⟩ mainline.MADERA_FLL2_REFCLK 1 32768
          49152000).data.fll0 = 0) :=
  ⟨by decide, set_fll_dispatch mainline counting_refclk ⟨0, 5⟩ 1 32768 49152000 (by decide)⟩

/-- C12.  `cs47l92_open` returns -EINVAL without calling `wm_adsp_compr_open`
for every codec DAI name other than "cs47l92-dsp-trace"; for that name it
makes one call of `wm_adsp_compr_open`, on `adsp[0]`, and returns its result.
The accepted name is the name of an entry of `cs47l92_dai`. -/
theorem open_dispatch (h : Hdr) (compr_open : Nat → Int) (dai_name : String) :
    (dai_name ≠ "cs47l92-dsp-trace" →
      (cs47l92_open h compr_open dai_name).1 = -h.EINVAL ∧
      ∀ n, OpenEvent.wm_adsp_compr_open n ∉ (cs47l92_open h compr_open dai_name).2) ∧
    ((cs47l92_open h compr_open "cs47l92-dsp-trace").1 = compr_open 0 ∧
      (cs47l92_open h compr_open "cs47l92-dsp-trace").2 = [.wm_adsp_compr_open 0]) ∧
    "cs47l92-dsp-trace" ∈ cs47l92_dai.map dai_driver.name := by
  refine ⟨fun hne => ?_, ?_, by decide⟩
  · unfold cs47l92_open
    rw [if_neg hne]
    exact ⟨rfl, fun n hn => by simp at hn⟩
  · unfold cs47l92_open
    rw [if_pos rfl]
    exact ⟨rfl, rfl⟩

theorem open_dispatch_witness :
    ("cs47l92-cpu-trace" ≠ "cs47l92-dsp-trace" ∧
      (cs47l92_open mainline (fun _ => 0) "cs47l92-cpu-trace").1 = -mainline.EINVAL ∧
      ∀ n, OpenEvent.wm_adsp_compr_open n ∉
        (cs47l92_open mainline (fun _ => 0) "cs47l92-cpu-trace").2) :=
  ⟨by decide, (open_dispatch mainline (fun _ => 0) "cs47l92-cpu-trace").1 (by decide)⟩

/-- C13.  When the parent device has no `irq_dev`, `cs47l92_probe` returns
-EPROBE_DEFER and its only call is the debug message: nothing is allocated,
initialised, requested, written or registered. -/
theorem probe_defers (h : Hdr) (env : ProbeEnv) (hirq : env.irq_dev = false) :
    (cs47l92_probe h env).1 = -h.EPROBE_DEFER ∧
    (cs47l92_probe h env).2 = [.dev_dbg_irqchip_not_ready] := by
  unfold cs47l92_probe
  simp [hirq]

theorem probe_defers_witness :
    probe_env_no_irq.irq_dev = false ∧
    (cs47l92_probe mainline probe_env_no_irq).1 = -mainline.EPROBE_DEFER ∧
    (cs47l92_probe mainline probe_env_no_irq).2 = [.dev_dbg_irqchip_not_ready] :=
  ⟨by decide, probe_defers mainline probe_env_no_irq (by decide)⟩

set_option maxRecDepth 100000 in
theorem routes_known : ∀ e ∈ cs47l92_dapm_routes, route_known e = true := by
  decide

theorem literal_widget_declared (x : WidgetMacros) (n : String)
    (hn : n ∈ literal_widget_names) : n ∈ widget_names x := by
  unfold literal_widget_names at hn
  obtain ⟨e, he, hsome⟩ := List.mem_filterMap.mp hn
  unfold widget_names
  refine List.mem_flatMap.mpr ⟨e, he, ?_⟩
  cases e <;> simp at hsome
  subst hsome
  simp [entry_names]

theorem endpoint_known_declared (x : WidgetMacros) (hmix : " Mixer" ∈ x.mixer)
    (hadsp : "" ∈ x.adsp2) (n : String) (hn : endpoint_known n = true) :
    n ∈ widget_names x ∨ n ∈ dai_stream_names := by
  unfold endpoint_known at hn
  simp only [Bool.or_eq_true, decide_eq_true_eq, beq_iff_eq] at hn
  rcases hn with (((hl | hs) | h1) | h2) | h3
  · exact Or.inl (literal_widget_declared x n hl)
  · exact Or.inr hs
  · left
    subst h1
    exact List.mem_flatMap.mpr ⟨WidgetEntry.mixer_widgets "PWM1" "PWM1", by decide,
      List.mem_map.mpr ⟨" Mixer", hmix, by decide⟩⟩
  · left
    subst h2
    exact List.mem_flatMap.mpr ⟨WidgetEntry.mixer_widgets "PWM2" "PWM2", by decide,
      List.mem_map.mpr ⟨" Mixer", hmix, by decide⟩⟩
  · left
    subst h3
    exact List.mem_flatMap.mpr ⟨WidgetEntry.wm_adsp2 "DSP1", by decide,
      List.mem_map.mpr ⟨"", hadsp, by decide⟩⟩

/-- C14.  Every sink and every source of a literal entry of
`cs47l92_dapm_routes` is the name of a widget declared in
`cs47l92_dapm_widgets` or a stream name of a DAI in `cs47l92_dai`, where
`MADERA_MIXER_WIDGETS(id, name)` declares "name Mixer" and `WM_ADSP2(name, ..)`
declares the widget `name`. -/
theorem routes_endpoints_declared (x : WidgetMacros) (hmix : " Mixer" ∈ x.mixer)
    (hadsp : "" ∈ x.adsp2) (sink source : String) (control : Option String)
    (hr : RouteEntry.route sink control source ∈ cs47l92_dapm_routes) :
    (sink ∈ widget_names x ∨ sink ∈ dai_stream_names) ∧
    (source ∈ widget_names x ∨ source ∈ dai_stream_names) := by
  have hk := routes_known _ hr
  unfold route_known at hk
  simp only [Bool.and_eq_true] at hk
  exact ⟨endpoint_known_declared x hmix hadsp sink hk.1,
    endpoint_known_declared x hmix hadsp source hk.2⟩

theorem routes_endpoints_declared_witness :
    (" Mixer" ∈ known_widget_macros.mixer ∧ "" ∈ known_widget_macros.adsp2 ∧
      RouteEntry.route "Audio Trace DSP" none "DSP1" ∈ cs47l92_dapm_routes) ∧
    (("Audio Trace DSP" ∈ widget_names known_widget_macros ∨
        "Audio Trace DSP" ∈ dai_stream_names) ∧
      ("DSP1" ∈ widget_names known_widget_macros ∨ "DSP1" ∈ dai_stream_names)) :=
  ⟨⟨by decide, by decide, by decide⟩,
   routes_endpoints_declared known_widget_macros (by decide) (by decide)
     "Audio Trace DSP" "DSP1" none (by decide)⟩

theorem append_may (s sfx t : String) (ht : t = s ++ sfx) : s.data.isPrefixOf t.data = true := by
  subst ht
  rw [String.data_append, List.isPrefixOf_iff_prefix]
  exact List.prefix_append _ _

theorem may_declare_of_mem (x : WidgetMacros) (e : WidgetEntry) (t : String)
    (ht : t ∈ entry_names x e) : may_declare t e = true := by
  cases e with
  | dapm k n =>
    simp only [entry_names, List.mem_singleton] at ht
    simp [may_declare, ht]
  | mixer_widgets i s =>
    obtain ⟨sfx, _, hs⟩ := List.mem_map.mp ht
    exact append_may s sfx t hs.symm
  | mux_widgets i s =>
    obtain ⟨sfx, _, hs⟩ := List.mem_map.mp ht
    exact append_may s sfx t hs.symm
  | dsp_widgets i s =>
    obtain ⟨sfx, _, hs⟩ := List.mem_map.mp ht
    exact append_may s sfx t hs.symm
  | wm_adsp2 w =>
    obtain ⟨sfx, _, hs⟩ := List.mem_map.mp ht
    exact append_may w sfx t hs.symm

set_option maxRecDepth 100000 in
theorem micbias3_not_declarable :
    ∀ e ∈ cs47l92_dapm_widgets, may_declare "MICBIAS3" e = false := by
  decide

/-- C15.  The table `cs47l92_dmic_refs` names "MICBIAS3", which no entry of
`cs47l92_dapm_widgets` declares, whatever the widget macros append to their
string arguments.  The other three reference names and all eight names of
`cs47l92_dmic_inputs` are `SND_SOC_DAPM_*` widgets, and eight is the
`num_inputs` with which `cs47l92_probe` calls `madera_core_init`. -/
theorem dmic_refs_undeclared :
    ("MICBIAS3" ∈ cs47l92_dmic_refs ∧ ∀ x : WidgetMacros, "MICBIAS3" ∉ widget_names x) ∧
    (∀ n ∈ cs47l92_dmic_refs, n ≠ "MICBIAS3" → n ∈ literal_widget_names) ∧
    (∀ n ∈ cs47l92_dmic_inputs, n ∈ literal_widget_names) ∧
    cs47l92_dmic_inputs.length = 8 ∧
    ProbeEvent.madera_core_init cs47l92_dmic_inputs.length ∈
      (cs47l92_probe mainline probe_env_ok).2 := by
  refine ⟨⟨by decide, fun x hx => ?_⟩, by decide, by decide, by decide, by decide⟩
  unfold widget_names at hx
  obtain ⟨e, he, hn⟩ := List.mem_flatMap.mp hx
  have h1 := may_declare_of_mem x e "MICBIAS3" hn
  rw [micbias3_not_declarable e he] at h1
  cases h1

theorem filter_flatMap_routes (x : RouteEntry → List snd_soc_dapm_route)
    (p : snd_soc_dapm_route → Bool) (l : List RouteEntry)
    (hx : ∀ e ∈ l, ∀ r ∈ x e, p r = false) :
    (l.flatMap (entry_routes x)).filter p = (l.flatMap (entry_routes (fun _ => []))).filter p := by
  induction l with
  | nil => rfl
  | cons e l ih =>
    have hl : ∀ e2 ∈ l, ∀ r ∈ x e2, p r = false := fun e2 he2 =>
      hx e2 (List.mem_cons_of_mem _ he2)
    have he : ∀ r ∈ x e, p r = false := hx e (List.mem_cons_self _ _)
    simp only [List.flatMap_cons, List.filter_append, ih hl]
    congr 1
    cases e with
    | route s c t => rfl
    | mixer_routes w n =>
      simp only [entry_routes, List.filter_nil]
      exact List.filter_eq_nil_iff.mpr (fun r hr => by simp [he r hr])
    | mux_routes w n =>
      simp only [entry_routes, List.filter_nil]
      exact List.filter_eq_nil_iff.mpr (fun r hr => by simp [he r hr])
    | dsp_routes n =>
      simp only [entry_routes, List.filter_nil]
      exact List.filter_eq_nil_iff.mpr (fun r hr => by simp [he r hr])

theorem filter_all_routes (x : RouteEntry → List snd_soc_dapm_route)
    (p : snd_soc_dapm_route → Bool)
    (hx : ∀ e ∈ cs47l92_dapm_routes, ∀ r ∈ x e, p r = false) :
    (all_routes x).filter p = literal_routes.filter p :=
  filter_flatMap_routes x p cs47l92_dapm_routes hx

set_option maxRecDepth 100000 in
theorem dai_channels_literal_ok :
    ∀ d ∈ cs47l92_dai, d.name ∈ aif_dai_names → dai_channels_literal d = true := by
  decide

set_option maxRecDepth 100000 in
theorem widget_links_literal_ok :
    ∀ e ∈ cs47l92_dapm_widgets, widget_links_literal e = true := by
  decide

theorem capture_stream_mem (d : dai_driver) (c : pcm_stream) (hd : d ∈ cs47l92_dai)
    (hc : d.capture = some c) : c.stream_name ∈ dai_stream_names := by
  unfold dai_stream_names
  refine List.mem_flatMap.mpr ⟨d, hd, List.mem_map.mpr ⟨c, ?_, rfl⟩⟩
  simp [hc]

theorem playback_stream_mem (d : dai_driver) (p : pcm_stream) (hd : d ∈ cs47l92_dai)
    (hp : d.playback = some p) : p.stream_name ∈ dai_stream_names := by
  unfold dai_stream_names
  refine List.mem_flatMap.mpr ⟨d, hd, List.mem_map.mpr ⟨p, ?_, rfl⟩⟩
  simp [hp]

/-- C16.  Provided the routes that the route macros expand to have no DAI
stream as an endpoint: for each of the six audio-interface DAIs of
`cs47l92_dai`, the routes of `cs47l92_dapm_routes` from TX widgets into its
capture stream are as many as its capture `channels_max`, the routes from its
playback stream into RX widgets are as many as its playback `channels_max`,
and no TX or RX widget has a route to more than one DAI stream. -/
theorem dai_routes_match_channels (x : RouteEntry → List snd_soc_dapm_route)
    (hx : ∀ e ∈ cs47l92_dapm_routes, ∀ r ∈ x e,
      r.sink ∉ dai_stream_names ∧ r.source ∉ dai_stream_names) :
    (∀ n ∈ aif_dai_names, n ∈ cs47l92_dai.map dai_driver.name) ∧
    (∀ d ∈ cs47l92_dai, d.name ∈ aif_dai_names →
      ∃ p c, d.playback = some p ∧ d.capture = some c ∧
        ((all_routes x).filter (is_tx_route c.stream_name)).length = c.channels_max ∧
        ((all_routes x).filter (is_rx_route p.stream_name)).length = p.channels_max) ∧
    (∀ k n, k = DapmKind.aif_out ∨ k = DapmKind.aif_in →
      WidgetEntry.dapm k n ∈ cs47l92_dapm_widgets →
      ((all_routes x).filter (is_stream_link n)).length ≤ 1) := by
  refine ⟨by decide, fun d hd hn => ?_, fun k n hk hw => ?_⟩
  · have hlit := dai_channels_literal_ok d hd hn
    unfold dai_channels_literal at hlit
    cases hp : d.playback with
    | none => simp [hp] at hlit
    | some p =>
      cases hc : d.capture with
      | none => simp [hp, hc] at hlit
      | some c =>
        simp only [hp, hc, Bool.and_eq_true, decide_eq_true_eq] at hlit
        refine ⟨p, c, rfl, rfl, ?_, ?_⟩
        · rw [filter_all_routes x (is_tx_route c.stream_name)]
          · exact hlit.1
          · intro e he r hr
            have hs := (hx e he r hr).1
            have hne : r.sink ≠ c.stream_name := fun heq =>
              hs (heq ▸ capture_stream_mem d c hd hc)
            simp [is_tx_route, hne]
        · rw [filter_all_routes x (is_rx_route p.stream_name)]
          · exact hlit.2
          · intro e he r hr
            have hs := (hx e he r hr).2
            have hne : r.source ≠ p.stream_name := fun heq =>
              hs (heq ▸ playback_stream_mem d p hd hp)
            simp [is_rx_route, hne]
  · rw [filter_all_routes x (is_stream_link n)]
    · have hlit := widget_links_literal_ok _ hw
      rcases hk with rfl | rfl
      · simpa [widget_links_literal] using hlit
      · simpa [widget_links_literal] using hlit
    · intro e he r hr
      obtain ⟨h1, h2⟩ := hx e he r hr
      simp [is_stream_link, h1, h2]

set_option maxRecDepth 100000 in
theorem sample_route_macros_ok :
    ∀ e ∈ cs47l92_dapm_routes, ∀ r ∈ sample_route_macros e,
      r.sink ∉ dai_stream_names ∧ r.source ∉ dai_stream_names := by
  decide

theorem dai_routes_match_channels_witness :
    (∀ e ∈ cs47l92_dapm_routes, ∀ r ∈ sample_route_macros e,
      r.sink ∉ dai_stream_names ∧ r.source ∉ dai_stream_names) ∧
    ((∀ n ∈ aif_dai_names, n ∈ cs47l92_dai.map dai_driver.name) ∧
    (∀ d ∈ cs47l92_dai, d.name ∈ aif_dai_names →
      ∃ p c, d.playback = some p ∧ d.capture = some c ∧
        ((all_routes sample_route_macros).filter (is_tx_route c.stream_name)).length =
          c.channels_max ∧
        ((all_routes sample_route_macros).filter (is_rx_route p.stream_name)).length =
          p.channels_max) ∧
    (∀ k n, k = DapmKind.aif_out ∨ k = DapmKind.aif_in →
      WidgetEntry.dapm k n ∈ cs47l92_dapm_widgets →
      ((all_routes sample_route_macros).filter (is_stream_link n)).length ≤ 1)) :=
  ⟨sample_route_macros_ok, dai_routes_match_channels sample_route_macros sample_route_macros_ok⟩

theorem sel_obs_calls (h : Hdr) (m : madera) (env : Env) (mux ep_sel v : Nat) :
    (sel_obs h m env mux ep_sel v).map Obs.ev =
      .regmap_update_bits h.MADERA_OUTPUT_ENABLES_1 h.MADERA_EP_SEL ep_sel ::
        after_sel m env mux := by
  unfold sel_obs after_sel
  split_ifs <;> simp

theorem set_mode_read (h : Hdr) (m : madera) (env : Env) (v : Nat) :
    calls_where is_set_mode (read_cur_obs h m env v) = [] := by
  unfold read_cur_obs calls_where
  split_ifs <;> simp [is_set_mode]

theorem set_mode_disable (h : Hdr) (env : Env) (v : Nat) :
    calls_where is_set_mode (disable_obs h env v) = [] := by
  unfold disable_obs calls_where
  split_ifs <;> simp [is_set_mode]

theorem set_mode_restore (h : Hdr) (env : Env) (cur v : Nat) :
    calls_where is_set_mode (restore_obs h env cur v) = [] := by
  unfold restore_obs calls_where
  split_ifs <;> simp [is_set_mode]

theorem set_mode_sel (h : Hdr) (m : madera) (env : Env) (mux ep_sel v : Nat) :
    calls_where is_set_mode (sel_obs h m env mux ep_sel v) =
      if env.sel_ret = 0 then [.set_output_mode 3 (m.out_mono (u32 (2 + mux)))] else [] := by
  unfold sel_obs calls_where
  split_ifs <;> simp [is_set_mode]

theorem set_mode_calls (h : Hdr) (e : soc_enum) (m : madera) (env : Env) (item : Nat)
    (hvalid : item ≤ u32_sub e.items 1) :
    (demux_calls h e m env item).filter is_set_mode =
      if demux_change h e m env item = 0 then []
      else if env.sel_ret = 0 then [.set_output_mode 3 (m.out_mono (u32 (2 + item)))] else [] := by
  rw [demux_calls_valid h e m env item hvalid]
  change calls_where is_set_mode (demux_obs h e m env item) = _
  unfold demux_obs
  split_ifs with hc hs
  · simp [calls_where, is_set_mode]
  · unfold switch_obs
    simp only [calls_where_append, set_mode_read, set_mode_disable, set_mode_sel,
      set_mode_restore, if_pos hs]
    simp [calls_where, is_set_mode]
  · unfold switch_obs
    simp only [calls_where_append, set_mode_read, set_mode_disable, set_mode_sel,
      set_mode_restore, if_neg hs]
    simp [calls_where, is_set_mode]

theorem switch_calls (h : Hdr) (e : soc_enum) (m : madera) (env : Env) (item : Nat)
    (hvalid : item ≤ u32_sub e.items 1) (hchg : demux_change h e m env item ≠ 0) :
    ∃ before, demux_calls h e m env item = before ++
      (.regmap_update_bits h.MADERA_OUTPUT_ENABLES_1 h.MADERA_EP_SEL (u32 (item <<< e.shift_l)) ::
        after_sel m env item) ++
      [.regmap_update_bits h.MADERA_OUTPUT_ENABLES_1 (out3_ena h) (demux_cur h m env),
       after_restore h env (demux_cur h m env), .dapm_mutex_unlock, .mux_update_power item] := by
  rw [demux_calls_valid h e m env item hvalid]
  unfold demux_obs
  rw [if_neg hchg]
  unfold switch_obs
  simp only [List.map_append, restore_obs_calls, sel_obs_calls]
  refine ⟨[.dapm_mutex_lock,
      .test_bits e.reg (u32 (e.mask <<< e.shift_l)) (u32 (item <<< e.shift_l))] ++
    (read_cur_obs h m env (m.regmap h.MADERA_OUTPUT_ENABLES_1)).map Obs.ev ++
    (disable_obs h env (m.regmap h.MADERA_OUTPUT_ENABLES_1)).map Obs.ev ++
    [.usleep_range 2000 3000], ?_⟩
  simp

/-- C19.  In a run of `cs47l92_put_demux` that reaches the EP_SEL write (valid
item, selection changes): if the write fails, `madera_set_output_mode` is not
called and the restore write of OUT3L_ENA/OUT3R_ENA is still made; if it
succeeds, `madera_set_output_mode` is called exactly once, after the EP_SEL
write and before the restore write, for output 3 and with the flag
`pdata.codec.out_mono[2 + item]`, the index taken in `unsigned int`. -/
theorem put_demux_mode_call (h : Hdr) (e : soc_enum) (m : madera) (env : Env) (item : Nat)
    (hvalid : item ≤ u32_sub e.items 1) (hchg : demux_change h e m env item ≠ 0) :
    (env.sel_ret ≠ 0 →
      (demux_calls h e m env item).filter is_set_mode = [] ∧
      .regmap_update_bits h.MADERA_OUTPUT_ENABLES_1 (out3_ena h) (demux_cur h m env) ∈
        demux_calls h e m env item) ∧
    (env.sel_ret = 0 →
      (demux_calls h e m env item).filter is_set_mode =
        [.set_output_mode 3 (m.out_mono (u32 (2 + item)))] ∧
      ∃ before between after, demux_calls h e m env item =
        before ++
        [.regmap_update_bits h.MADERA_OUTPUT_ENABLES_1 h.MADERA_EP_SEL
          (u32 (item <<< e.shift_l)),
         .set_output_mode 3 (m.out_mono (u32 (2 + item)))] ++ between ++
        [.regmap_update_bits h.MADERA_OUTPUT_ENABLES_1 (out3_ena h) (demux_cur h m env)] ++
        after) := by
  have hmode := set_mode_calls h e m env item hvalid
  rw [if_neg hchg] at hmode
  obtain ⟨before, hcalls⟩ := switch_calls h e m env item hvalid hchg
  constructor
  · intro hs
    rw [if_neg hs] at hmode
    refine ⟨hmode, ?_⟩
    rw [hcalls]
    simp
  · intro hs
    rw [if_pos hs] at hmode
    refine ⟨hmode, before,
      (if env.mode_ret < 0 then [.dev_warn .set_output_mode env.mode_ret] else []),
      [after_restore h env (demux_cur h m env), .dapm_mutex_unlock, .mux_update_power item], ?_⟩
    rw [hcalls]
    unfold after_sel
    rw [if_pos hs]
    simp

theorem put_demux_mode_call_witness :
    ((1 ≤ u32_sub (cs47l92_outdemux_enum mainline).items 1 ∧
        demux_change mainline (cs47l92_outdemux_enum mainline) dev_plain env_sel_fails 1 ≠ 0 ∧
        env_sel_fails.sel_ret ≠ 0) ∧
      ((demux_calls mainline (cs47l92_outdemux_enum mainline) dev_plain env_sel_fails 1).filter
          is_set_mode = [] ∧
        .regmap_update_bits mainline.MADERA_OUTPUT_ENABLES_1 (out3_ena mainline)
            (demux_cur mainline dev_plain env_sel_fails) ∈
          demux_calls mainline (cs47l92_outdemux_enum mainline) dev_plain env_sel_fails 1)) ∧
    ((0xffffffff ≤ u32_sub enum_no_items.items 1 ∧
        demux_change mainline enum_no_items dev_mono1 env_ok 0xffffffff ≠ 0 ∧
        env_ok.sel_ret = 0) ∧
      (demux_calls mainline enum_no_items dev_mono1 env_ok 0xffffffff).filter is_set_mode =
        [.set_output_mode 3 (dev_mono1.out_mono 1)]) :=
  ⟨⟨⟨by decide, by decide, by decide⟩,
    (put_demux_mode_call mainline (cs47l92_outdemux_enum mainline) dev_plain env_sel_fails 1
      (by decide) (by decide)).1 (by decide)⟩,
   ⟨⟨by decide, by decide, by decide⟩,
    ((put_demux_mode_call mainline enum_no_items dev_mono1 env_ok 0xffffffff
      (by decide) (by decide)).2 (by decide)).1⟩⟩

theorem no_read_when_accdet (h : Hdr) (e : soc_enum) (m : madera) (env : Env) (item : Nat)
    (hvalid : item ≤ u32_sub e.items 1) (hacc : accdet_out h m = true) :
    (demux_calls h e m env item).filter is_read = [] := by
  rw [demux_calls_valid h e m env item hvalid]
  change calls_where is_read (demux_obs h e m env item) = _
  unfold demux_obs
  split_ifs with hc
  · simp [calls_where, is_read]
  · unfold switch_obs
    simp only [calls_where_append, reads_disable, reads_sel, reads_restore]
    unfold read_cur_obs
    rw [if_pos hacc]
    simp [calls_where, is_read]

theorem read_cur_obs_calls (h : Hdr) (m : madera) (env : Env) (v : Nat)
    (hacc : accdet_out h m = false) :
    (read_cur_obs h m env v).map Obs.ev =
      .regmap_read h.MADERA_OUTPUT_ENABLES_1 ::
        (if env.read_ret = 0 then [] else [.dev_warn .read_current env.read_ret]) := by
  unfold read_cur_obs
  simp only [hacc, Bool.false_eq_true, if_false]
  split_ifs <;> simp

theorem disable_obs_calls (h : Hdr) (env : Env) (v : Nat) :
    (disable_obs h env v).map Obs.ev =
      .regmap_update_bits h.MADERA_OUTPUT_ENABLES_1 (out3_ena h) 0 ::
        (if env.disable_ret = 0 then [] else [.dev_warn .disable_outputs env.disable_ret]) := by
  unfold disable_obs out3_ena
  split_ifs <;> simp

theorem read_before_disable (h : Hdr) (e : soc_enum) (m : madera) (env : Env) (item : Nat)
    (hvalid : item ≤ u32_sub e.items 1) (hchg : demux_change h e m env item ≠ 0)
    (hacc : accdet_out h m = false) :
    ∃ before between after, demux_calls h e m env item =
      before ++ [.regmap_read h.MADERA_OUTPUT_ENABLES_1] ++ between ++
      [.regmap_update_bits h.MADERA_OUTPUT_ENABLES_1 (out3_ena h) 0] ++ after := by
  rw [demux_calls_valid h e m env item hvalid]
  unfold demux_obs
  rw [if_neg hchg]
  unfold switch_obs
  simp only [List.map_append, read_cur_obs_calls h m env _ hacc, disable_obs_calls]
  refine ⟨[.dapm_mutex_lock,
      .test_bits e.reg (u32 (e.mask <<< e.shift_l)) (u32 (item <<< e.shift_l))],
    (if env.read_ret = 0 then [] else [.dev_warn .read_current env.read_ret]),
    (if env.disable_ret = 0 then [] else [.dev_warn .disable_outputs env.disable_ret]) ++
      [.usleep_range 2000 3000] ++
      (sel_obs h m env item (u32 (item <<< e.shift_l))
        (disable_val h env (m.regmap h.MADERA_OUTPUT_ENABLES_1))).map Obs.ev ++
      (restore_obs h env (demux_cur h m env)
        (sel_val h env (u32 (item <<< e.shift_l))
          (disable_val h env (m.regmap h.MADERA_OUTPUT_ENABLES_1)))).map Obs.ev ++
      [.dapm_mutex_unlock, .mux_update_power item], ?_⟩
  simp

/-- C17.  With an accessory-detect entry on output 3 the restore value is
`madera->hp_ena` and the register is not read; without one and with a
successful read it is the register content read before the outputs are
disabled.  A successful restore write leaves in OUT3L_ENA/OUT3R_ENA the bits
of that value and changes no other bit.  But when the read fails the handler
goes on with the uninitialised `cur`: on a device with both outputs enabled
and an indeterminate value of 0, it writes 0 back and the outputs end up
disabled. -/
theorem put_demux_restore_value :
    (∀ (h : Hdr) (e : soc_enum) (m : madera) (env : Env) (item : Nat),
      item ≤ u32_sub e.items 1 → (∃ i, i < h.MADERA_MAX_ACCESSORY ∧ m.accdet_output i = 3) →
      demux_cur h m env = m.hp_ena ∧ (demux_calls h e m env item).filter is_read = []) ∧
    (∀ (h : Hdr) (e : soc_enum) (m : madera) (env : Env) (item : Nat),
      item ≤ u32_sub e.items 1 → demux_change h e m env item ≠ 0 →
      (∀ i, i < h.MADERA_MAX_ACCESSORY → m.accdet_output i ≠ 3) → env.read_ret = 0 →
      demux_cur h m env = m.regmap h.MADERA_OUTPUT_ENABLES_1 ∧
      ∃ before between after, demux_calls h e m env item =
        before ++ [.regmap_read h.MADERA_OUTPUT_ENABLES_1] ++ between ++
        [.regmap_update_bits h.MADERA_OUTPUT_ENABLES_1 (out3_ena h) 0] ++ after) ∧
    (∀ (h : Hdr) (env : Env) (cur v : Nat), env.restore_ret = 0 → v < 2 ^ 32 →
      restore_val h env cur v &&& out3_ena h = cur &&& out3_ena h ∧
      ∀ k, (out3_ena h).testBit k = false →
        (restore_val h env cur v).testBit k = v.testBit k) ∧
    (demux_change mainline (cs47l92_outdemux_enum mainline) dev_plain env_read_fails 1 ≠ 0 ∧
      (∀ i, i < mainline.MADERA_MAX_ACCESSORY → dev_plain.accdet_output i ≠ 3) ∧
      env_read_fails.read_ret ≠ 0 ∧
      demux_cur mainline dev_plain env_read_fails = env_read_fails.cur_uninit ∧
      demux_cur mainline dev_plain env_read_fails ≠
        dev_plain.regmap mainline.MADERA_OUTPUT_ENABLES_1 ∧
      .regmap_update_bits mainline.MADERA_OUTPUT_ENABLES_1 (out3_ena mainline) 0 ∈
        (demux_calls mainline (cs47l92_outdemux_enum mainline) dev_plain env_read_fails 1).drop 6 ∧
      dev_plain.regmap mainline.MADERA_OUTPUT_ENABLES_1 &&& out3_ena mainline = 0x30 ∧
      demux_after mainline (cs47l92_outdemux_enum mainline) dev_plain env_read_fails 1
        &&& out3_ena mainline = 0) := by
  refine ⟨?_, ?_, ?_, by decide⟩
  · intro h e m env item hvalid hsome
    have hacc := (accdet_out_iff h m).mpr hsome
    refine ⟨?_, no_read_when_accdet h e m env item hvalid hacc⟩
    rw [demux_cur_eq, if_pos hacc]
  · intro h e m env item hvalid hchg hno hread
    have hacc : accdet_out h m = false := by
      cases hb : accdet_out h m
      · rfl
      · obtain ⟨i, hi, h3⟩ := (accdet_out_iff h m).mp hb
        exact absurd h3 (hno i hi)
    refine ⟨?_, read_before_disable h e m env item hvalid hchg hacc⟩
    rw [demux_cur_eq, hacc]
    simp [hread]
  · intro h env cur v hres hv
    unfold restore_val
    rw [if_pos hres]
    refine ⟨updated_and_mask _ _ _, fun k hk => ?_⟩
    unfold out3_ena at hk
    rw [updated_testBit, hk]
    simp [testBit_and_lt v k hv]

/-- C18 as stated fails in two ways.  When the register read of
`snd_soc_test_bits` fails, its error code is taken for a change: although EP_SEL
already holds the requested selection, the handler writes the register,
sleeps and sets the output mode.  And when the EP_SEL write of a first call
fails, a second call with the same selection still changes the register. -/
theorem put_demux_idempotent_counterexample :
    (dev_plain.regmap mainline.MADERA_OUTPUT_ENABLES_1 &&& mainline.MADERA_EP_SEL =
        0 <<< mainline.MADERA_EP_SEL_SHIFT ∧
      Event.regmap_update_bits 0x400 0x8000 0 ∈
        demux_calls mainline (cs47l92_outdemux_enum mainline) dev_plain env_test_fails 0 ∧
      Event.usleep_range 2000 3000 ∈
        demux_calls mainline (cs47l92_outdemux_enum mainline) dev_plain env_test_fails 0 ∧
      Event.set_output_mode 3 false ∈
        demux_calls mainline (cs47l92_outdemux_enum mainline) dev_plain env_test_fails 0) ∧
    (cs47l92_put_demux mainline (cs47l92_outdemux_enum mainline)
        (demux_next dev_plain
          (cs47l92_put_demux mainline (cs47l92_outdemux_enum mainline) dev_plain env_sel_fails 1))
        env_ok 1).2.regmap 0x400 ≠
      (cs47l92_put_demux mainline (cs47l92_outdemux_enum mainline) dev_plain
        env_sel_fails 1).2.regmap 0x400 := by
  decide

theorem and_not_or_and (v mask : Nat) (hv : v < 2 ^ 32) :
    (v &&& u32_not mask) ||| (v &&& mask) = v := by
  have := updated_testBit v mask v
  apply Nat.eq_of_testBit_eq
  intro k
  have hk := updated_testBit v mask v k
  unfold updated at hk
  rw [hk]
  split_ifs
  · rfl
  · exact testBit_and_lt v k hv

theorem updated_lt (v mask val : Nat) (hv : v < 2 ^ 32) (hm : mask < 2 ^ 32) :
    updated v mask val < 2 ^ 32 := by
  unfold updated
  apply Nat.or_lt_two_pow
  · exact lt_of_le_of_lt Nat.and_le_left hv
  · exact lt_of_le_of_lt Nat.and_le_right hm

theorem switch_val_lt (h : Hdr) (hwf : h.WF) (m : madera) (env : Env) (ep_sel v : Nat)
    (hv : v < 2 ^ 32) : switch_val h m env ep_sel v < 2 ^ 32 := by
  have he := ep_sel_lt h hwf
  have ha := hwf.ena_lt
  unfold switch_val restore_val sel_val disable_val
  split_ifs <;> first
    | exact hv
    | (repeat' apply updated_lt) <;> assumption

theorem demux_val_lt (h : Hdr) (hwf : h.WF) (e : soc_enum) (m : madera) (env : Env)
    (item : Nat) (hreg : m.regmap h.MADERA_OUTPUT_ENABLES_1 < 2 ^ 32) :
    demux_val h e m env item < 2 ^ 32 := by
  unfold demux_val
  split_ifs
  · exact hreg
  · exact switch_val_lt h hwf m env _ _ hreg

theorem no_change_of_field (h : Hdr) (hwf : h.WF) (m : madera) (env : Env) (item : Nat)
    (hitem : item ≤ 1) (htest : 0 ≤ env.test_ret)
    (hreg : m.regmap h.MADERA_OUTPUT_ENABLES_1 < 2 ^ 32)
    (hfield : m.regmap h.MADERA_OUTPUT_ENABLES_1 &&& h.MADERA_EP_SEL =
      item <<< h.MADERA_EP_SEL_SHIFT) :
    demux_change h (cs47l92_outdemux_enum h) m env item = 0 := by
  obtain ⟨hep1, _⟩ := outdemux_ep_sel h hwf item hitem
  unfold demux_change
  rw [outdemux_enum_mask h hwf, hep1]
  unfold snd_soc_test_bits
  rw [if_neg (not_lt.mpr htest)]
  have hreg2 : (cs47l92_outdemux_enum h).reg = h.MADERA_OUTPUT_ENABLES_1 := rfl
  simp only [hreg2]
  rw [← hfield, and_not_or_and _ _ hreg]
  simp [int_to_u32]

theorem put_demux_nochange (h : Hdr) (e : soc_enum) (m : madera) (env : Env) (item : Nat)
    (hvalid : item ≤ u32_sub e.items 1) (hc : demux_change h e m env item = 0) :
    (cs47l92_put_demux h e m env item).2.regmap = m.regmap ∧
    demux_calls h e m env item =
      [.dapm_mutex_lock,
       .test_bits e.reg (u32 (e.mask <<< e.shift_l)) (u32 (item <<< e.shift_l)),
       .dapm_mutex_unlock, .mux_update_power item] := by
  constructor
  · unfold demux_change at hc
    unfold cs47l92_put_demux
    rw [if_neg (Nat.not_lt.mpr hvalid)]
    simp only [emit_regmap]
    rw [snd_soc_test_bits_fst h env.test_ret (emit h ⟨m.regmap, []⟩ .dapm_mutex_lock)
      ⟨m.regmap, []⟩ _ _ _ rfl, if_pos hc, snd_soc_test_bits_regmap]
    rfl
  · rw [demux_calls_valid h e m env item hvalid]
    unfold demux_obs
    rw [if_pos hc]
    rfl

theorem demux_after_field (h : Hdr) (hwf : h.WF) (m : madera) (env : Env) (item : Nat)
    (hitem : item ≤ 1) (htest : 0 ≤ env.test_ret) (hsel : env.sel_ret = 0) :
    demux_val h (cs47l92_outdemux_enum h) m env item &&& h.MADERA_EP_SEL =
      item <<< h.MADERA_EP_SEL_SHIFT := by
  obtain ⟨hep1, hep2⟩ := outdemux_ep_sel h hwf item hitem
  have hdisj : out3_ena h &&& h.MADERA_EP_SEL = 0 := by
    rw [Nat.land_comm]; exact hwf.disjoint
  unfold demux_val
  split_ifs with hc
  · unfold demux_change at hc
    have hno := test_bits_nochange h env.test_ret _ _ _ _ htest hc
    rw [outdemux_enum_mask h hwf, hep1] at hno
    have hreg2 : (cs47l92_outdemux_enum h).reg = h.MADERA_OUTPUT_ENABLES_1 := rfl
    rw [hreg2] at hno
    simp only at hno
    have hup : updated (m.regmap h.MADERA_OUTPUT_ENABLES_1) h.MADERA_EP_SEL
        (item <<< h.MADERA_EP_SEL_SHIFT) = m.regmap h.MADERA_OUTPUT_ENABLES_1 := by
      unfold updated
      rw [hep2]
      exact hno.symm
    rw [← hup, updated_and_mask, hep2]
  · unfold switch_val restore_val sel_val
    rw [if_pos hsel, hep1]
    split_ifs
    · unfold out3_ena at hdisj
      rw [updated_and_disjoint _ _ _ _ hdisj (ep_sel_lt h hwf), updated_and_mask, hep2]
    · rw [updated_and_mask, hep2]

/-- C18, amended.  For the OUT3 Demux enum and an item index of 0 or 1: when
the register read of `snd_soc_test_bits` succeeds and EP_SEL already holds the
requested selection, `cs47l92_put_demux` only takes the lock, tests the
register, releases the lock and calls `snd_soc_dapm_mux_update_power`, whose
result it returns; the registers are as before.  Consequently, when that read
succeeds in both calls and the EP_SEL write of the first call succeeds, a
second call with the same selection leaves the registers as the first call
left them. -/
theorem put_demux_idempotent (h : Hdr) (hwf : h.WF) (m : madera) (env env2 : Env) (item : Nat)
    (hitem : item ≤ 1) (htest : 0 ≤ env.test_ret) (htest2 : 0 ≤ env2.test_ret)
    (hreg : m.regmap h.MADERA_OUTPUT_ENABLES_1 < 2 ^ 32) :
    (m.regmap h.MADERA_OUTPUT_ENABLES_1 &&& h.MADERA_EP_SEL = item <<< h.MADERA_EP_SEL_SHIFT →
      demux_calls h (cs47l92_outdemux_enum h) m env item =
        [.dapm_mutex_lock,
         .test_bits h.MADERA_OUTPUT_ENABLES_1 h.MADERA_EP_SEL (item <<< h.MADERA_EP_SEL_SHIFT),
         .dapm_mutex_unlock, .mux_update_power item] ∧
      (cs47l92_put_demux h (cs47l92_outdemux_enum h) m env item).1 = env.power item ∧
      (cs47l92_put_demux h (cs47l92_outdemux_enum h) m env item).2.regmap = m.regmap) ∧
    (env.sel_ret = 0 →
      (cs47l92_put_demux h (cs47l92_outdemux_enum h)
        (demux_next m (cs47l92_put_demux h (cs47l92_outdemux_enum h) m env item))
        env2 item).2.regmap =
      (cs47l92_put_demux h (cs47l92_outdemux_enum h) m env item).2.regmap) := by
  have hvalid : item ≤ u32_sub (cs47l92_outdemux_enum h).items 1 := by
    rw [outdemux_enum_sub]; exact hitem
  obtain ⟨hep1, _⟩ := outdemux_ep_sel h hwf item hitem
  constructor
  · intro hfield
    have hc := no_change_of_field h hwf m env item hitem htest hreg hfield
    obtain ⟨hr, hcalls⟩ := put_demux_nochange h _ m env item hvalid hc
    refine ⟨?_, cs47l92_put_demux_ret h _ m env item hvalid, hr⟩
    rw [hcalls, outdemux_enum_mask h hwf, hep1]
    rfl
  · intro hsel
    have hv1 := cs47l92_put_demux_regmap h (cs47l92_outdemux_enum h) m env item hvalid
    have hfield := demux_after_field h hwf m env item hitem htest hsel
    have hlt := demux_val_lt h hwf (cs47l92_outdemux_enum h) m env item hreg
    rw [← hv1] at hfield hlt
    have hc := no_change_of_field h hwf
      (demux_next m (cs47l92_put_demux h (cs47l92_outdemux_enum h) m env item)) env2 item
      hitem htest2 hlt hfield
    exact (put_demux_nochange h _ _ env2 item hvalid hc).1

theorem put_demux_idempotent_witness :
    (mainline.WF ∧ 1 ≤ 1 ∧ 0 ≤ env_ok.test_ret ∧ 0 ≤ env_ok.test_ret ∧
      dev_plain.regmap mainline.MADERA_OUTPUT_ENABLES_1 < 2 ^ 32 ∧ env_ok.sel_ret = 0) ∧
    (cs47l92_put_demux mainline (cs47l92_outdemux_enum mainline)
        (demux_next dev_plain
          (cs47l92_put_demux mainline (cs47l92_outdemux_enum mainline) dev_plain env_ok 1))
        env_ok 1).2.regmap =
      (cs47l92_put_demux mainline (cs47l92_outdemux_enum mainline) dev_plain env_ok 1).2.regmap :=
  ⟨⟨mainline_wf, by decide, by decide, by decide, by decide, by decide⟩,
   (put_demux_idempotent mainline mainline_wf dev_plain env_ok env_ok 1
     (by decide) (by decide) (by decide) (by decide)).2 (by decide)⟩

/-- C21.  `cs47l92_adsp_power_ev` reads MADERA_DSP_CLOCK_2 first.  If the read
fails it returns the read error and calls neither `madera_set_adsp_clk` nor
`wm_adsp2_early_event`.  Otherwise, on SND_SOC_DAPM_PRE_PMU it calls
`madera_set_adsp_clk` with the widget shift and the frequency read and, if
that fails, returns its error without calling `wm_adsp2_early_event`; on any
other event it does not call `madera_set_adsp_clk`.  In the remaining cases it
returns the result of `wm_adsp2_early_event`, called last with the event and
the frequency read. -/
theorem adsp_power_ev_result (h : Hdr) (env : AdspEnv) (w_shift : Nat) (event : Int) :
    (env.read_ret ≠ 0 →
      cs47l92_adsp_power_ev h env w_shift event =
        (env.read_ret, [.regmap_read h.MADERA_DSP_CLOCK_2, .dev_err_read env.read_ret])) ∧
    (env.read_ret = 0 → event = h.SND_SOC_DAPM_PRE_PMU → env.set_clk_ret ≠ 0 →
      cs47l92_adsp_power_ev h env w_shift event =
        (env.set_clk_ret, [.regmap_read h.MADERA_DSP_CLOCK_2,
          .madera_set_adsp_clk w_shift env.dsp_clock_2])) ∧
    (env.read_ret = 0 → event = h.SND_SOC_DAPM_PRE_PMU → env.set_clk_ret = 0 →
      cs47l92_adsp_power_ev h env w_shift event =
        (env.early_event_ret, [.regmap_read h.MADERA_DSP_CLOCK_2,
          .madera_set_adsp_clk w_shift env.dsp_clock_2,
          .wm_adsp2_early_event event env.dsp_clock_2])) ∧
    (env.read_ret = 0 → event ≠ h.SND_SOC_DAPM_PRE_PMU →
      cs47l92_adsp_power_ev h env w_shift event =
        (env.early_event_ret, [.regmap_read h.MADERA_DSP_CLOCK_2,
          .wm_adsp2_early_event event env.dsp_clock_2])) := by
  unfold cs47l92_adsp_power_ev
  refine ⟨fun h1 => ?_, fun h1 h2 h3 => ?_, fun h1 h2 h3 => ?_, fun h1 h2 => ?_⟩
  · simp [h1]
  · simp [h1, h2, h3]
  · simp [h1, h2, h3]
  · simp [h1, h2]

theorem adsp_power_ev_result_witness :
    (adsp_env_clk_fails.read_ret = 0 ∧ (1 : Int) = mainline.SND_SOC_DAPM_PRE_PMU ∧
      adsp_env_clk_fails.set_clk_ret ≠ 0) ∧
    cs47l92_adsp_power_ev mainline adsp_env_clk_fails 0 1 =
      (adsp_env_clk_fails.set_clk_ret, [.regmap_read mainline.MADERA_DSP_CLOCK_2,
        .madera_set_adsp_clk 0 adsp_env_clk_fails.dsp_clock_2]) :=
  ⟨⟨by decide, by decide, by decide⟩,
   (adsp_power_ev_result mainline adsp_env_clk_fails 0 1).2.1
     (by decide) (by decide) (by decide)⟩

/-- C22.  `cs47l92_adsp2_irq` returns IRQ_NONE exactly when
`wm_adsp_compr_handle_irq` returns -ENODEV; for every other result, negative
or not, it returns IRQ_HANDLED. -/
theorem adsp2_irq_result (h : Hdr) (handle_ret : Int) :
    ((cs47l92_adsp2_irq h handle_ret).1 = irqreturn.IRQ_NONE ↔ handle_ret = -h.ENODEV) ∧
    (handle_ret ≠ -h.ENODEV → (cs47l92_adsp2_irq h handle_ret).1 = irqreturn.IRQ_HANDLED) := by
  unfold cs47l92_adsp2_irq
  by_cases hr : handle_ret = -h.ENODEV
  · simp [hr]
  · simp [hr]

theorem adsp2_irq_result_witness :
    (-5 : Int) ≠ -mainline.ENODEV ∧
    (cs47l92_adsp2_irq mainline (-5)).1 = irqreturn.IRQ_HANDLED :=
  ⟨by decide, (adsp2_irq_result mainline (-5)).2 (by decide)⟩

/-- C23.  When `cs47l92_codec_probe` gets past `madera_init_inputs` it makes one
register update, of MADERA_AUXPDM1_CTRL_0 under the mask
`MADERA_AUXPDM1_TXEDGE_MASK | MADERA_AUXPDM1_MSTR_MASK`.  For every setting of
the two platform data flags that update sets the MSTR bit exactly when
`auxpdm_slave_mode` is false and the TXEDGE bit exactly when
`auxpdm_falling_edge` is true, and changes no other bit; the register holds
the updated content when the write succeeds and its old content otherwise. -/
theorem codec_probe_auxpdm (h : Hdr) (env : CodecProbeEnv)
    (hdisj : h.MADERA_AUXPDM1_MSTR_MASK &&& h.MADERA_AUXPDM1_TXEDGE_MASK = 0)
    (hreg : env.auxpdm1_ctrl_0 < 2 ^ 32) (hin : env.init_inputs_ret = 0) :
    (cs47l92_codec_probe h env).calls.filter
        (fun ev => match ev with
          | .regmap_update_bits _ _ _ => true
          | _ => false) =
      [.regmap_update_bits h.MADERA_AUXPDM1_CTRL_0
        (h.MADERA_AUXPDM1_TXEDGE_MASK ||| h.MADERA_AUXPDM1_MSTR_MASK) (auxpdm_val h env)] ∧
    (updated env.auxpdm1_ctrl_0
        (h.MADERA_AUXPDM1_TXEDGE_MASK ||| h.MADERA_AUXPDM1_MSTR_MASK) (auxpdm_val h env)
        &&& h.MADERA_AUXPDM1_MSTR_MASK =
      if env.auxpdm_slave_mode then 0 else h.MADERA_AUXPDM1_MSTR_MASK) ∧
    (updated env.auxpdm1_ctrl_0
        (h.MADERA_AUXPDM1_TXEDGE_MASK ||| h.MADERA_AUXPDM1_MSTR_MASK) (auxpdm_val h env)
        &&& h.MADERA_AUXPDM1_TXEDGE_MASK =
      if env.auxpdm_falling_edge then h.MADERA_AUXPDM1_TXEDGE_MASK else 0) ∧
    (∀ k, (h.MADERA_AUXPDM1_TXEDGE_MASK ||| h.MADERA_AUXPDM1_MSTR_MASK).testBit k = false →
      (updated env.auxpdm1_ctrl_0
        (h.MADERA_AUXPDM1_TXEDGE_MASK ||| h.MADERA_AUXPDM1_MSTR_MASK)
        (auxpdm_val h env)).testBit k = env.auxpdm1_ctrl_0.testBit k) ∧
    (cs47l92_codec_probe h env).auxpdm1_ctrl_0 =
      (if env.update_ret = 0 then
        updated env.auxpdm1_ctrl_0
          (h.MADERA_AUXPDM1_TXEDGE_MASK ||| h.MADERA_AUXPDM1_MSTR_MASK) (auxpdm_val h env)
      else env.auxpdm1_ctrl_0) := by
  have hm : ∀ k, h.MADERA_AUXPDM1_TXEDGE_MASK.testBit k = true →
      h.MADERA_AUXPDM1_MSTR_MASK.testBit k = false :=
    fun k hk => and_eq_zero_testBit hdisj hk
  have ht : ∀ k, h.MADERA_AUXPDM1_MSTR_MASK.testBit k = true →
      h.MADERA_AUXPDM1_TXEDGE_MASK.testBit k = false := by
    intro k hk
    cases hb : h.MADERA_AUXPDM1_TXEDGE_MASK.testBit k
    · rfl
    · rw [hm k hb] at hk; cases hk
  refine ⟨?_, ?_, ?_, ?_, ?_⟩
  · unfold cs47l92_codec_probe
    simp only [hin, ne_eq, not_true_eq_false, if_false]
    split_ifs <;> simp
  · apply Nat.eq_of_testBit_eq
    intro k
    simp only [Nat.testBit_and, updated_testBit, Nat.testBit_or, auxpdm_val]
    cases hmk : h.MADERA_AUXPDM1_MSTR_MASK.testBit k
    · cases env.auxpdm_slave_mode <;> simp [hmk]
    · have := ht k hmk
      cases env.auxpdm_slave_mode <;> cases env.auxpdm_falling_edge <;>
        simp [hmk, this, Nat.testBit_or]
  · apply Nat.eq_of_testBit_eq
    intro k
    simp only [Nat.testBit_and, updated_testBit, Nat.testBit_or, auxpdm_val]
    cases htk : h.MADERA_AUXPDM1_TXEDGE_MASK.testBit k
    · cases env.auxpdm_falling_edge <;> simp [htk]
    · have := hm k htk
      cases env.auxpdm_slave_mode <;> cases env.auxpdm_falling_edge <;>
        simp [htk, this, Nat.testBit_or]
  · intro k hk
    rw [updated_testBit, hk]
    simp [testBit_and_lt _ k hreg]
  · unfold cs47l92_codec_probe
    simp only [hin, ne_eq, not_true_eq_false, if_false]
    split_ifs <;> rfl

theorem codec_probe_auxpdm_witness :
    (mainline.MADERA_AUXPDM1_MSTR_MASK &&& mainline.MADERA_AUXPDM1_TXEDGE_MASK = 0 ∧
      (codec_env false true 0x1).auxpdm1_ctrl_0 < 2 ^ 32 ∧
      (codec_env false true 0x1).init_inputs_ret = 0) ∧
    (cs47l92_codec_probe mainline (codec_env false true 0x1)).auxpdm1_ctrl_0 =
      (if (codec_env false true 0x1).update_ret = 0 then
        updated (codec_env false true 0x1).auxpdm1_ctrl_0
          (mainline.MADERA_AUXPDM1_TXEDGE_MASK ||| mainline.MADERA_AUXPDM1_MSTR_MASK)
          (auxpdm_val mainline (codec_env false true 0x1))
      else (codec_env false true 0x1).auxpdm1_ctrl_0) ∧
    (cs47l92_codec_probe mainline (codec_env false true 0x1)).auxpdm1_ctrl_0 = 0x19 :=
  ⟨⟨by decide, by decide, by decide⟩,
   (codec_probe_auxpdm mainline (codec_env false true 0x1) (by decide) (by decide)
     (by decide)).2.2.2.2, by decide⟩

theorem probe_after_core (h : Hdr) (env : ProbeEnv) (hirq : env.irq_dev = true)
    (hk : env.kzalloc_ok = true) (hcore : env.core_init_ret = 0) :
    cs47l92_probe h env = probe_dsp env probe_head := by
  unfold cs47l92_probe probe_head
  simp [hirq, hk, hcore]

/-- C24.  After a successful `madera_core_init`, `cs47l92_probe` returns the
error of the step that fails.  When `madera_request_irq`, `wm_adsp2_init` or
`snd_soc_register_platform` fails, the teardown calls are one for each
resource acquired, in reverse order.  When `madera_init_bus_error_irq` fails,
`wm_adsp2_remove` is called twice for the one `wm_adsp2_init`; when
`snd_soc_register_codec` fails, `snd_soc_unregister_platform` is called twice
for the one `snd_soc_register_platform`. -/
theorem probe_error_paths :
    (∀ (h : Hdr) (env : ProbeEnv), env.irq_dev = true → env.kzalloc_ok = true →
      env.core_init_ret = 0 → env.request_irq_ret ≠ 0 →
      cs47l92_probe h env = (env.request_irq_ret,
        probe_head ++ [.madera_request_irq, .dev_err_request_irq env.request_irq_ret,
          .madera_core_destroy])) ∧
    (∀ (h : Hdr) (env : ProbeEnv), env.irq_dev = true → env.kzalloc_ok = true →
      env.core_init_ret = 0 → env.request_irq_ret = 0 → env.adsp2_init_ret ≠ 0 →
      cs47l92_probe h env = (env.adsp2_init_ret,
        probe_head ++ probe_irq env ++ [.wm_adsp2_init,
          .madera_set_irq_wake 0, .madera_free_irq, .madera_core_destroy])) ∧
    (∀ (h : Hdr) (env : ProbeEnv), env.irq_dev = true → env.kzalloc_ok = true →
      env.core_init_ret = 0 → env.request_irq_ret = 0 → env.adsp2_init_ret = 0 →
      env.bus_error_ret ≠ 0 →
      cs47l92_probe h env = (env.bus_error_ret,
        probe_head ++ probe_irq env ++ [.wm_adsp2_init, .madera_init_bus_error_irq,
          .wm_adsp2_remove, .wm_adsp2_remove,
          .madera_set_irq_wake 0, .madera_free_irq, .madera_core_destroy])) ∧
    (∀ (h : Hdr) (env : ProbeEnv), env.irq_dev = true → env.kzalloc_ok = true →
      env.core_init_ret = 0 → env.request_irq_ret = 0 → env.adsp2_init_ret = 0 →
      env.bus_error_ret = 0 → env.register_platform_ret < 0 →
      cs47l92_probe h env = (env.register_platform_ret,
        probe_head ++ probe_irq env ++ [.wm_adsp2_init, .madera_init_bus_error_irq] ++
          probe_setup ++
          [.snd_soc_register_platform, .dev_err_register_platform env.register_platform_ret,
           .pm_runtime_disable, .madera_destroy_bus_error_irq, .wm_adsp2_remove,
           .madera_set_irq_wake 0, .madera_free_irq, .madera_core_destroy])) ∧
    (∀ (h : Hdr) (env : ProbeEnv), env.irq_dev = true → env.kzalloc_ok = true →
      env.core_init_ret = 0 → env.request_irq_ret = 0 → env.adsp2_init_ret = 0 →
      env.bus_error_ret = 0 → 0 ≤ env.register_platform_ret → env.register_codec_ret < 0 →
      cs47l92_probe h env = (env.register_codec_ret,
        probe_head ++ probe_irq env ++ [.wm_adsp2_init, .madera_init_bus_error_irq] ++
          probe_setup ++
          [.snd_soc_register_platform, .snd_soc_register_codec,
           .dev_err_register_codec env.register_codec_ret,
           .snd_soc_unregister_platform, .snd_soc_unregister_platform,
           .pm_runtime_disable, .madera_destroy_bus_error_irq, .wm_adsp2_remove,
           .madera_set_irq_wake 0, .madera_free_irq, .madera_core_destroy])) ∧
    ((cs47l92_probe mainline probe_env_bus_error_fails).1 = -22 ∧
      (cs47l92_probe mainline probe_env_bus_error_fails).2.count .wm_adsp2_init = 1 ∧
      (cs47l92_probe mainline probe_env_bus_error_fails).2.count .wm_adsp2_remove = 2) ∧
    ((cs47l92_probe mainline probe_env_codec_fails).1 = -22 ∧
      (cs47l92_probe mainline probe_env_codec_fails).2.count .snd_soc_register_platform = 1 ∧
      (cs47l92_probe mainline probe_env_codec_fails).2.count
        .snd_soc_unregister_platform = 2) := by
  refine ⟨?_, ?_, ?_, ?_, ?_, by decide, by decide⟩
  · intro h env hirq hk hcore h1
    rw [probe_after_core h env hirq hk hcore]
    simp [probe_dsp, h1, probe_error_core]
  · intro h env hirq hk hcore h1 h2
    rw [probe_after_core h env hirq hk hcore]
    simp [probe_dsp, probe_irq, h1, h2, probe_error_dsp_irq, probe_error_core]
  · intro h env hirq hk hcore h1 h2 h3
    rw [probe_after_core h env hirq hk hcore]
    simp [probe_dsp, probe_irq, h1, h2, h3, probe_error_adsp, probe_error_dsp_irq,
      probe_error_core]
  · intro h env hirq hk hcore h1 h2 h3 h4
    rw [probe_after_core h env hirq hk hcore]
    simp [probe_dsp, probe_register, probe_irq, h1, h2, h3, h4, probe_error_pm_runtime,
      probe_error_adsp, probe_error_dsp_irq, probe_error_core]
  · intro h env hirq hk hcore h1 h2 h3 h4 h5
    rw [probe_after_core h env hirq hk hcore]
    simp [probe_dsp, probe_register, probe_irq, h1, h2, h3, not_lt.mpr h4, h5,
      probe_error_platform, probe_error_pm_runtime, probe_error_adsp, probe_error_dsp_irq,
      probe_error_core]

/-- C25.  `cs47l92_aec_loopback_texts` and `cs47l92_aec_loopback_values` have
eight entries each, the values are pairwise distinct and lie within the field
mask 0xf, and the value paired with an output name X is the shift of the
" NG X Switch" control of `CS47L92_NG_SRC`, control by control. -/
theorem aec_loopback_values_match :
    (cs47l92_aec_loopback_texts.length = 8 ∧ cs47l92_aec_loopback_values.length = 8) ∧
    cs47l92_aec_loopback_values.Nodup ∧
    (∀ v ∈ cs47l92_aec_loopback_values, v &&& cs47l92_aec_loopback_mask = v) ∧
    (∀ (name : String) (base : Nat),
      (CS47L92_NG_SRC name base).map (fun c => (c.name, c.shift)) =
        (cs47l92_aec_loopback_texts.zip cs47l92_aec_loopback_values).map
          (fun p => (name ++ (" NG " ++ p.1 ++ " Switch"), p.2))) := by
  refine ⟨by decide, by decide, by decide, fun name base => ?_⟩
  rfl

set_option maxRecDepth 100000 in
theorem outdemux_routes_literal :
    literal_routes.filter (is_from "OUT3 Demux") =
      (cs47l92_outdemux_texts.map OutDemuxText.text).flatMap
        (fun t => [⟨t ++ "L", some t, "OUT3 Demux"⟩, ⟨t ++ "R", some t, "OUT3 Demux"⟩]) := by
  decide

set_option maxRecDepth 100000 in
theorem aec_loopback_routes_literal :
    (literal_routes.filter (is_into "AEC1 Loopback")).map snd_soc_dapm_route.control =
      cs47l92_aec_loopback_texts.map some := by
  decide

set_option maxRecDepth 100000 in
theorem aec_loopback_label_count_literal :
    ∀ t ∈ cs47l92_aec_loopback_texts,
      (literal_routes.filter (is_into_labelled "AEC1 Loopback" t)).length = 1 := by
  decide

set_option maxRecDepth 100000 in
theorem auxpdm_in_routes_literal :
    literal_routes.filter (is_into "AUXPDM1 Input") =
      cs47l92_auxpdm_in_texts.map (fun t => ⟨"AUXPDM1 Input", some t, t ++ " PGA"⟩) := by
  decide

set_option maxRecDepth 100000 in
theorem auxpdm_in_label_count_literal :
    ∀ t ∈ cs47l92_auxpdm_in_texts,
      literal_routes.filter (is_into_labelled "AUXPDM1 Input" t) =
        [⟨"AUXPDM1 Input", some t, t ++ " PGA"⟩] := by
  decide

set_option maxRecDepth 100000 in
theorem selector_widgets_declared :
    is_widget DapmKind.demux "OUT3 Demux" = true ∧
    is_widget DapmKind.mux "AEC1 Loopback" = true ∧
    is_widget DapmKind.mux "AUXPDM1 Input" = true ∧
    (∀ t ∈ cs47l92_outdemux_texts.map OutDemuxText.text,
      is_widget DapmKind.output (t ++ "L") = true ∧
        is_widget DapmKind.output (t ++ "R") = true) ∧
    (∀ t ∈ cs47l92_auxpdm_in_texts, is_widget DapmKind.pga_e (t ++ " PGA") = true) := by
  decide

set_option maxRecDepth 100000 in
theorem sample_route_macros_selectors :
    ∀ e ∈ cs47l92_dapm_routes, ∀ r ∈ sample_route_macros e,
      r.source ≠ "OUT3 Demux" ∧ r.sink ≠ "AEC1 Loopback" ∧ r.sink ≠ "AUXPDM1 Input" := by
  decide

set_option maxRecDepth 100000 in
theorem supply_routes_literal :
    (∀ w ∈ ["OUT1L", "OUT1R", "OUT2L", "OUT2R", "OUT3L", "OUT3R", "OUT5L", "OUT5R"],
      is_widget DapmKind.pga_e w = true ∧
        has_supply_route w "OUTCLK" = true ∧ has_supply_route w "SYSCLK" = true) ∧
    (∀ w ∈ ["OUT1L", "OUT1R", "OUT2L", "OUT2R", "OUT3L", "OUT3R"],
      has_supply_route w "CPVDD1" = true ∧ has_supply_route w "CPVDD2" = true) ∧
    (∀ w ∈ ["ASRC1IN1L", "ASRC1IN1R", "ASRC1IN2L", "ASRC1IN2R"],
      is_widget DapmKind.pga_e w = true ∧
        has_supply_route w "ASRC1CLK" = true ∧ has_supply_route w "SYSCLK" = true ∧
        has_supply_route w "ASYNCCLK" = true) ∧
    (is_widget DapmKind.supply "OUTCLK" = true ∧ is_widget DapmKind.supply "SYSCLK" = true ∧
      is_widget DapmKind.supply "ASRC1CLK" = true ∧
      is_widget DapmKind.supply "ASYNCCLK" = true ∧
      is_widget DapmKind.regulator_supply "CPVDD1" = true ∧
      is_widget DapmKind.regulator_supply "CPVDD2" = true) := by
  decide

/-- C26.  Whatever the route macros expand to, as long as none of their routes
leaves "OUT3 Demux" or enters "AEC1 Loopback" or "AUXPDM1 Input": the routes
out of "OUT3 Demux" are, text by text of `cs47l92_outdemux_texts`, the route
labelled with the text to the left output and the one to the right output of
that name, and no others; the labels of the routes into "AEC1 Loopback" are the
entries of `cs47l92_aec_loopback_texts`, each on exactly one route; the routes
into "AUXPDM1 Input" are, text by text of `cs47l92_auxpdm_in_texts`, the route
labelled with the text coming from the PGA of that input, each text on exactly
that one route.  The three selectors, the four outputs and the four PGAs are
declared widgets. -/
theorem selector_texts_label_routes (x : RouteEntry → List snd_soc_dapm_route)
    (hx : ∀ e ∈ cs47l92_dapm_routes, ∀ r ∈ x e,
      r.source ≠ "OUT3 Demux" ∧ r.sink ≠ "AEC1 Loopback" ∧ r.sink ≠ "AUXPDM1 Input") :
    (all_routes x).filter (is_from "OUT3 Demux") =
      (cs47l92_outdemux_texts.map OutDemuxText.text).flatMap
        (fun t => [⟨t ++ "L", some t, "OUT3 Demux"⟩, ⟨t ++ "R", some t, "OUT3 Demux"⟩]) ∧
    (((all_routes x).filter (is_into "AEC1 Loopback")).map snd_soc_dapm_route.control =
        cs47l92_aec_loopback_texts.map some ∧
      ∀ t ∈ cs47l92_aec_loopback_texts,
        ((all_routes x).filter (is_into_labelled "AEC1 Loopback" t)).length = 1) ∧
    ((all_routes x).filter (is_into "AUXPDM1 Input") =
        cs47l92_auxpdm_in_texts.map (fun t => ⟨"AUXPDM1 Input", some t, t ++ " PGA"⟩) ∧
      ∀ t ∈ cs47l92_auxpdm_in_texts,
        (all_routes x).filter (is_into_labelled "AUXPDM1 Input" t) =
          [⟨"AUXPDM1 Input", some t, t ++ " PGA"⟩]) ∧
    (is_widget DapmKind.demux "OUT3 Demux" = true ∧
      is_widget DapmKind.mux "AEC1 Loopback" = true ∧
      is_widget DapmKind.mux "AUXPDM1 Input" = true ∧
      (∀ t ∈ cs47l92_outdemux_texts.map OutDemuxText.text,
        is_widget DapmKind.output (t ++ "L") = true ∧
          is_widget DapmKind.output (t ++ "R") = true) ∧
      (∀ t ∈ cs47l92_auxpdm_in_texts, is_widget DapmKind.pga_e (t ++ " PGA") = true)) := by
  refine ⟨?_, ⟨?_, fun t ht => ?_⟩, ⟨?_, fun t ht => ?_⟩, selector_widgets_declared⟩
  · rw [filter_all_routes x (is_from "OUT3 Demux")
      (fun e he r hr => by simp [is_from, (hx e he r hr).1])]
    exact outdemux_routes_literal
  · rw [filter_all_routes x (is_into "AEC1 Loopback")
      (fun e he r hr => by simp [is_into, (hx e he r hr).2.1])]
    exact aec_loopback_routes_literal
  · rw [filter_all_routes x (is_into_labelled "AEC1 Loopback" t)
      (fun e he r hr => by simp [is_into_labelled, (hx e he r hr).2.1])]
    exact aec_loopback_label_count_literal t ht
  · rw [filter_all_routes x (is_into "AUXPDM1 Input")
      (fun e he r hr => by simp [is_into, (hx e he r hr).2.2])]
    exact auxpdm_in_routes_literal
  · rw [filter_all_routes x (is_into_labelled "AUXPDM1 Input" t)
      (fun e he r hr => by simp [is_into_labelled, (hx e he r hr).2.2])]
    exact auxpdm_in_label_count_literal t ht

theorem selector_texts_label_routes_witness :
    (∀ e ∈ cs47l92_dapm_routes, ∀ r ∈ sample_route_macros e,
      r.source ≠ "OUT3 Demux" ∧ r.sink ≠ "AEC1 Loopback" ∧ r.sink ≠ "AUXPDM1 Input") ∧
    ((all_routes sample_route_macros).filter (is_from "OUT3 Demux") =
      (cs47l92_outdemux_texts.map OutDemuxText.text).flatMap
        (fun t => [⟨t ++ "L", some t, "OUT3 Demux"⟩, ⟨t ++ "R", some t, "OUT3 Demux"⟩])) :=
  ⟨sample_route_macros_selectors,
    (selector_texts_label_routes sample_route_macros sample_route_macros_selectors).1⟩

/-- C27.  `cs47l92_dapm_routes` has, for each of the output PGAs OUT1L, OUT1R,
OUT2L, OUT2R, OUT3L, OUT3R, OUT5L and OUT5R, an unlabelled route from "OUTCLK"
and one from "SYSCLK"; for each of OUT1L..OUT3R also one from "CPVDD1" and one
from "CPVDD2"; and for each of ASRC1IN1L, ASRC1IN1R, ASRC1IN2L and ASRC1IN2R
one from "ASRC1CLK", one from "SYSCLK" and one from "ASYNCCLK".  The sinks are
declared PGA widgets and the sources declared supply widgets. -/
theorem supply_routes_present :
    (∀ w ∈ ["OUT1L", "OUT1R", "OUT2L", "OUT2R", "OUT3L", "OUT3R", "OUT5L", "OUT5R"],
      is_widget DapmKind.pga_e w = true ∧
        has_supply_route w "OUTCLK" = true ∧ has_supply_route w "SYSCLK" = true) ∧
    (∀ w ∈ ["OUT1L", "OUT1R", "OUT2L", "OUT2R", "OUT3L", "OUT3R"],
      has_supply_route w "CPVDD1" = true ∧ has_supply_route w "CPVDD2" = true) ∧
    (∀ w ∈ ["ASRC1IN1L", "ASRC1IN1R", "ASRC1IN2L", "ASRC1IN2R"],
      is_widget DapmKind.pga_e w = true ∧
        has_supply_route w "ASRC1CLK" = true ∧ has_supply_route w "SYSCLK" = true ∧
        has_supply_route w "ASYNCCLK" = true) ∧
    (is_widget DapmKind.supply "OUTCLK" = true ∧ is_widget DapmKind.supply "SYSCLK" = true ∧
      is_widget DapmKind.supply "ASRC1CLK" = true ∧
      is_widget DapmKind.supply "ASYNCCLK" = true ∧
      is_widget DapmKind.regulator_supply "CPVDD1" = true ∧
      is_widget DapmKind.regulator_supply "CPVDD2" = true) :=
  supply_routes_literal

end Cs47l92
